import Mathlib

/-!
# Grasp: target filtering and movement-adaptive selection

A shallow embedding of the decision layer of the Grasp plugin:

* the five per-candidate filters of `Source/Grasp/Private/Filtering`
  (`UGraspFilter_IsWithinGraspableAngle`, `..Height`, `..Range`, `..Data`,
  `UGraspFilter_CanActivateAbility`), each a `ShouldFilterTarget` function;
* `UGraspTargetSelection::GetPawnMovementAlpha`, `GetCollisionShape`,
  `UpdateGraspAbilityRadius` and `ProcessOverlapResults` of
  `Source/Grasp/Private/Targeting/GraspTargetSelection.cpp`.

Conventions of the embedding.

* A C++ pointer that may be null is an `Option`; `Cast<T>(p)` is a field holding
  the `Option` result of the cast.
* `int32` values are `Int`.  The entry loops count `i` from `0` up to
  `GetNumGraspData()`, which is at most `2^31 - 1`, so `i++` never wraps.
* `float` and `double` values are exact rationals (`ℚ`), and the arithmetic that only
  produces a returned or stored number is exact; vector magnitudes computed by the
  engine (`FVector::Size`, `FVector::Size2D`) are inputs.  Where a `float` value
  decides what the code does, it is computed as the machine computes it (`FFloat`):
  the quotients of `GetPawnMovementAlpha`, which are infinite or NaN for a zero divisor
  and then clamp to 1 or 0, and the two squares compared by the cylinder test of
  `ProcessOverlapResults`, which are `double` results (each operation rounded to
  nearest, ties to even) stored in `float` variables.
* An actor pointer is the actor it points to; two pointers are equal when the actors
  have the same `Id`.  A `TArray` is a `List`.
* The engine's quaternion functions and the source events of the task are parameters
  (`FQuatMath`, `FGraspSourceEvents`).
* The per-entry queries of `UGraspStatics` (`CanInteractWithAngle`,
  `CanInteractWithHeight`, `CanInteractWithRange`, `CanInteractWith`,
  `CanGraspActivateAbility`) are parameters of the filters that call them.
-/

namespace Grasp

/-! ## Machine floating point

The values that decide a branch of the code are computed as the machine computes them:
IEEE 754 operations in round-to-nearest-even, on finite numbers, infinities and NaN. -/

/-- A value of a `float` or `double` variable: a finite number, an infinity or a NaN.
The sign of a zero is not kept. -/
inductive FFloat where
  | Finite (Value : ℚ)
  | Infinity (bNegative : Bool)
  | NaN
  deriving DecidableEq

/-- An IEEE 754 binary format: the number of significand bits (the hidden bit included)
and the exponents of its smallest and largest normal numbers. -/
structure FFloatFormat where
  Precision : Nat
  MinExponent : Int
  MaxExponent : Int

/-- The format of `float` (binary32). -/
def FFloatFormat.Single : FFloatFormat :=
  { Precision := 24, MinExponent := -126, MaxExponent := 127 }

/-- The format of `double` (binary64). -/
def FFloatFormat.Double : FFloatFormat :=
  { Precision := 53, MinExponent := -1022, MaxExponent := 1023 }

/-- The integer nearest to `N / D`, the even one of the two when `N / D` lies halfway
between them (`D` positive). -/
def FFloat.RoundHalfEven (N D : Nat) : Nat :=
  let Q := N / D
  let R := N % D
  if 2 * R < D then Q else if D < 2 * R then Q + 1 else if Q % 2 = 0 then Q else Q + 1

/-- The position of the leading binary digit of `N`, `⌊log₂ N⌋`, and 0 for `N = 0`;
`Fuel` bounds the number of halvings and `N` itself is always enough. -/
def FFloat.Log2 : Nat → Nat → Nat
  | 0, _ => 0
  | Fuel + 1, N => if N < 2 then 0 else FFloat.Log2 Fuel (N / 2) + 1

/-- The binary exponent of the positive rational `N / D`: the `E` with
`2 ^ E ≤ N / D < 2 ^ (E + 1)`. -/
def FFloat.Exponent (N D : Nat) : Int :=
  let E0 : Int := (FFloat.Log2 N N : Int) - (FFloat.Log2 D D : Int)
  if 0 ≤ E0 then (if D * 2 ^ E0.toNat ≤ N then E0 else E0 - 1)
  else (if D ≤ N * 2 ^ (-E0).toNat then E0 else E0 - 1)

/-- The positive rational `N / D` rounded to the nearest number with `Precision`
significand bits, ties to even, with the exponent bounded below by `MinExponent` (so that
small numbers round to subnormal numbers or to 0) and not bounded above. -/
def FFloatFormat.RoundMagnitude (Format : FFloatFormat) (N D : Nat) : ℚ :=
  let E := max (FFloat.Exponent N D) Format.MinExponent
  let K := E - ((Format.Precision : Int) - 1)
  if 0 ≤ K then
    ((FFloat.RoundHalfEven N (D * 2 ^ K.toNat) * 2 ^ K.toNat : Nat) : ℚ)
  else
    ((FFloat.RoundHalfEven (N * 2 ^ (-K).toNat) D : Nat) : ℚ) / ((2 ^ (-K).toNat : Nat) : ℚ)

/-- Rounding of a real number to the format, as IEEE 754 round-to-nearest-even does it:
the nearest representable number, and an infinity when the rounded magnitude reaches
`2 ^ (MaxExponent + 1)`. -/
def FFloatFormat.Round (Format : FFloatFormat) (X : ℚ) : FFloat :=
  if X = 0 then FFloat.Finite 0
  else
    let Magnitude := Format.RoundMagnitude X.num.natAbs X.den
    if ((2 ^ (Format.MaxExponent + 1).toNat : Nat) : ℚ) ≤ Magnitude then
      FFloat.Infinity (decide (X < 0))
    else FFloat.Finite (if X < 0 then -Magnitude else Magnitude)

/-- Conversion of a floating-point value to the format (`double` to `float`): a finite
value is rounded, an infinity and a NaN stay what they are. -/
def FFloatFormat.Convert (Format : FFloatFormat) : FFloat → FFloat
  | FFloat.Finite Value => Format.Round Value
  | FFloat.Infinity bNegative => FFloat.Infinity bNegative
  | FFloat.NaN => FFloat.NaN

/-- The sum `A + B` in the format. -/
def FFloatFormat.Add (Format : FFloatFormat) : FFloat → FFloat → FFloat
  | FFloat.Finite A, FFloat.Finite B => Format.Round (A + B)
  | FFloat.Finite _, FFloat.Infinity bNegative => FFloat.Infinity bNegative
  | FFloat.Infinity bNegative, FFloat.Finite _ => FFloat.Infinity bNegative
  | FFloat.Infinity bNegativeA, FFloat.Infinity bNegativeB =>
    if bNegativeA = bNegativeB then FFloat.Infinity bNegativeA else FFloat.NaN
  | _, _ => FFloat.NaN

/-- The negation `-A`. -/
def FFloat.Neg : FFloat → FFloat
  | FFloat.Finite A => FFloat.Finite (-A)
  | FFloat.Infinity bNegative => FFloat.Infinity (!bNegative)
  | FFloat.NaN => FFloat.NaN

/-- The difference `A - B` in the format. -/
def FFloatFormat.Sub (Format : FFloatFormat) (A B : FFloat) : FFloat :=
  Format.Add A B.Neg

/-- The product `A * B` in the format. -/
def FFloatFormat.Mul (Format : FFloatFormat) : FFloat → FFloat → FFloat
  | FFloat.Finite A, FFloat.Finite B => Format.Round (A * B)
  | FFloat.Finite A, FFloat.Infinity bNegative =>
    if A = 0 then FFloat.NaN else FFloat.Infinity (bNegative != decide (A < 0))
  | FFloat.Infinity bNegative, FFloat.Finite B =>
    if B = 0 then FFloat.NaN else FFloat.Infinity (bNegative != decide (B < 0))
  | FFloat.Infinity bNegativeA, FFloat.Infinity bNegativeB =>
    FFloat.Infinity (bNegativeA != bNegativeB)
  | _, _ => FFloat.NaN

/-- The comparison `A < B`: false when either side is a NaN. -/
def FFloat.Lt : FFloat → FFloat → Bool
  | FFloat.Finite A, FFloat.Finite B => decide (A < B)
  | FFloat.Finite _, FFloat.Infinity bNegative => !bNegative
  | FFloat.Infinity bNegative, FFloat.Finite _ => bNegative
  | FFloat.Infinity bNegativeA, FFloat.Infinity bNegativeB => bNegativeA && !bNegativeB
  | _, _ => false

/-- The comparison `A > B`. -/
def FFloat.Gt (A B : FFloat) : Bool :=
  FFloat.Lt B A

/-! ## Engine and plugin data model -/

/-- Engine `FVector` over exact rationals. -/
structure FVector where
  X : ℚ
  Y : ℚ
  Z : ℚ
  deriving DecidableEq

/-- Engine `FVector::DistSquared(A, B)`. -/
def FVector.DistSquared (A B : FVector) : ℚ :=
  (B.X - A.X) * (B.X - A.X) + (B.Y - A.Y) * (B.Y - A.Y) + (B.Z - A.Z) * (B.Z - A.Z)

/-- Engine `FVector::ZeroVector`. -/
def FVector.ZeroVector : FVector := { X := 0, Y := 0, Z := 0 }

/-- Engine `FVector::operator+`. -/
def FVector.add (A B : FVector) : FVector :=
  { X := A.X + B.X, Y := A.Y + B.Y, Z := A.Z + B.Z }

/-- Engine `FVector::operator-`. -/
def FVector.sub (A B : FVector) : FVector :=
  { X := A.X - B.X, Y := A.Y - B.Y, Z := A.Z - B.Z }

/-- Engine `operator*(Scale, FVector)`. -/
def FVector.scale (Scale : ℚ) (A : FVector) : FVector :=
  { X := Scale * A.X, Y := Scale * A.Y, Z := Scale * A.Z }

/-- Engine `FMath::Square(A)`, `A * A`, on a `double`. -/
def FMath.Square (A : FFloat) : FFloat :=
  FFloatFormat.Double.Mul A A

/-- Engine `FVector::DistSquared2D(V1, V2)`:
`FMath::Square(V2.X - V1.X) + FMath::Square(V2.Y - V1.Y)`, in `double` arithmetic on the
`double` values of the components. -/
def FVector.DistSquared2D (V1 V2 : FVector) : FFloat :=
  FFloatFormat.Double.Add
    (FMath.Square (FFloatFormat.Double.Sub (FFloatFormat.Double.Round V2.X)
      (FFloatFormat.Double.Round V1.X)))
    (FMath.Square (FFloatFormat.Double.Sub (FFloatFormat.Double.Round V2.Y)
      (FFloatFormat.Double.Round V1.Y)))

/-- Engine `FQuat`. -/
structure FQuat where
  X : ℚ
  Y : ℚ
  Z : ℚ
  W : ℚ
  deriving DecidableEq

/-- The engine's quaternion functions used by the selection task: `operator*`,
`GetNormalized()` and `Vector()` (the forward vector of the rotation). -/
structure FQuatMath where
  Mul : FQuat → FQuat → FQuat
  GetNormalized : FQuat → FQuat
  Vector : FQuat → FVector

/-- Shape kind of the selection task, `EGraspTargetingShape` (GraspTargetingTypes.h). -/
inductive EGraspTargetingShape where
  | Box
  | Cylinder
  | Sphere
  | Capsule
  | CharacterCapsule
  deriving DecidableEq

/-- Engine `FCollisionShape` as built by `MakeBox`, `MakeSphere` and `MakeCapsule`. -/
inductive FCollisionShape where
  | MakeBox (BoxHalfExtent : FVector)
  | MakeSphere (SphereRadius : ℚ)
  | MakeCapsule (CapsuleRadius : ℚ) (CapsuleHalfHeight : ℚ)
  deriving DecidableEq

/-- The part of `UCapsuleComponent` read by `GetPawnCapsuleSize`:
`GetScaledCapsuleRadius()` and `GetScaledCapsuleHalfHeight()`. -/
structure UCapsuleComponent where
  ScaledCapsuleRadius : ℚ
  ScaledCapsuleHalfHeight : ℚ
  deriving DecidableEq

/-- Tri-state outcome of a grasp query, `EGraspQueryResult`. -/
inductive EGraspQueryResult where
  | None
  | Highlight
  | Interact
  deriving DecidableEq

/-- Movement selection mode, `EGraspMovementSelectionMode` (GraspTargetingTypes.h). -/
inductive EGraspMovementSelectionMode where
  | Disabled
  | Velocity
  | Acceleration
  | VelocityAndAcceleration
  deriving DecidableEq

/-- The part of `UCharacterMovementComponent` read by `GetPawnMovementAlpha`.
`VelocitySize` is `Velocity.Size()`, `VelocitySize2D` is `Velocity.Size2D()`,
`CurrentAccelerationSize2D` is `GetCurrentAcceleration().Size2D()`. -/
structure UCharacterMovementComponent where
  bIsMovingOnGround : Bool
  VelocitySize : ℚ
  VelocitySize2D : ℚ
  CurrentAccelerationSize2D : ℚ
  MaxSpeed : ℚ
  MaxAcceleration : ℚ
  deriving DecidableEq

/-- An `ACharacter`: `GetCharacterMovement()` and `GetCapsuleComponent()` may be
null. -/
structure ACharacter where
  CharacterMovement : Option UCharacterMovementComponent
  CapsuleComponent : Option UCapsuleComponent := none
  deriving DecidableEq

/-- An `APawn`: `Character` is the result of `Cast<ACharacter>(Pawn)`. -/
structure APawn where
  Character : Option ACharacter
  deriving DecidableEq

/-- An `AActor`.  `Id` is the identity of the object (its address): two pointers are
equal exactly when they point to actors of the same `Id`.  `bIsValid` is what `IsValid`
answers for a non-null pointer to it (false when the object is pending kill or garbage);
`ActorLocation` is `GetActorLocation()`; `Pawn` is `Cast<APawn>`. -/
structure AActor where
  Id : Nat
  bIsValid : Bool
  ActorLocation : FVector
  Pawn : Option APawn
  deriving DecidableEq

/-- Engine `IsValid(Object)`: null is invalid. -/
def IsValid : Option AActor → Bool
  | none => false
  | some A => A.bIsValid

/-- `FTargetingSourceContext`: the source actor pointer may be null. -/
structure FTargetingSourceContext where
  SourceActor : Option AActor
  deriving DecidableEq

/-- `FTargetingRequestHandle`.  `bIsValid` is `IsValid()` of the handle and
`SourceContext` is what `FTargetingSourceContext::Find` returns for it. -/
structure FTargetingRequestHandle where
  bIsValid : Bool
  SourceContext : Option FTargetingSourceContext
  deriving DecidableEq

/-- Modelled from the spec: `UGraspData` (GraspData.h is not among the sources), the
per-entry configuration of the data model: maximum interaction distance, maximum
highlight distance, maximum angle, maximum height above and below. -/
structure UGraspData where
  MaxGraspDistance : ℚ
  MaxHighlightDistance : ℚ
  MaxGraspAngle : ℚ
  MaxHeightAbove : ℚ
  MaxHeightBelow : ℚ
  deriving DecidableEq

/-- The virtual interface `IGraspableComponent` (GraspableComponent.h) as a record of
its methods: `GetGraspData(Index)` and `GetNumGraspData()`. -/
structure IGraspableComponent where
  GetGraspData : Int → Option UGraspData
  GetNumGraspData : Int

/-- The default `IGraspableComponent::GetNumGraspData` body, `return 0;`
(GraspableComponent.h line 43). -/
def IGraspableComponent.GetNumGraspData_default : Int := 0

/-- A `UGraspableBoxComponent` (GraspableBoxComponent.h): its entry array. -/
structure UGraspableBoxComponent where
  GraspDataEntries : List UGraspData

/-- Method `UGraspableBoxComponent::GetGraspData`:
`GraspDataEntries.IsValidIndex(Index) ? GraspDataEntries[Index].Get() : nullptr`. -/
def UGraspableBoxComponent.GetGraspData (B : UGraspableBoxComponent) (Index : Int) :
    Option UGraspData :=
  if 0 ≤ Index ∧ Index < (B.GraspDataEntries.length : Int) then
    B.GraspDataEntries.get? Index.toNat
  else none

/-- Method `UGraspableBoxComponent::GetNumGraspData`: `GraspDataEntries.Num()`. -/
def UGraspableBoxComponent.GetNumGraspData (B : UGraspableBoxComponent) : Int :=
  (B.GraspDataEntries.length : Int)

/-- The `IGraspableComponent` view of a box component. -/
def UGraspableBoxComponent.toGraspable (B : UGraspableBoxComponent) : IGraspableComponent :=
  { GetGraspData := B.GetGraspData, GetNumGraspData := B.GetNumGraspData }

/-- A `UPrimitiveComponent`.  `Graspable` is the result of
`Cast<IGraspableComponent>(Component)`. -/
structure UPrimitiveComponent where
  Id : Nat
  ComponentLocation : FVector
  Graspable : Option IGraspableComponent

/-- The members of `FHitResult` read by the filters and written by
`ProcessOverlapResults`, with the values of a default-constructed `FHitResult` (all
zero).  `GetComponent()` is `Component` and may be null; `HitObjectHandle` is the actor
the handle resolves to. -/
structure FHitResult where
  Component : Option UPrimitiveComponent
  HitObjectHandle : Option AActor := none
  ImpactPoint : FVector := FVector.ZeroVector
  Location : FVector := FVector.ZeroVector
  bBlockingHit : Bool := false
  TraceStart : FVector := FVector.ZeroVector
  Item : Int := 0
  Normal : FVector := FVector.ZeroVector
  Distance : ℚ := 0

/-- Engine `FHitResult::GetActor()`: the actor of the hit object handle. -/
def FHitResult.GetActor (Hit : FHitResult) : Option AActor :=
  Hit.HitObjectHandle

/-- `FTargetingDefaultResultData`: one candidate of a targeting request. -/
structure FTargetingDefaultResultData where
  HitResult : FHitResult

/-- The members of the engine's `FOverlapResult` read by `ProcessOverlapResults`.
`OverlapObjectHandle` is the actor the handle resolves to, `Component` what
`GetComponent()` returns. -/
structure FOverlapResult where
  OverlapObjectHandle : Option AActor
  Component : Option UPrimitiveComponent
  ItemIndex : Int
  bBlockingHit : Bool

/-- Engine `FOverlapResult::GetActor()`. -/
def FOverlapResult.GetActor (Overlap : FOverlapResult) : Option AActor :=
  Overlap.OverlapObjectHandle

/-- Engine `FOverlapResult::GetComponent()`. -/
def FOverlapResult.GetComponent (Overlap : FOverlapResult) : Option UPrimitiveComponent :=
  Overlap.Component

/-- `FTargetingDefaultResultsSet`: the result accumulator of a request. -/
structure FTargetingDefaultResultsSet where
  TargetResults : List FTargetingDefaultResultData

/-! ## Candidate filters (`Source/Grasp/Private/Filtering`)

Every `ShouldFilterTarget` answers `true` when the candidate is to be filtered out.
Each filter is embedded as a `ShouldFilterTargetTraced` function that returns the
answer together with the list of entry indices at which the per-entry query of
`UGraspStatics` was called, in call order; `ShouldFilterTarget` is its answer. -/

/-- The entry loop of `UGraspFilter_IsWithinGraspableAngle::ShouldFilterTarget`
(lines 41-50): `for (int32 i = 0; i < Num; i++) if (CanInteractWithAngle(i)) return false;`
followed by `return true;`.  The `Nat` argument bounds the iterations that remain; the
filter passes `Num.toNat` with `i = 0`, which is the number of iterations the loop can
make, so the bound is reached only when `i < Num` fails.  `Calls` collects the indices at
which the query was called. -/
def UGraspFilter_IsWithinGraspableAngle.EntryLoop (CanInteractWithAngle : Int → Bool)
    (Num : Int) : Nat → Int → List Int → Bool × List Int
  | 0, _, Calls => (true, Calls)
  | Fuel + 1, i, Calls =>
    if i < Num then
      if CanInteractWithAngle i then (false, Calls ++ [i])
      else EntryLoop CanInteractWithAngle Num Fuel (i + 1) (Calls ++ [i])
    else (true, Calls)

/-- Body of `UGraspFilter_IsWithinGraspableAngle::ShouldFilterTarget`
(GraspFilter_IsWithinGraspableAngle.cpp lines 18-51).  The `none` case of the second
match on `SourceActor` is never reached: `IsValid` is false for a null pointer. -/
def UGraspFilter_IsWithinGraspableAngle.ShouldFilterTargetTraced
    (CanInteractWithAngle : AActor → UPrimitiveComponent → Int → Bool)
    (TargetingHandle : FTargetingRequestHandle) (TargetData : FTargetingDefaultResultData) :
    Bool × List Int :=
  match TargetingHandle.SourceContext with
  | none => (true, [])
  | some SourceContext =>
    if !IsValid SourceContext.SourceActor then (true, [])
    else
      match SourceContext.SourceActor with
      | none => (true, [])
      | some SourceActor =>
        match TargetData.HitResult.Component with
        | none => (true, [])
        | some TargetComponent =>
          match TargetComponent.Graspable with
          | none => (true, [])
          | some Graspable =>
            EntryLoop (CanInteractWithAngle SourceActor TargetComponent)
              Graspable.GetNumGraspData Graspable.GetNumGraspData.toNat 0 []

/-- The answer of `UGraspFilter_IsWithinGraspableAngle::ShouldFilterTarget`. -/
def UGraspFilter_IsWithinGraspableAngle.ShouldFilterTarget
    (CanInteractWithAngle : AActor → UPrimitiveComponent → Int → Bool)
    (TargetingHandle : FTargetingRequestHandle) (TargetData : FTargetingDefaultResultData) :
    Bool :=
  (ShouldFilterTargetTraced CanInteractWithAngle TargetingHandle TargetData).1

/-- The entry loop of `UGraspFilter_IsWithinGraspableHeight::ShouldFilterTarget`
(lines 41-49): `for (int32 i = 0; i < Num; i++) if (CanInteractWithHeight(i)) return false;`
followed by `return true;`. -/
def UGraspFilter_IsWithinGraspableHeight.EntryLoop (CanInteractWithHeight : Int → Bool)
    (Num : Int) : Nat → Int → List Int → Bool × List Int
  | 0, _, Calls => (true, Calls)
  | Fuel + 1, i, Calls =>
    if i < Num then
      if CanInteractWithHeight i then (false, Calls ++ [i])
      else EntryLoop CanInteractWithHeight Num Fuel (i + 1) (Calls ++ [i])
    else (true, Calls)

/-- Body of `UGraspFilter_IsWithinGraspableHeight::ShouldFilterTarget`
(GraspFilter_IsWithinGraspableHeight.cpp lines 18-50). -/
def UGraspFilter_IsWithinGraspableHeight.ShouldFilterTargetTraced
    (CanInteractWithHeight : AActor → UPrimitiveComponent → Int → Bool)
    (TargetingHandle : FTargetingRequestHandle) (TargetData : FTargetingDefaultResultData) :
    Bool × List Int :=
  match TargetingHandle.SourceContext with
  | none => (true, [])
  | some SourceContext =>
    if !IsValid SourceContext.SourceActor then (true, [])
    else
      match SourceContext.SourceActor with
      | none => (true, [])
      | some SourceActor =>
        match TargetData.HitResult.Component with
        | none => (true, [])
        | some TargetComponent =>
          match TargetComponent.Graspable with
          | none => (true, [])
          | some Graspable =>
            EntryLoop (CanInteractWithHeight SourceActor TargetComponent)
              Graspable.GetNumGraspData Graspable.GetNumGraspData.toNat 0 []

/-- The answer of `UGraspFilter_IsWithinGraspableHeight::ShouldFilterTarget`. -/
def UGraspFilter_IsWithinGraspableHeight.ShouldFilterTarget
    (CanInteractWithHeight : AActor → UPrimitiveComponent → Int → Bool)
    (TargetingHandle : FTargetingRequestHandle) (TargetData : FTargetingDefaultResultData) :
    Bool :=
  (ShouldFilterTargetTraced CanInteractWithHeight TargetingHandle TargetData).1

/-- The filter object `UGraspFilter_CanActivateAbility`: its `Source` member, passed to
`UGraspStatics::CanGraspActivateAbility`; its type `σ` is declared outside the sources
at hand. -/
structure UGraspFilter_CanActivateAbility (σ : Type) where
  Source : σ

/-- The entry loop of `UGraspFilter_CanActivateAbility::ShouldFilterTarget`
(lines 41-49): `for (int32 i = 0; i < Num; i++) if (CanGraspActivateAbility(i)) return false;`
followed by `return true;`. -/
def UGraspFilter_CanActivateAbility.EntryLoop (CanGraspActivateAbility : Int → Bool)
    (Num : Int) : Nat → Int → List Int → Bool × List Int
  | 0, _, Calls => (true, Calls)
  | Fuel + 1, i, Calls =>
    if i < Num then
      if CanGraspActivateAbility i then (false, Calls ++ [i])
      else EntryLoop CanGraspActivateAbility Num Fuel (i + 1) (Calls ++ [i])
    else (true, Calls)

/-- Body of `UGraspFilter_CanActivateAbility::ShouldFilterTarget`
(GraspFilter_CanActivateAbility.cpp lines 18-50). -/
def UGraspFilter_CanActivateAbility.ShouldFilterTargetTraced {σ : Type}
    (Filter : UGraspFilter_CanActivateAbility σ)
    (CanGraspActivateAbility : AActor → UPrimitiveComponent → σ → Int → Bool)
    (TargetingHandle : FTargetingRequestHandle) (TargetData : FTargetingDefaultResultData) :
    Bool × List Int :=
  match TargetingHandle.SourceContext with
  | none => (true, [])
  | some SourceContext =>
    if !IsValid SourceContext.SourceActor then (true, [])
    else
      match SourceContext.SourceActor with
      | none => (true, [])
      | some SourceActor =>
        match TargetData.HitResult.Component with
        | none => (true, [])
        | some TargetComponent =>
          match TargetComponent.Graspable with
          | none => (true, [])
          | some Graspable =>
            EntryLoop (CanGraspActivateAbility SourceActor TargetComponent Filter.Source)
              Graspable.GetNumGraspData Graspable.GetNumGraspData.toNat 0 []

/-- The answer of `UGraspFilter_CanActivateAbility::ShouldFilterTarget`. -/
def UGraspFilter_CanActivateAbility.ShouldFilterTarget {σ : Type}
    (Filter : UGraspFilter_CanActivateAbility σ)
    (CanGraspActivateAbility : AActor → UPrimitiveComponent → σ → Int → Bool)
    (TargetingHandle : FTargetingRequestHandle) (TargetData : FTargetingDefaultResultData) :
    Bool :=
  (Filter.ShouldFilterTargetTraced CanGraspActivateAbility TargetingHandle TargetData).1

/-- The filter object `UGraspFilter_IsWithinGraspableRange`: the `Threshold` member read
by its `ShouldFilterTarget` (GraspFilter_IsWithinGraspableRange.cpp line 49). -/
structure UGraspFilter_IsWithinGraspableRange where
  Threshold : EGraspQueryResult

/-- The entry loop of `UGraspFilter_IsWithinGraspableRange::ShouldFilterTarget`
(lines 41-55).  It answers the value of `bAnyPassesFilter` when the loop is left:
`bPasses = (Result == Interact) || (Result == Highlight && Threshold == Highlight)`,
and `if (bPasses) { bAnyPassesFilter = true; break; }`. -/
def UGraspFilter_IsWithinGraspableRange.EntryLoop (Threshold : EGraspQueryResult)
    (CanInteractWithRange : Int → EGraspQueryResult)
    (Num : Int) : Nat → Int → List Int → Bool × List Int
  | 0, _, Calls => (false, Calls)
  | Fuel + 1, i, Calls =>
    if i < Num then
      let Result := CanInteractWithRange i
      let bPasses := (Result == EGraspQueryResult.Interact) ||
        (Result == EGraspQueryResult.Highlight && Threshold == EGraspQueryResult.Highlight)
      if bPasses then (true, Calls ++ [i])
      else EntryLoop Threshold CanInteractWithRange Num Fuel (i + 1) (Calls ++ [i])
    else (false, Calls)

/-- Body of `UGraspFilter_IsWithinGraspableRange::ShouldFilterTarget`
(GraspFilter_IsWithinGraspableRange.cpp lines 18-58); the last line is
`return !bAnyPassesFilter;`. -/
def UGraspFilter_IsWithinGraspableRange.ShouldFilterTargetTraced
    (Filter : UGraspFilter_IsWithinGraspableRange)
    (CanInteractWithRange : AActor → UPrimitiveComponent → Int → EGraspQueryResult)
    (TargetingHandle : FTargetingRequestHandle) (TargetData : FTargetingDefaultResultData) :
    Bool × List Int :=
  match TargetingHandle.SourceContext with
  | none => (true, [])
  | some SourceContext =>
    if !IsValid SourceContext.SourceActor then (true, [])
    else
      match SourceContext.SourceActor with
      | none => (true, [])
      | some SourceActor =>
        match TargetData.HitResult.Component with
        | none => (true, [])
        | some TargetComponent =>
          match TargetComponent.Graspable with
          | none => (true, [])
          | some Graspable =>
            let Loop := EntryLoop Filter.Threshold
              (CanInteractWithRange SourceActor TargetComponent)
              Graspable.GetNumGraspData Graspable.GetNumGraspData.toNat 0 []
            (!Loop.1, Loop.2)

/-- The answer of `UGraspFilter_IsWithinGraspableRange::ShouldFilterTarget`. -/
def UGraspFilter_IsWithinGraspableRange.ShouldFilterTarget
    (Filter : UGraspFilter_IsWithinGraspableRange)
    (CanInteractWithRange : AActor → UPrimitiveComponent → Int → EGraspQueryResult)
    (TargetingHandle : FTargetingRequestHandle) (TargetData : FTargetingDefaultResultData) :
    Bool :=
  (Filter.ShouldFilterTargetTraced CanInteractWithRange TargetingHandle TargetData).1

/-- The filter object `UGraspFilter_IsWithinGraspableData`
(GraspFilter_IsWithinGraspableData.h line 25):
`EGraspQueryResult Threshold = EGraspQueryResult::Interact;`. -/
structure UGraspFilter_IsWithinGraspableData where
  Threshold : EGraspQueryResult := EGraspQueryResult.Interact

/-- The entry loop of `UGraspFilter_IsWithinGraspableData::ShouldFilterTarget`
(lines 41-55).  It answers the value of `bAnyPassesFilter` when the loop is left:
`bPasses = (Result == Interact) || (Result == Highlight && Threshold == Highlight)`,
and `if (bPasses) { bAnyPassesFilter = true; break; }`. -/
def UGraspFilter_IsWithinGraspableData.EntryLoop (Threshold : EGraspQueryResult)
    (CanInteractWith : Int → EGraspQueryResult)
    (Num : Int) : Nat → Int → List Int → Bool × List Int
  | 0, _, Calls => (false, Calls)
  | Fuel + 1, i, Calls =>
    if i < Num then
      let Result := CanInteractWith i
      let bPasses := (Result == EGraspQueryResult.Interact) ||
        (Result == EGraspQueryResult.Highlight && Threshold == EGraspQueryResult.Highlight)
      if bPasses then (true, Calls ++ [i])
      else EntryLoop Threshold CanInteractWith Num Fuel (i + 1) (Calls ++ [i])
    else (false, Calls)

/-- Body of `UGraspFilter_IsWithinGraspableData::ShouldFilterTarget`
(GraspFilter_IsWithinGraspableData.cpp lines 18-58); the last line is
`return !bAnyPassesFilter;`. -/
def UGraspFilter_IsWithinGraspableData.ShouldFilterTargetTraced
    (Filter : UGraspFilter_IsWithinGraspableData)
    (CanInteractWith : AActor → UPrimitiveComponent → Int → EGraspQueryResult)
    (TargetingHandle : FTargetingRequestHandle) (TargetData : FTargetingDefaultResultData) :
    Bool × List Int :=
  match TargetingHandle.SourceContext with
  | none => (true, [])
  | some SourceContext =>
    if !IsValid SourceContext.SourceActor then (true, [])
    else
      match SourceContext.SourceActor with
      | none => (true, [])
      | some SourceActor =>
        match TargetData.HitResult.Component with
        | none => (true, [])
        | some TargetComponent =>
          match TargetComponent.Graspable with
          | none => (true, [])
          | some Graspable =>
            let Loop := EntryLoop Filter.Threshold
              (CanInteractWith SourceActor TargetComponent)
              Graspable.GetNumGraspData Graspable.GetNumGraspData.toNat 0 []
            (!Loop.1, Loop.2)

/-- The answer of `UGraspFilter_IsWithinGraspableData::ShouldFilterTarget`. -/
def UGraspFilter_IsWithinGraspableData.ShouldFilterTarget
    (Filter : UGraspFilter_IsWithinGraspableData)
    (CanInteractWith : AActor → UPrimitiveComponent → Int → EGraspQueryResult)
    (TargetingHandle : FTargetingRequestHandle) (TargetData : FTargetingDefaultResultData) :
    Bool :=
  (Filter.ShouldFilterTargetTraced CanInteractWith TargetingHandle TargetData).1

/-- What it means for a candidate to reach a filter with context present, as the claims
about the filters put it: the handle has a source context whose source actor
`SourceActor` is valid, and the candidate has a target component `TargetComponent` that
implements the graspable interface as `Graspable`. -/
def ContextPresent (TargetingHandle : FTargetingRequestHandle)
    (TargetData : FTargetingDefaultResultData) (SourceActor : AActor)
    (TargetComponent : UPrimitiveComponent) (Graspable : IGraspableComponent) : Prop :=
  (∃ SourceContext, TargetingHandle.SourceContext = some SourceContext ∧
      SourceContext.SourceActor = some SourceActor) ∧
    SourceActor.bIsValid = true ∧
    TargetData.HitResult.Component = some TargetComponent ∧
    TargetComponent.Graspable = some Graspable

/-- What it means for context to be absent: there is no source context, or its source
actor is null or not valid, or the candidate has no target component, or the target
component does not implement the graspable interface. -/
def ContextAbsent (TargetingHandle : FTargetingRequestHandle)
    (TargetData : FTargetingDefaultResultData) : Prop :=
  TargetingHandle.SourceContext = none ∨
    (∃ SourceContext, TargetingHandle.SourceContext = some SourceContext ∧
      IsValid SourceContext.SourceActor = false) ∨
    TargetData.HitResult.Component = none ∨
    (∃ TargetComponent, TargetData.HitResult.Component = some TargetComponent ∧
      TargetComponent.Graspable = none)

/-- Modelled from the spec: `UGraspStatics::CanInteractWithRange` (GraspStatics is not
among the sources).  Per entry the classification is `Interact` when the candidate is
within the entry's maximum interaction distance of the source, `Highlight` when it is
within the maximum highlight distance but not within interaction range, and `None`
otherwise (also when the entry does not exist).  "Within distance `d`" is tested on
squared distances, `0 ≤ d` and `DistSquared ≤ d * d`, which keeps the arithmetic
rational. -/
def UGraspStatics.CanInteractWithRange (SourceActor : AActor)
    (TargetComponent : UPrimitiveComponent) (Index : Int) : EGraspQueryResult :=
  match TargetComponent.Graspable with
  | none => EGraspQueryResult.None
  | some Graspable =>
    match Graspable.GetGraspData Index with
    | none => EGraspQueryResult.None
    | some Data =>
      let DistSq := FVector.DistSquared SourceActor.ActorLocation
        TargetComponent.ComponentLocation
      if 0 ≤ Data.MaxGraspDistance ∧
          DistSq ≤ Data.MaxGraspDistance * Data.MaxGraspDistance then
        EGraspQueryResult.Interact
      else if 0 ≤ Data.MaxHighlightDistance ∧
          DistSq ≤ Data.MaxHighlightDistance * Data.MaxHighlightDistance then
        EGraspQueryResult.Highlight
      else EGraspQueryResult.None

/-! ### The range scenario

Source at the origin, candidate 300 units along `+X`, one entry with maximum grasp
distance 250 and maximum highlight distance 400. -/

/-- The source actor of the range scenario, at the origin. -/
def Scenario.SourceActor : AActor :=
  { Id := 1, bIsValid := true, ActorLocation := { X := 0, Y := 0, Z := 0 }, Pawn := none }

/-- The single entry of the range scenario. -/
def Scenario.Entry : UGraspData :=
  { MaxGraspDistance := 250, MaxHighlightDistance := 400, MaxGraspAngle := 360,
    MaxHeightAbove := 0, MaxHeightBelow := 0 }

/-- The graspable of the range scenario: a box component with the single entry. -/
def Scenario.Graspable : IGraspableComponent :=
  UGraspableBoxComponent.toGraspable { GraspDataEntries := [Scenario.Entry] }

/-- The candidate component of the range scenario, 300 units along `+X`. -/
def Scenario.TargetComponent : UPrimitiveComponent :=
  { Id := 2, ComponentLocation := { X := 300, Y := 0, Z := 0 },
    Graspable := some Scenario.Graspable }

/-- The targeting handle of the range scenario. -/
def Scenario.Handle : FTargetingRequestHandle :=
  { bIsValid := true, SourceContext := some { SourceActor := some Scenario.SourceActor } }

/-- The candidate of the range scenario. -/
def Scenario.TargetData : FTargetingDefaultResultData :=
  { HitResult := { Component := some Scenario.TargetComponent } }

/-- A graspable box component that exposes no entries. -/
def Scenario.EmptyComponent : UPrimitiveComponent :=
  { Id := 3, ComponentLocation := { X := 0, Y := 0, Z := 0 },
    Graspable := some (UGraspableBoxComponent.toGraspable { GraspDataEntries := [] }) }

/-- A candidate whose graspable component exposes no entries. -/
def Scenario.EmptyTargetData : FTargetingDefaultResultData :=
  { HitResult := { Component := some Scenario.EmptyComponent } }

/-- A handle for which no source context is found. -/
def Scenario.NoContextHandle : FTargetingRequestHandle :=
  { bIsValid := true, SourceContext := none }

/-- A graspable box component with two entries. -/
def Scenario.TwoEntryGraspable : IGraspableComponent :=
  UGraspableBoxComponent.toGraspable { GraspDataEntries := [Scenario.Entry, Scenario.Entry] }

/-- A component carrying the two-entry graspable. -/
def Scenario.TwoEntryComponent : UPrimitiveComponent :=
  { Id := 4, ComponentLocation := { X := 300, Y := 0, Z := 0 },
    Graspable := some Scenario.TwoEntryGraspable }

/-- A candidate with two entries. -/
def Scenario.TwoEntryTargetData : FTargetingDefaultResultData :=
  { HitResult := { Component := some Scenario.TwoEntryComponent } }

/-- A per-entry query that only the entry at index 1 satisfies. -/
def Scenario.OnlySecondEntry (_ : AActor) (_ : UPrimitiveComponent) (Index : Int) : Bool :=
  Index == 1

/-- A source actor that is not null but for which `IsValid` answers false. -/
def Scenario.InvalidSourceActor : AActor :=
  { Id := 1, bIsValid := false, ActorLocation := { X := 0, Y := 0, Z := 0 }, Pawn := none }

/-- A handle whose source context holds the invalid source actor. -/
def Scenario.InvalidActorHandle : FTargetingRequestHandle :=
  { bIsValid := true, SourceContext := some { SourceActor := some Scenario.InvalidSourceActor } }

/-- A candidate component 200 units along `+X` with the scenario entry, so within the
entry's maximum grasp distance of 250. -/
def Scenario.NearComponent : UPrimitiveComponent :=
  { Id := 5, ComponentLocation := { X := 200, Y := 0, Z := 0 },
    Graspable := some Scenario.Graspable }

/-- The near candidate. -/
def Scenario.NearTargetData : FTargetingDefaultResultData :=
  { HitResult := { Component := some Scenario.NearComponent } }

/-! ## Movement alpha (`UGraspTargetSelection::GetPawnMovementAlpha`) -/

/-- Engine `FMath::Clamp(X, MinValue, MaxValue)`: `Max(Min(X, MaxValue), MinValue)`. -/
def FMath.Clamp (X MinValue MaxValue : ℚ) : ℚ :=
  max (min X MaxValue) MinValue

/-- The `float` quotient `X / Y` of two finite values: the exact quotient when `Y` is not
zero; when `Y` is zero, an infinity of the sign of `X`, and a NaN for `0 / 0`. -/
def FFloat.Quotient (X Y : ℚ) : FFloat :=
  if Y = 0 then (if X = 0 then FFloat.NaN else FFloat.Infinity (decide (X < 0)))
  else FFloat.Finite (X / Y)

/-- Engine `FMath::Min(A, B)`, `(A < B) ? A : B`, on floating-point values. -/
def FMath.MinFloat (A B : FFloat) : FFloat :=
  if FFloat.Lt A B then A else B

/-- Engine `FMath::Max(A, B)`, `(B < A) ? A : B`, on floating-point values. -/
def FMath.MaxFloat (A B : FFloat) : FFloat :=
  if FFloat.Lt B A then A else B

/-- Engine `FMath::Clamp(X, MinValue, MaxValue)`, `Max(Min(X, MaxValue), MinValue)`, on a
float `X` that need not be finite, between finite bounds; the result is finite.  A
comparison with a NaN is false, so `Min(NaN, MaxValue)` is `MaxValue`, as is
`Min(+inf, MaxValue)`; `Min(-inf, MaxValue)` is `-inf` and `Max(-inf, MinValue)` is
`MinValue` (`FMath.ClampFloat_eq_Max_Min` below). -/
def FMath.ClampFloat (X : FFloat) (MinValue MaxValue : ℚ) : ℚ :=
  match X with
  | FFloat.Finite Value => FMath.Clamp Value MinValue MaxValue
  | FFloat.Infinity false => FMath.Clamp MaxValue MinValue MaxValue
  | FFloat.Infinity true => MinValue
  | FFloat.NaN => FMath.Clamp MaxValue MinValue MaxValue

/-- Engine `ECollisionChannel`, as the number of the enumerator. -/
abbrev ECollisionChannel := Nat

/-- Engine `ECC_WorldDynamic`. -/
def ECC_WorldDynamic : ECollisionChannel := 1

/-- Engine `ECC_Visibility`. -/
def ECC_Visibility : ECollisionChannel := 3

/-- Engine `EObjectTypeQuery`, as the number of the enumerator. -/
abbrev EObjectTypeQuery := Nat

/-- Engine `ObjectTypeQuery2`, the object type of `ECC_WorldDynamic` in the engine's
default collision profile. -/
def ObjectTypeQuery2 : EObjectTypeQuery := 1

/-- Engine `FName`, by its text. -/
structure FName where
  Text : String
  deriving DecidableEq

/-- The name `TEXT("NoCollision")`. -/
def FName.NoCollision : FName := { Text := "NoCollision" }

/-- Engine `FCollisionProfileName`; a default-constructed one is named "NoCollision". -/
structure FCollisionProfileName where
  Name : FName := FName.NoCollision
  deriving DecidableEq

/-- Engine `FCollisionQueryParams`, by the members the task and its statics set. -/
structure FCollisionQueryParams where
  TraceTag : String
  bTraceComplex : Bool
  IgnoredActors : List Nat
  deriving DecidableEq

/-- Which overlap function of the world a query goes to, with the argument that
selects what is overlapped: `OverlapMultiByObjectType` / `AsyncOverlapByObjectType` with
the channels added to the `FCollisionObjectQueryParams`, `..ByProfile` with the profile
name, `..ByChannel` with the trace channel. -/
inductive FOverlapQueryBy where
  | ObjectType (ObjectParams : List ECollisionChannel)
  | Profile (ProfileName : FName)
  | Channel (TraceChannel : ECollisionChannel)
  deriving DecidableEq

/-- An overlap query as the task issues it: the function called and its arguments. -/
structure FOverlapQuery where
  By : FOverlapQueryBy
  Pos : FVector
  Rot : FQuat
  CollisionShape : FCollisionShape
  Params : FCollisionQueryParams
  deriving DecidableEq

/-- Engine `UWorld`, by what its synchronous overlap functions report for a query. -/
structure UWorld where
  OverlapMulti : FOverlapQuery → List FOverlapResult

/-- Engine `ETargetingTaskAsyncState`. -/
inductive ETargetingTaskAsyncState where
  | Unitialized
  | Initialized
  | Executing
  | Completed
  deriving DecidableEq

/-- The members of `UGraspTargetSelection` that decide the movement alpha, the shape, the
ability radius and the overlap query, with the values its constructor gives them
(GraspTargetSelection.cpp lines 44-76; the one object type the constructor adds is that
of the developer settings' default object type, `ECC_WorldDynamic`).  A `FScalableFloat` member is the rational that
its `GetValue()` returns.  `GraspAbilityRadius` is 200 once the constructor has called
`UpdateGraspAbilityRadius` on the default capsule. -/
structure UGraspTargetSelection where
  MovementSelectionMode : EGraspMovementSelectionMode := EGraspMovementSelectionMode.Disabled
  MovementSelectionAccelBias : ℚ := 1 / 5
  ShapeType : EGraspTargetingShape := EGraspTargetingShape.Capsule
  HalfExtent : FVector := { X := 500, Y := 380, Z := 120 }
  MaxHalfExtent : FVector := { X := 1000, Y := 760, Z := 240 }
  HalfHeight : ℚ := 200
  Radius : ℚ := 200
  MaxHalfHeight : ℚ := 600
  MaxRadius : ℚ := 500
  RadiusScalar : ℚ := 12
  MaxRadiusScalar : ℚ := 24
  HalfHeightScalar : ℚ := 1
  MaxHalfHeightScalar : ℚ := 1
  GraspAbilityRadius : ℚ := 200
  CollisionChannel : ECollisionChannel := ECC_Visibility
  CollisionProfileName : FCollisionProfileName := { }
  CollisionObjectTypes : List EObjectTypeQuery := [ObjectTypeQuery2]
  bIgnoreSourceActor : Bool := true
  bIgnoreInstigatorActor : Bool := false
  bTraceComplex : Bool := false

/-- Static `UGraspTargetSelection::GetPawnFromTargetingHandle`
(GraspTargetSelection.cpp lines 157-173). -/
def UGraspTargetSelection.GetPawnFromTargetingHandle
    (TargetingHandle : FTargetingRequestHandle) : Option APawn :=
  if TargetingHandle.bIsValid then
    match TargetingHandle.SourceContext with
    | some SourceContext =>
      match SourceContext.SourceActor with
      | some SourceActor => SourceActor.Pawn
      | none => none
    | none => none
  else none

/-- Method `UGraspTargetSelection::GetPawnMovementAlpha`
(GraspTargetSelection.cpp lines 196-248). -/
def UGraspTargetSelection.GetPawnMovementAlpha (Sel : UGraspTargetSelection)
    (TargetingHandle : FTargetingRequestHandle) : ℚ :=
  if Sel.MovementSelectionMode = EGraspMovementSelectionMode.Disabled then 0
  else
    match GetPawnFromTargetingHandle TargetingHandle with
    | none => 0
    | some Pawn =>
      match Pawn.Character with
      | none => 0
      | some Character =>
        match Character.CharacterMovement with
        | none => 0
        | some Movement =>
          match Sel.MovementSelectionMode with
          | EGraspMovementSelectionMode.Disabled => 0
          | EGraspMovementSelectionMode.Velocity =>
            let Velocity := if Movement.bIsMovingOnGround then Movement.VelocitySize
              else Movement.VelocitySize2D
            let MaxSpeed := Movement.MaxSpeed
            FMath.ClampFloat (FFloat.Quotient Velocity MaxSpeed) 0 1
          | EGraspMovementSelectionMode.Acceleration =>
            let Accel := Movement.CurrentAccelerationSize2D
            let MaxAccel := Movement.MaxAcceleration
            FMath.ClampFloat (FFloat.Quotient Accel MaxAccel) 0 1
          | EGraspMovementSelectionMode.VelocityAndAcceleration =>
            let Velocity := if Movement.bIsMovingOnGround then Movement.VelocitySize
              else Movement.VelocitySize2D
            let Accel := Movement.CurrentAccelerationSize2D
            let MaxSpeed := Movement.MaxSpeed
            let MaxAccel := Movement.MaxAcceleration
            let AccelBias := FMath.ClampFloat (FFloat.Quotient Accel MaxAccel) 0 1
            let VelBias := FMath.ClampFloat (FFloat.Quotient Velocity MaxSpeed) 0 1
            let MovementSelectionVelBias := 1 - Sel.MovementSelectionAccelBias
            let Alpha := (1 / 2) * ((AccelBias * Sel.MovementSelectionAccelBias) +
              (VelBias * MovementSelectionVelBias))
            FMath.Clamp Alpha 0 1

/-- The clamp of the spec's formulas, `clamp(x, 0, 1)`, written by cases. -/
def SpecClamp01 (x : ℚ) : ℚ :=
  if x < 0 then 0 else if 1 < x then 1 else x

/-- A grounded character moving at speed 300 of at most 600 and accelerating at 512 of
at most 2048. -/
def Scenario.Movement : UCharacterMovementComponent :=
  { bIsMovingOnGround := true, VelocitySize := 300, VelocitySize2D := 300,
    CurrentAccelerationSize2D := 512, MaxSpeed := 600, MaxAcceleration := 2048 }

/-- A character standing still while accelerating at its maximum acceleration. -/
def Scenario.FullAccelMovement : UCharacterMovementComponent :=
  { bIsMovingOnGround := true, VelocitySize := 0, VelocitySize2D := 0,
    CurrentAccelerationSize2D := 2048, MaxSpeed := 600, MaxAcceleration := 2048 }

/-- A character moving at its maximum speed and accelerating at its maximum
acceleration. -/
def Scenario.SaturatedMovement : UCharacterMovementComponent :=
  { bIsMovingOnGround := true, VelocitySize := 600, VelocitySize2D := 600,
    CurrentAccelerationSize2D := 2048, MaxSpeed := 600, MaxAcceleration := 2048 }

/-- The pawn that is a character with the given movement component. -/
def Scenario.CharacterPawn (Movement : UCharacterMovementComponent) : APawn :=
  { Character := some { CharacterMovement := some Movement } }

/-- A source actor that is a character with the given movement component. -/
def Scenario.CharacterActor (Movement : UCharacterMovementComponent) : AActor :=
  { Id := 1, bIsValid := true, ActorLocation := { X := 0, Y := 0, Z := 0 },
    Pawn := some (Scenario.CharacterPawn Movement) }

/-- A valid handle whose source actor is a character with the given movement
component. -/
def Scenario.CharacterHandle (Movement : UCharacterMovementComponent) :
    FTargetingRequestHandle :=
  { bIsValid := true,
    SourceContext := some { SourceActor := some (Scenario.CharacterActor Movement) } }

/-- A graspable that keeps the interface's default `GetNumGraspData`. -/
def Scenario.DefaultGraspable : IGraspableComponent :=
  { GetGraspData := fun _ => none,
    GetNumGraspData := IGraspableComponent.GetNumGraspData_default }

/-- A component carrying the default graspable. -/
def Scenario.DefaultComponent : UPrimitiveComponent :=
  { Id := 6, ComponentLocation := { X := 0, Y := 0, Z := 0 },
    Graspable := some Scenario.DefaultGraspable }

/-- A candidate whose graspable keeps the default `GetNumGraspData`. -/
def Scenario.DefaultTargetData : FTargetingDefaultResultData :=
  { HitResult := { Component := some Scenario.DefaultComponent } }

/-! ## Shape selection (`UGraspTargetSelection::GetCollisionShape`,
`UpdateGraspAbilityRadius`) -/

/-- Inline `UGraspTargetSelection::GetMaxRadius` (GraspTargetSelection.h line 131). -/
def UGraspTargetSelection.GetMaxRadius (Sel : UGraspTargetSelection) : ℚ :=
  if Sel.MovementSelectionMode ≠ EGraspMovementSelectionMode.Disabled then Sel.MaxRadius
  else Sel.Radius

/-- Inline `UGraspTargetSelection::GetMaxHalfHeight` (GraspTargetSelection.h line 132). -/
def UGraspTargetSelection.GetMaxHalfHeight (Sel : UGraspTargetSelection) : ℚ :=
  if Sel.MovementSelectionMode ≠ EGraspMovementSelectionMode.Disabled then Sel.MaxHalfHeight
  else Sel.HalfHeight

/-- Inline `UGraspTargetSelection::GetMaxRadiusScalar` (GraspTargetSelection.h line 133). -/
def UGraspTargetSelection.GetMaxRadiusScalar (Sel : UGraspTargetSelection) : ℚ :=
  if Sel.MovementSelectionMode ≠ EGraspMovementSelectionMode.Disabled then Sel.MaxRadiusScalar
  else Sel.RadiusScalar

/-- Inline `UGraspTargetSelection::GetMaxHalfHeightScalar`
(GraspTargetSelection.h line 134). -/
def UGraspTargetSelection.GetMaxHalfHeightScalar (Sel : UGraspTargetSelection) : ℚ :=
  if Sel.MovementSelectionMode ≠ EGraspMovementSelectionMode.Disabled then
    Sel.MaxHalfHeightScalar
  else Sel.HalfHeightScalar

/-- Inline `UGraspTargetSelection::GetMaxHalfExtent` (GraspTargetSelection.h line 135). -/
def UGraspTargetSelection.GetMaxHalfExtent (Sel : UGraspTargetSelection) : FVector :=
  if Sel.MovementSelectionMode ≠ EGraspMovementSelectionMode.Disabled then Sel.MaxHalfExtent
  else Sel.HalfExtent

/-- Method `UGraspTargetSelection::UpdateGraspAbilityRadius`
(GraspTargetSelection.cpp lines 106-125): the object after the call. -/
def UGraspTargetSelection.UpdateGraspAbilityRadius (Sel : UGraspTargetSelection) :
    UGraspTargetSelection :=
  match Sel.ShapeType with
  | EGraspTargetingShape.Box =>
    { Sel with GraspAbilityRadius :=
        (1 / 2) * (Sel.GetMaxHalfExtent.X + Sel.GetMaxHalfExtent.Y) }
  | EGraspTargetingShape.Cylinder =>
    { Sel with GraspAbilityRadius :=
        (1 / 2) * (Sel.GetMaxHalfExtent.X + Sel.GetMaxHalfExtent.Y) }
  | EGraspTargetingShape.Sphere =>
    { Sel with GraspAbilityRadius := Sel.GetMaxRadius }
  | EGraspTargetingShape.Capsule =>
    { Sel with GraspAbilityRadius := (1 / 2) * (Sel.GetMaxRadius + Sel.GetMaxHalfHeight) }
  | EGraspTargetingShape.CharacterCapsule =>
    { Sel with GraspAbilityRadius :=
        (1 / 2) * ((Sel.GetMaxRadius * Sel.GetMaxRadiusScalar) +
          (Sel.GetMaxHalfHeight * Sel.GetMaxHalfHeightScalar)) }

/-- Method `UGraspTargetSelection::GetPawnCapsuleSize`
(GraspTargetSelection.cpp lines 175-194): `some (OutRadius, OutHalfHeight)` when it
returns true, `none` when it returns false. -/
def UGraspTargetSelection.GetPawnCapsuleSize (TargetingHandle : FTargetingRequestHandle) :
    Option (ℚ × ℚ) :=
  match GetPawnFromTargetingHandle TargetingHandle with
  | none => none
  | some Pawn =>
    match Pawn.Character with
    | none => none
    | some Character =>
      match Character.CapsuleComponent with
      | none => none
      | some Capsule => some (Capsule.ScaledCapsuleRadius, Capsule.ScaledCapsuleHalfHeight)

/-- Engine `FMath::Lerp<float>(A, B, Alpha)`: `A + Alpha * (B - A)`. -/
def FMath.Lerp (A B Alpha : ℚ) : ℚ :=
  A + Alpha * (B - A)

/-- Engine `FMath::Lerp<FVector>(A, B, Alpha)`: `A + Alpha * (B - A)` on vectors. -/
def FMath.LerpVector (A B : FVector) (Alpha : ℚ) : FVector :=
  A.add (FVector.scale Alpha (B.sub A))

/-- Method `UGraspTargetSelection::GetCollisionShape`
(GraspTargetSelection.cpp lines 463-509).  The `default:` case of the switch is not
reached: the five enumerators are covered. -/
def UGraspTargetSelection.GetCollisionShape (Sel : UGraspTargetSelection)
    (TargetingHandle : FTargetingRequestHandle) : FCollisionShape :=
  match Sel.ShapeType with
  | EGraspTargetingShape.Box =>
    let E := FMath.LerpVector Sel.HalfExtent Sel.MaxHalfExtent
      (Sel.GetPawnMovementAlpha TargetingHandle)
    FCollisionShape.MakeBox E
  | EGraspTargetingShape.Cylinder =>
    let E := FMath.LerpVector Sel.HalfExtent Sel.MaxHalfExtent
      (Sel.GetPawnMovementAlpha TargetingHandle)
    FCollisionShape.MakeBox E
  | EGraspTargetingShape.Sphere =>
    let R := FMath.Lerp Sel.Radius Sel.MaxRadius (Sel.GetPawnMovementAlpha TargetingHandle)
    FCollisionShape.MakeSphere R
  | EGraspTargetingShape.Capsule =>
    let R := FMath.Lerp Sel.Radius Sel.MaxRadius (Sel.GetPawnMovementAlpha TargetingHandle)
    let H := FMath.Lerp Sel.HalfHeight Sel.MaxHalfHeight
      (Sel.GetPawnMovementAlpha TargetingHandle)
    FCollisionShape.MakeCapsule R H
  | EGraspTargetingShape.CharacterCapsule =>
    match GetPawnCapsuleSize TargetingHandle with
    | some (CapsuleRadius, CapsuleHalfHeight) =>
      let R := FMath.Lerp Sel.RadiusScalar Sel.MaxRadiusScalar
        (Sel.GetPawnMovementAlpha TargetingHandle)
      let H := FMath.Lerp Sel.HalfHeightScalar Sel.MaxHalfHeightScalar
        (Sel.GetPawnMovementAlpha TargetingHandle)
      FCollisionShape.MakeCapsule (CapsuleRadius * R) (CapsuleHalfHeight * H)
    | none =>
      let R := FMath.Lerp Sel.Radius Sel.MaxRadius (Sel.GetPawnMovementAlpha TargetingHandle)
      let H := FMath.Lerp Sel.HalfHeight Sel.MaxHalfHeight
        (Sel.GetPawnMovementAlpha TargetingHandle)
      FCollisionShape.MakeCapsule R H

/-- The linear interpolation of the spec, `lerp(a, b, t)`, as the convex combination
`(1 - t) * a + t * b`. -/
def SpecLerp (a b t : ℚ) : ℚ :=
  (1 - t) * a + t * b

/-- The spec's `lerp` on vectors, component by component. -/
def SpecLerpVector (a b : FVector) (t : ℚ) : FVector :=
  { X := SpecLerp a.X b.X t, Y := SpecLerp a.Y b.Y t, Z := SpecLerp a.Z b.Z t }

/-- The shape of the base configuration: the base dimensions of the shape kind; for the
character capsule the base scalars applied to the actor's capsule, or the base capsule
when no actor capsule is resolved. -/
def SpecBaseShape (Sel : UGraspTargetSelection) (TargetingHandle : FTargetingRequestHandle) :
    FCollisionShape :=
  match Sel.ShapeType with
  | EGraspTargetingShape.Box => FCollisionShape.MakeBox Sel.HalfExtent
  | EGraspTargetingShape.Cylinder => FCollisionShape.MakeBox Sel.HalfExtent
  | EGraspTargetingShape.Sphere => FCollisionShape.MakeSphere Sel.Radius
  | EGraspTargetingShape.Capsule => FCollisionShape.MakeCapsule Sel.Radius Sel.HalfHeight
  | EGraspTargetingShape.CharacterCapsule =>
    match UGraspTargetSelection.GetPawnCapsuleSize TargetingHandle with
    | some (r, h) => FCollisionShape.MakeCapsule (r * Sel.RadiusScalar) (h * Sel.HalfHeightScalar)
    | none => FCollisionShape.MakeCapsule Sel.Radius Sel.HalfHeight

/-- The shape of the maximum configuration: as `SpecBaseShape` with the maximum
dimensions and scalars. -/
def SpecMaxShape (Sel : UGraspTargetSelection) (TargetingHandle : FTargetingRequestHandle) :
    FCollisionShape :=
  match Sel.ShapeType with
  | EGraspTargetingShape.Box => FCollisionShape.MakeBox Sel.MaxHalfExtent
  | EGraspTargetingShape.Cylinder => FCollisionShape.MakeBox Sel.MaxHalfExtent
  | EGraspTargetingShape.Sphere => FCollisionShape.MakeSphere Sel.MaxRadius
  | EGraspTargetingShape.Capsule => FCollisionShape.MakeCapsule Sel.MaxRadius Sel.MaxHalfHeight
  | EGraspTargetingShape.CharacterCapsule =>
    match UGraspTargetSelection.GetPawnCapsuleSize TargetingHandle with
    | some (r, h) =>
      FCollisionShape.MakeCapsule (r * Sel.MaxRadiusScalar) (h * Sel.MaxHalfHeightScalar)
    | none => FCollisionShape.MakeCapsule Sel.MaxRadius Sel.MaxHalfHeight

/-- The speed that `GetPawnMovementAlpha` reads: `Velocity.Size()` when moving on ground,
`Velocity.Size2D()` otherwise (GraspTargetSelection.cpp lines 219 and 231). -/
def SelectedSpeed (Movement : UCharacterMovementComponent) : ℚ :=
  if Movement.bIsMovingOnGround then Movement.VelocitySize else Movement.VelocitySize2D

/-- The velocity ratio of a kinematic state, speed over maximum speed. -/
def VelocityRatioOf (Movement : UCharacterMovementComponent) : ℚ :=
  SelectedSpeed Movement / Movement.MaxSpeed

/-- The acceleration ratio of a kinematic state, planar acceleration over maximum
acceleration. -/
def AccelRatioOf (Movement : UCharacterMovementComponent) : ℚ :=
  Movement.CurrentAccelerationSize2D / Movement.MaxAcceleration

/-- The local `VelBias` of `GetPawnMovementAlpha` (GraspTargetSelection.cpp line 238):
the clamped `float` quotient of speed and maximum speed. -/
def VelBiasOf (Movement : UCharacterMovementComponent) : ℚ :=
  FMath.ClampFloat (FFloat.Quotient (SelectedSpeed Movement) Movement.MaxSpeed) 0 1

/-- The local `AccelBias` of `GetPawnMovementAlpha` (GraspTargetSelection.cpp line 237):
the clamped `float` quotient of planar acceleration and maximum acceleration. -/
def AccelBiasOf (Movement : UCharacterMovementComponent) : ℚ :=
  FMath.ClampFloat
    (FFloat.Quotient Movement.CurrentAccelerationSize2D Movement.MaxAcceleration) 0 1

/-- As `Scenario.Movement` but faster: speed 450 of at most 600, same acceleration. -/
def Scenario.FasterMovement : UCharacterMovementComponent :=
  { bIsMovingOnGround := true, VelocitySize := 450, VelocitySize2D := 450,
    CurrentAccelerationSize2D := 512, MaxSpeed := 600, MaxAcceleration := 2048 }

/-- As `Scenario.Movement` but accelerating harder: 1024 of at most 2048, same speed. -/
def Scenario.HarderAccelMovement : UCharacterMovementComponent :=
  { bIsMovingOnGround := true, VelocitySize := 300, VelocitySize2D := 300,
    CurrentAccelerationSize2D := 1024, MaxSpeed := 600, MaxAcceleration := 2048 }

/-- A character at maximum speed and acceleration whose capsule component has scaled
radius 34 and scaled half-height 88. -/
def Scenario.CapsuleCharacter : ACharacter :=
  { CharacterMovement := some Scenario.SaturatedMovement,
    CapsuleComponent := some { ScaledCapsuleRadius := 34, ScaledCapsuleHalfHeight := 88 } }

/-- The source actor that is `Scenario.CapsuleCharacter`. -/
def Scenario.CapsuleCharacterActor : AActor :=
  { Id := 1, bIsValid := true, ActorLocation := { X := 0, Y := 0, Z := 0 },
    Pawn := some { Character := some Scenario.CapsuleCharacter } }

/-- A valid handle whose source actor is `Scenario.CapsuleCharacter`. -/
def Scenario.CapsuleCharacterHandle : FTargetingRequestHandle :=
  { bIsValid := true,
    SourceContext := some { SourceActor := some Scenario.CapsuleCharacterActor } }

/-! ## Overlap result processing (`UGraspTargetSelection::ProcessOverlapResults`) -/

/-- Comparison of two actor pointers, `P == Q`: both null, or both pointing to the actor
of the same identity. -/
def ActorPtrEq (P Q : Option AActor) : Bool :=
  match P, Q with
  | none, none => true
  | some A, some B => A.Id == B.Id
  | _, _ => false

/-- The native events of the task that give the source transform of a request:
`GetSourceLocation`, `GetSourceOffset`, `GetSourceRotation`, `GetSourceRotationOffset`
(GraspTargetSelection.h lines 150-163), each a function of the targeting handle. -/
structure FGraspSourceEvents where
  GetSourceLocation : FTargetingRequestHandle → FVector
  GetSourceOffset : FTargetingRequestHandle → FVector
  GetSourceRotation : FTargetingRequestHandle → FQuat
  GetSourceRotationOffset : FTargetingRequestHandle → FQuat

/-- Engine `FTargetingDefaultResultsSet::FindOrAdd(TargetingHandle)`: the results set of
the request, a new empty one when the request has none.  `Store` is what the handle maps
to before the call. -/
def FTargetingDefaultResultsSet.FindOrAdd (Store : Option FTargetingDefaultResultsSet) :
    FTargetingDefaultResultsSet :=
  match Store with
  | some Results => Results
  | none => { TargetResults := [] }

/-- The inner loop of `ProcessOverlapResults` (GraspTargetSelection.cpp lines 424-432):
the value of `bAddResult` when the loop is left.  It starts true and becomes false, with
a `break`, at the first record whose actor is the overlap's actor. -/
def UGraspTargetSelection.bAddResult (OverlapActor : Option AActor) :
    List FTargetingDefaultResultData → Bool
  | [] => true
  | ResultData :: Rest =>
    if ActorPtrEq ResultData.HitResult.GetActor OverlapActor then false
    else bAddResult OverlapActor Rest

/-- The record that `ProcessOverlapResults` appends for an accepted overlap
(GraspTargetSelection.cpp lines 438-451): a default-constructed
`FTargetingDefaultResultData` with the listed members of its hit result assigned.
`Actor` is what `OverlapResult.GetActor()` points to. -/
def UGraspTargetSelection.NewResultData (This : UGraspTargetSelection) (Quat : FQuatMath)
    (SourceLocation : FVector) (SourceRotation : FQuat) (OverlapResult : FOverlapResult)
    (Actor : AActor) : FTargetingDefaultResultData :=
  { HitResult :=
      { HitObjectHandle := OverlapResult.OverlapObjectHandle
        Component := OverlapResult.GetComponent
        ImpactPoint := Actor.ActorLocation
        Location := Actor.ActorLocation
        bBlockingHit := OverlapResult.bBlockingHit
        TraceStart := SourceLocation
        Item := OverlapResult.ItemIndex
        Normal := Quat.Vector SourceRotation
        Distance := This.GraspAbilityRadius } }

/-- The tail of the outer loop body of `ProcessOverlapResults`
(GraspTargetSelection.cpp lines 424-452), reached with a non-null actor that passed the
cylinder test: the duplicate search, then `NumValidResults++` and the append when
`bAddResult` is still true.  The state is `(NumValidResults, TargetResults)`. -/
def UGraspTargetSelection.AddResultIfNew (This : UGraspTargetSelection) (Quat : FQuatMath)
    (SourceLocation : FVector) (SourceRotation : FQuat) (OverlapResult : FOverlapResult)
    (Actor : AActor) (State : Int × List FTargetingDefaultResultData) :
    Int × List FTargetingDefaultResultData :=
  if bAddResult OverlapResult.GetActor State.2 then
    (State.1 + 1,
      State.2 ++ [This.NewResultData Quat SourceLocation SourceRotation OverlapResult Actor])
  else State

/-- The local `const float RadiusSquared = (HalfExtent.X * HalfExtent.X)` of the cylinder
test (GraspTargetSelection.cpp line 416): the `double` product of the `double` member,
converted to `float`. -/
def UGraspTargetSelection.RadiusSquared (This : UGraspTargetSelection) : FFloat :=
  FFloatFormat.Single.Convert
    (FFloatFormat.Double.Mul (FFloatFormat.Double.Round This.HalfExtent.X)
      (FFloatFormat.Double.Round This.HalfExtent.X))

/-- The local `const float DistanceSquared = FVector::DistSquared2D(
OverlapResult.GetActor()->GetActorLocation(), SourceLocation)` of the cylinder test
(GraspTargetSelection.cpp line 417): the `double` result converted to `float`. -/
def UGraspTargetSelection.DistanceSquared (ActorLocation SourceLocation : FVector) : FFloat :=
  FFloatFormat.Single.Convert (FVector.DistSquared2D ActorLocation SourceLocation)

/-- The outer loop body of `ProcessOverlapResults` for one overlap
(GraspTargetSelection.cpp lines 408-452); each `continue` leaves the state as it is. -/
def UGraspTargetSelection.ProcessOverlap (This : UGraspTargetSelection) (Quat : FQuatMath)
    (SourceLocation : FVector) (SourceRotation : FQuat) (OverlapResult : FOverlapResult)
    (State : Int × List FTargetingDefaultResultData) :
    Int × List FTargetingDefaultResultData :=
  match OverlapResult.GetActor with
  | none => State
  | some Actor =>
    if This.ShapeType = EGraspTargetingShape.Cylinder then
      let RadiusSquared := This.RadiusSquared
      let DistanceSquared := DistanceSquared Actor.ActorLocation SourceLocation
      if FFloat.Gt DistanceSquared RadiusSquared then State
      else This.AddResultIfNew Quat SourceLocation SourceRotation OverlapResult Actor State
    else This.AddResultIfNew Quat SourceLocation SourceRotation OverlapResult Actor State

/-- The outer loop of `ProcessOverlapResults`,
`for (const FOverlapResult& OverlapResult : Overlaps)`. -/
def UGraspTargetSelection.OverlapLoop (This : UGraspTargetSelection) (Quat : FQuatMath)
    (SourceLocation : FVector) (SourceRotation : FQuat) :
    List FOverlapResult → Int × List FTargetingDefaultResultData →
      Int × List FTargetingDefaultResultData
  | [], State => State
  | OverlapResult :: Rest, State =>
    OverlapLoop This Quat SourceLocation SourceRotation Rest
      (This.ProcessOverlap Quat SourceLocation SourceRotation OverlapResult State)

/-- What a call of `ProcessOverlapResults` leaves behind: the task object (`this`, which
an editor build updates), the returned `NumValidResults`, and what the handle maps to in
the store of result sets. -/
structure FProcessOverlapOutcome where
  This : UGraspTargetSelection
  NumValidResults : Int
  Store : Option FTargetingDefaultResultsSet

/-- Method `UGraspTargetSelection::ProcessOverlapResults`
(GraspTargetSelection.cpp lines 387-461).  `bWithEditor` is the build flag `WITH_EDITOR`,
under which the method first calls `UpdateGraspAbilityRadius` on the task object;
`Store` is what the handle maps to in the store of result sets before the call. -/
def UGraspTargetSelection.ProcessOverlapResults (Sel : UGraspTargetSelection)
    (bWithEditor : Bool) (Quat : FQuatMath) (Events : FGraspSourceEvents)
    (TargetingHandle : FTargetingRequestHandle) (Overlaps : List FOverlapResult)
    (Store : Option FTargetingDefaultResultsSet) : FProcessOverlapOutcome :=
  let This := if bWithEditor then Sel.UpdateGraspAbilityRadius else Sel
  if Overlaps.length > 0 then
    let TargetingResults := FTargetingDefaultResultsSet.FindOrAdd Store
    let SourceLocation := (Events.GetSourceLocation TargetingHandle).add
      (Events.GetSourceOffset TargetingHandle)
    let SourceRotation := Quat.GetNormalized
      (Quat.Mul (Events.GetSourceRotation TargetingHandle)
        (Events.GetSourceRotationOffset TargetingHandle))
    let Final := This.OverlapLoop Quat SourceLocation SourceRotation Overlaps
      (0, TargetingResults.TargetResults)
    { This := This, NumValidResults := Final.1, Store := some { TargetResults := Final.2 } }
  else
    { This := This, NumValidResults := 0, Store := Store }

/-- The result list that a handle maps to: empty when the request has no results set. -/
def ResultsOf (Store : Option FTargetingDefaultResultsSet) : List FTargetingDefaultResultData :=
  (FTargetingDefaultResultsSet.FindOrAdd Store).TargetResults

/-- The task object as `ProcessOverlapResults` reads it: updated first in an editor
build. -/
def TaskInBuild (Sel : UGraspTargetSelection) (bWithEditor : Bool) : UGraspTargetSelection :=
  if bWithEditor then Sel.UpdateGraspAbilityRadius else Sel

/-- The source location that `ProcessOverlapResults` computes,
`GetSourceLocation(TargetingHandle) + GetSourceOffset(TargetingHandle)`. -/
def SourceLocationOf (Events : FGraspSourceEvents) (TargetingHandle : FTargetingRequestHandle) :
    FVector :=
  (Events.GetSourceLocation TargetingHandle).add (Events.GetSourceOffset TargetingHandle)

/-- The source rotation that `ProcessOverlapResults` computes,
`(GetSourceRotation(TargetingHandle) * GetSourceRotationOffset(TargetingHandle)).GetNormalized()`. -/
def SourceRotationOf (Quat : FQuatMath) (Events : FGraspSourceEvents)
    (TargetingHandle : FTargetingRequestHandle) : FQuat :=
  Quat.GetNormalized (Quat.Mul (Events.GetSourceRotation TargetingHandle)
    (Events.GetSourceRotationOffset TargetingHandle))

/-- An actor at `ActorLocation` passes the cylinder test of
GraspTargetSelection.cpp lines 416-421: `DistanceSquared > RadiusSquared`, a comparison
of two `float` values, is false. -/
def PassesCylinderTest (This : UGraspTargetSelection) (SourceLocation : FVector)
    (ActorLocation : FVector) : Prop :=
  FFloat.Gt (UGraspTargetSelection.DistanceSquared ActorLocation SourceLocation)
    This.RadiusSquared = false

/-- The three conditions under which an overlap hit is accepted when it is visited with
the result list `Results`: (1) its actor resolves, (2) the shape is not Cylinder or the
actor passes the cylinder test, that is, its squared planar distance to the source
location as a `float` does not exceed `HalfExtent.X` squared as a `float`, (3) no record
of `Results` has the same actor. -/
def HitAccepted (This : UGraspTargetSelection) (SourceLocation : FVector)
    (OverlapResult : FOverlapResult) (Results : List FTargetingDefaultResultData) : Prop :=
  ∃ Actor, OverlapResult.GetActor = some Actor ∧
    (This.ShapeType ≠ EGraspTargetingShape.Cylinder ∨
      PassesCylinderTest This SourceLocation Actor.ActorLocation) ∧
    ∀ R ∈ Results, ∀ Other, R.HitResult.GetActor = some Other → Other.Id ≠ Actor.Id

/-- Modelled from the spec: the squared planar (XY) distance of two locations, over exact
rationals. -/
def SpecDistSquared2D (V1 V2 : FVector) : ℚ :=
  (V2.X - V1.X) * (V2.X - V1.X) + (V2.Y - V1.Y) * (V2.Y - V1.Y)

/-- Modelled from the spec: the three conditions of the spec for a hit to be added when
it is visited with the result list `Results`: (1) its actor resolves, (2) the shape is
not Cylinder or the actor's squared planar distance to the source location is at most
`HalfExtent.X` squared, (3) no record of `Results` has the same actor. -/
def SpecHitAccepted (This : UGraspTargetSelection) (SourceLocation : FVector)
    (OverlapResult : FOverlapResult) (Results : List FTargetingDefaultResultData) : Prop :=
  ∃ Actor, OverlapResult.GetActor = some Actor ∧
    (This.ShapeType ≠ EGraspTargetingShape.Cylinder ∨
      SpecDistSquared2D Actor.ActorLocation SourceLocation ≤
        This.HalfExtent.X * This.HalfExtent.X) ∧
    ∀ R ∈ Results, ∀ Other, R.HitResult.GetActor = some Other → Other.Id ≠ Actor.Id

/-- A result list holds at most one record per actor: no two records at different
positions have actors of the same identity. -/
def OneRecordPerActor (Results : List FTargetingDefaultResultData) : Prop :=
  Results.Pairwise (fun R S =>
    ∀ A B, R.HitResult.GetActor = some A → S.HitResult.GetActor = some B → A.Id ≠ B.Id)

/-- The state `(NumValidResults, TargetResults)` of a call of `ProcessOverlapResults` at
the time it visits the hit that follows the hits `Pre` of its overlap list. -/
def VisitedState (Sel : UGraspTargetSelection) (bWithEditor : Bool) (Quat : FQuatMath)
    (Events : FGraspSourceEvents) (TargetingHandle : FTargetingRequestHandle)
    (Pre : List FOverlapResult) (Store : Option FTargetingDefaultResultsSet) :
    Int × List FTargetingDefaultResultData :=
  (TaskInBuild Sel bWithEditor).OverlapLoop Quat (SourceLocationOf Events TargetingHandle)
    (SourceRotationOf Quat Events TargetingHandle) Pre (0, ResultsOf Store)

/-- A stand-in for the engine's quaternion functions in the scenarios: the product keeps
its left factor, normalisation is the identity, every forward vector is `+X`. -/
def Scenario.QuatMath : FQuatMath :=
  { Mul := fun A _ => A, GetNormalized := fun A => A,
    Vector := fun _ => { X := 1, Y := 0, Z := 0 } }

/-- Source events of the scenarios: source at the origin, no offset, identity
rotations. -/
def Scenario.Events : FGraspSourceEvents :=
  { GetSourceLocation := fun _ => { X := 0, Y := 0, Z := 0 },
    GetSourceOffset := fun _ => { X := 0, Y := 0, Z := 0 },
    GetSourceRotation := fun _ => { X := 0, Y := 0, Z := 0, W := 1 },
    GetSourceRotationOffset := fun _ => { X := 0, Y := 0, Z := 0, W := 1 } }

/-- An actor 100 units from the source in the plane (and 50 above it). -/
def Scenario.NearActor : AActor :=
  { Id := 10, bIsValid := true, ActorLocation := { X := 100, Y := 0, Z := 50 }, Pawn := none }

/-- An actor 600 units from the source in the plane. -/
def Scenario.FarActor : AActor :=
  { Id := 11, bIsValid := true, ActorLocation := { X := 600, Y := 0, Z := 0 }, Pawn := none }

/-- An overlap hit on the near actor. -/
def Scenario.NearOverlap : FOverlapResult :=
  { OverlapObjectHandle := some Scenario.NearActor, Component := some Scenario.NearComponent,
    ItemIndex := 0, bBlockingHit := false }

/-- A second overlap hit on the near actor, through another component. -/
def Scenario.NearOverlapAgain : FOverlapResult :=
  { OverlapObjectHandle := some Scenario.NearActor, Component := some Scenario.TargetComponent,
    ItemIndex := 1, bBlockingHit := true }

/-- An overlap hit on the far actor. -/
def Scenario.FarOverlap : FOverlapResult :=
  { OverlapObjectHandle := some Scenario.FarActor, Component := some Scenario.TargetComponent,
    ItemIndex := 0, bBlockingHit := false }

/-- An actor just outside the radius 500: `500 + 2^-18` units from the source in the
plane, a distance that a `double` holds exactly. -/
def Scenario.RimActor : AActor :=
  { Id := 12, bIsValid := true, ActorLocation := { X := 500 + 1 / 2 ^ 18, Y := 0, Z := 0 },
    Pawn := none }

/-- An overlap hit on the actor just outside the radius. -/
def Scenario.RimOverlap : FOverlapResult :=
  { OverlapObjectHandle := some Scenario.RimActor, Component := some Scenario.TargetComponent,
    ItemIndex := 0, bBlockingHit := false }

/-- An overlap hit whose actor does not resolve. -/
def Scenario.NullOverlap : FOverlapResult :=
  { OverlapObjectHandle := none, Component := some Scenario.TargetComponent,
    ItemIndex := 0, bBlockingHit := false }

/-- A cylinder of radius `HalfExtent.X = 500` whose maximum half-extent is
(1000, 760, 240), in `Velocity` mode. -/
def Scenario.Cylinder : UGraspTargetSelection :=
  { MovementSelectionMode := EGraspMovementSelectionMode.Velocity,
    ShapeType := EGraspTargetingShape.Cylinder }

/-- The kinematic state of a request cannot be resolved: the handle is invalid, there is
no source context or no source actor, the source actor is not a Pawn, the Pawn is not a
Character, or the Character has no movement component. -/
def KinematicStateUnresolved (TargetingHandle : FTargetingRequestHandle) : Prop :=
  TargetingHandle.bIsValid = false ∨
    TargetingHandle.SourceContext = none ∨
    (∃ Context, TargetingHandle.SourceContext = some Context ∧ Context.SourceActor = none) ∨
    (∃ Context Actor, TargetingHandle.SourceContext = some Context ∧
      Context.SourceActor = some Actor ∧ Actor.Pawn = none) ∨
    (∃ Pawn, UGraspTargetSelection.GetPawnFromTargetingHandle TargetingHandle = some Pawn ∧
      Pawn.Character = none) ∨
    (∃ Pawn Character,
      UGraspTargetSelection.GetPawnFromTargetingHandle TargetingHandle = some Pawn ∧
      Pawn.Character = some Character ∧ Character.CharacterMovement = none)

/-- A source actor that is not a Pawn. -/
def Scenario.NotPawnHandle : FTargetingRequestHandle :=
  { bIsValid := true, SourceContext := some { SourceActor := some Scenario.SourceActor } }

/-- A handle that is not valid although its source actor is a moving character. -/
def Scenario.InvalidHandle : FTargetingRequestHandle :=
  { Scenario.CharacterHandle Scenario.SaturatedMovement with bIsValid := false }

/-- A source actor that is a Pawn but not a Character. -/
def Scenario.PlainPawnActor : AActor :=
  { Id := 1, bIsValid := true, ActorLocation := { X := 0, Y := 0, Z := 0 },
    Pawn := some { Character := none } }

/-- A valid handle whose source actor is a Pawn but not a Character. -/
def Scenario.PlainPawnHandle : FTargetingRequestHandle :=
  { bIsValid := true, SourceContext := some { SourceActor := some Scenario.PlainPawnActor } }

/-- A cylinder with the same base half-extent as `Scenario.Cylinder` whose movement
selection is `Disabled` and whose maximum half-extent is (9000, 9000, 9000). -/
def Scenario.OtherCylinder : UGraspTargetSelection :=
  { ShapeType := EGraspTargetingShape.Cylinder,
    MaxHalfExtent := { X := 9000, Y := 9000, Z := 9000 } }

/-! ## The targeting pass (`Execute`, `ExecuteImmediateTrace`, `ExecuteAsyncTrace`,
`HandleAsyncOverlapComplete`)

The task methods are state transformers on `FTaskRun`.  Debug drawing
(`UE_ENABLE_DEBUG_DRAWING`) writes only to the debug canvas and is left out. -/

/-- What the task calls outside itself during a pass: the quaternion functions, the
source events, `GetSourceContextWorld`, `IsAsyncTargetingRequest`,
`UCollisionProfile::ConvertToCollisionChannel(false, ..)`,
`UGraspTargetingStatics::InitCollisionParams`, and the build flag `WITH_EDITOR`. -/
structure FTargetingEngine where
  Quat : FQuatMath
  Events : FGraspSourceEvents
  GetSourceContextWorld : FTargetingRequestHandle → Option UWorld
  IsAsyncTargetingRequest : FTargetingRequestHandle → Bool
  ConvertToCollisionChannel : EObjectTypeQuery → ECollisionChannel
  InitCollisionParams :
    FTargetingRequestHandle → FCollisionQueryParams → Bool → Bool → Bool → FCollisionQueryParams
  bWithEditor : Bool

/-- The state that a pass of the task over one request reads and writes: the task object
(`this`), every state passed to `SetTaskAsyncState` so far (oldest first), what the
handle maps to in the store of result sets, and the synchronous and asynchronous overlap
queries issued so far. -/
structure FTaskRun where
  This : UGraspTargetSelection
  AsyncStates : List ETargetingTaskAsyncState
  Store : Option FTargetingDefaultResultsSet
  SyncQueries : List FOverlapQuery
  AsyncQueries : List FOverlapQuery

/-- The async state of the task: the state last passed to `SetTaskAsyncState`, if any. -/
def FTaskRun.TaskState (Run : FTaskRun) : Option ETargetingTaskAsyncState :=
  Run.AsyncStates.getLast?

/-- Engine `UTargetingTask::SetTaskAsyncState(TargetingHandle, AsyncState)`. -/
def FTaskRun.SetTaskAsyncState (Run : FTaskRun) (AsyncState : ETargetingTaskAsyncState) :
    FTaskRun :=
  { Run with AsyncStates := Run.AsyncStates ++ [AsyncState] }

/-- Method `UGraspTargetSelection::InitCollisionParams`
(GraspTargetSelection.cpp lines 511-516). -/
def UGraspTargetSelection.InitCollisionParams (Sel : UGraspTargetSelection)
    (Engine : FTargetingEngine) (TargetingHandle : FTargetingRequestHandle)
    (OutParams : FCollisionQueryParams) : FCollisionQueryParams :=
  Engine.InitCollisionParams TargetingHandle OutParams Sel.bIgnoreSourceActor
    Sel.bIgnoreInstigatorActor Sel.bTraceComplex

/-- Method `UGraspTargetSelection::ExecuteImmediateTrace`
(GraspTargetSelection.cpp lines 268-319). -/
def UGraspTargetSelection.ExecuteImmediateTrace (Engine : FTargetingEngine)
    (TargetingHandle : FTargetingRequestHandle) (Run : FTaskRun) : FTaskRun :=
  let Traced :=
    match Engine.GetSourceContextWorld TargetingHandle with
    | none => Run
    | some World =>
      if TargetingHandle.bIsValid then
        let SourceLocation := (Engine.Events.GetSourceLocation TargetingHandle).add
          (Engine.Events.GetSourceOffset TargetingHandle)
        let SourceRotation := Engine.Quat.GetNormalized
          (Engine.Quat.Mul (Engine.Events.GetSourceRotation TargetingHandle)
            (Engine.Events.GetSourceRotationOffset TargetingHandle))
        let CollisionShape := Run.This.GetCollisionShape TargetingHandle
        let OverlapParams := Run.This.InitCollisionParams Engine TargetingHandle
          { TraceTag := "UGraspTargetSelection_AOE", bTraceComplex := false,
            IgnoredActors := [] }
        let Query : FOverlapQuery :=
          if Run.This.CollisionObjectTypes.length > 0 then
            { By := FOverlapQueryBy.ObjectType
                (Run.This.CollisionObjectTypes.map Engine.ConvertToCollisionChannel)
              Pos := SourceLocation, Rot := SourceRotation
              CollisionShape := CollisionShape, Params := OverlapParams }
          else if Run.This.CollisionProfileName.Name ≠ FName.NoCollision then
            { By := FOverlapQueryBy.Profile Run.This.CollisionProfileName.Name
              Pos := SourceLocation, Rot := SourceRotation
              CollisionShape := CollisionShape, Params := OverlapParams }
          else
            { By := FOverlapQueryBy.Channel Run.This.CollisionChannel
              Pos := SourceLocation, Rot := SourceRotation
              CollisionShape := CollisionShape, Params := OverlapParams }
        let OverlapResults := World.OverlapMulti Query
        let Processed := Run.This.ProcessOverlapResults Engine.bWithEditor Engine.Quat
          Engine.Events TargetingHandle OverlapResults Run.Store
        { Run with This := Processed.This, Store := Processed.Store,
                   SyncQueries := Run.SyncQueries ++ [Query] }
      else Run
  Traced.SetTaskAsyncState ETargetingTaskAsyncState.Completed

/-- Method `UGraspTargetSelection::ExecuteAsyncTrace`
(GraspTargetSelection.cpp lines 321-360).  The query is handed to the world together
with the delegate `HandleAsyncOverlapComplete`. -/
def UGraspTargetSelection.ExecuteAsyncTrace (Engine : FTargetingEngine)
    (TargetingHandle : FTargetingRequestHandle) (Run : FTaskRun) : FTaskRun :=
  match Engine.GetSourceContextWorld TargetingHandle with
  | none => Run.SetTaskAsyncState ETargetingTaskAsyncState.Completed
  | some _ =>
    if TargetingHandle.bIsValid then
      let SourceLocation := (Engine.Events.GetSourceLocation TargetingHandle).add
        (Engine.Events.GetSourceOffset TargetingHandle)
      let SourceRotation := Engine.Quat.GetNormalized
        (Engine.Quat.Mul (Engine.Events.GetSourceRotation TargetingHandle)
          (Engine.Events.GetSourceRotationOffset TargetingHandle))
      let CollisionShape := Run.This.GetCollisionShape TargetingHandle
      let OverlapParams := Run.This.InitCollisionParams Engine TargetingHandle
        { TraceTag := "UGraspTargetSelection_AOE", bTraceComplex := false,
          IgnoredActors := [] }
      let Query : FOverlapQuery :=
        if Run.This.CollisionObjectTypes.length > 0 then
          { By := FOverlapQueryBy.ObjectType
              (Run.This.CollisionObjectTypes.map Engine.ConvertToCollisionChannel)
            Pos := SourceLocation, Rot := SourceRotation
            CollisionShape := CollisionShape, Params := OverlapParams }
        else if Run.This.CollisionProfileName.Name ≠ FName.NoCollision then
          { By := FOverlapQueryBy.Profile Run.This.CollisionProfileName.Name
            Pos := SourceLocation, Rot := SourceRotation
            CollisionShape := CollisionShape, Params := OverlapParams }
        else
          { By := FOverlapQueryBy.Channel Run.This.CollisionChannel
            Pos := SourceLocation, Rot := SourceRotation
            CollisionShape := CollisionShape, Params := OverlapParams }
      { Run with AsyncQueries := Run.AsyncQueries ++ [Query] }
    else Run.SetTaskAsyncState ETargetingTaskAsyncState.Completed

/-- Method `UGraspTargetSelection::HandleAsyncOverlapComplete`
(GraspTargetSelection.cpp lines 362-385); `OutOverlaps` is `InOverlapDatum.OutOverlaps`. -/
def UGraspTargetSelection.HandleAsyncOverlapComplete (Engine : FTargetingEngine)
    (OutOverlaps : List FOverlapResult) (TargetingHandle : FTargetingRequestHandle)
    (Run : FTaskRun) : FTaskRun :=
  let Handled :=
    if TargetingHandle.bIsValid then
      let Processed := Run.This.ProcessOverlapResults Engine.bWithEditor Engine.Quat
        Engine.Events TargetingHandle OutOverlaps Run.Store
      { Run with This := Processed.This, Store := Processed.Store }
    else Run
  Handled.SetTaskAsyncState ETargetingTaskAsyncState.Completed

/-- Method `UGraspTargetSelection::Execute` (GraspTargetSelection.cpp lines 250-266). -/
def UGraspTargetSelection.Execute (Engine : FTargetingEngine)
    (TargetingHandle : FTargetingRequestHandle) (Run : FTaskRun) : FTaskRun :=
  let Started := Run.SetTaskAsyncState ETargetingTaskAsyncState.Executing
  if Engine.IsAsyncTargetingRequest TargetingHandle then
    ExecuteAsyncTrace Engine TargetingHandle Started
  else
    ExecuteImmediateTrace Engine TargetingHandle Started

/-- A world whose every overlap query reports the near hit and the far hit. -/
def Scenario.World : UWorld :=
  { OverlapMulti := fun _ => [Scenario.NearOverlap, Scenario.FarOverlap] }

/-- An engine with a resolvable world for every handle and requests that are
synchronous or asynchronous as `bAsync` says; object types convert to the channel of the
same number and the statics leave the query parameters as they are. -/
def Scenario.Engine (bAsync : Bool) : FTargetingEngine :=
  { Quat := Scenario.QuatMath, Events := Scenario.Events,
    GetSourceContextWorld := fun _ => some Scenario.World,
    IsAsyncTargetingRequest := fun _ => bAsync,
    ConvertToCollisionChannel := fun ObjectType => ObjectType,
    InitCollisionParams := fun _ Params _ _ _ => Params,
    bWithEditor := false }

/-- As `Scenario.Engine` but without a resolvable world. -/
def Scenario.NoWorldEngine (bAsync : Bool) : FTargetingEngine :=
  { Scenario.Engine bAsync with GetSourceContextWorld := fun _ => none }

/-- The start of a pass: the task object, no async state set, no results set, no query
issued. -/
def Scenario.FreshRun (Sel : UGraspTargetSelection) : FTaskRun :=
  { This := Sel, AsyncStates := [], Store := none, SyncQueries := [], AsyncQueries := [] }

/-! ## Lemmas on the entry loops -/

theorem UGraspFilter_IsWithinGraspableAngle.EntryLoop_fst_angle (p : Int → Bool) (Num : Int) :
    ∀ (Fuel : Nat) (i : Int) (Calls : List Int), Num ≤ i + Fuel →
      ((EntryLoop p Num Fuel i Calls).1 = false ↔ ∃ j, i ≤ j ∧ j < Num ∧ p j = true) := by
  intro Fuel
  induction Fuel with
  | zero =>
    intro i Calls h
    simp only [EntryLoop]
    constructor
    · intro hc; cases hc
    · rintro ⟨j, h1, h2, -⟩
      simp at h
      omega
  | succ n ih =>
    intro i Calls h
    simp only [EntryLoop]
    by_cases hi : i < Num
    · by_cases hp : p i = true
      · simp only [hi, hp, if_true]
        exact ⟨fun _ => ⟨i, le_refl i, hi, hp⟩, fun _ => trivial⟩
      · have hstep : Num ≤ (i + 1) + (n : Int) := by push_cast at h; omega
        simp only [hi, hp, if_true]
        rw [if_neg (by simp), ih (i + 1) (Calls ++ [i]) hstep]
        constructor
        · rintro ⟨j, h1, h2, h3⟩
          exact ⟨j, by omega, h2, h3⟩
        · rintro ⟨j, h1, h2, h3⟩
          have hne : j ≠ i := by
            intro he
            exact hp (he ▸ h3)
          exact ⟨j, by omega, h2, h3⟩
    · simp only [hi, if_false]
      constructor
      · intro hc; cases hc
      · rintro ⟨j, h1, h2, -⟩
        omega

theorem UGraspFilter_IsWithinGraspableHeight.EntryLoop_fst_height (p : Int → Bool) (Num : Int) :
    ∀ (Fuel : Nat) (i : Int) (Calls : List Int), Num ≤ i + Fuel →
      ((EntryLoop p Num Fuel i Calls).1 = false ↔ ∃ j, i ≤ j ∧ j < Num ∧ p j = true) := by
  intro Fuel
  induction Fuel with
  | zero =>
    intro i Calls h
    simp only [EntryLoop]
    constructor
    · intro hc; cases hc
    · rintro ⟨j, h1, h2, -⟩
      simp at h
      omega
  | succ n ih =>
    intro i Calls h
    simp only [EntryLoop]
    by_cases hi : i < Num
    · by_cases hp : p i = true
      · simp only [hi, hp, if_true]
        exact ⟨fun _ => ⟨i, le_refl i, hi, hp⟩, fun _ => trivial⟩
      · have hstep : Num ≤ (i + 1) + (n : Int) := by push_cast at h; omega
        simp only [hi, hp, if_true]
        rw [if_neg (by simp), ih (i + 1) (Calls ++ [i]) hstep]
        constructor
        · rintro ⟨j, h1, h2, h3⟩
          exact ⟨j, by omega, h2, h3⟩
        · rintro ⟨j, h1, h2, h3⟩
          have hne : j ≠ i := by
            intro he
            exact hp (he ▸ h3)
          exact ⟨j, by omega, h2, h3⟩
    · simp only [hi, if_false]
      constructor
      · intro hc; cases hc
      · rintro ⟨j, h1, h2, -⟩
        omega

theorem UGraspFilter_CanActivateAbility.EntryLoop_fst_ability (p : Int → Bool) (Num : Int) :
    ∀ (Fuel : Nat) (i : Int) (Calls : List Int), Num ≤ i + Fuel →
      ((EntryLoop p Num Fuel i Calls).1 = false ↔ ∃ j, i ≤ j ∧ j < Num ∧ p j = true) := by
  intro Fuel
  induction Fuel with
  | zero =>
    intro i Calls h
    simp only [EntryLoop]
    constructor
    · intro hc; cases hc
    · rintro ⟨j, h1, h2, -⟩
      simp at h
      omega
  | succ n ih =>
    intro i Calls h
    simp only [EntryLoop]
    by_cases hi : i < Num
    · by_cases hp : p i = true
      · simp only [hi, hp, if_true]
        exact ⟨fun _ => ⟨i, le_refl i, hi, hp⟩, fun _ => trivial⟩
      · have hstep : Num ≤ (i + 1) + (n : Int) := by push_cast at h; omega
        simp only [hi, hp, if_true]
        rw [if_neg (by simp), ih (i + 1) (Calls ++ [i]) hstep]
        constructor
        · rintro ⟨j, h1, h2, h3⟩
          exact ⟨j, by omega, h2, h3⟩
        · rintro ⟨j, h1, h2, h3⟩
          have hne : j ≠ i := by
            intro he
            exact hp (he ▸ h3)
          exact ⟨j, by omega, h2, h3⟩
    · simp only [hi, if_false]
      constructor
      · intro hc; cases hc
      · rintro ⟨j, h1, h2, -⟩
        omega

theorem UGraspFilter_IsWithinGraspableRange.EntryLoop_fst_range (T : EGraspQueryResult)
    (f : Int → EGraspQueryResult) (Num : Int) :
    ∀ (Fuel : Nat) (i : Int) (Calls : List Int), Num ≤ i + Fuel →
      ((EntryLoop T f Num Fuel i Calls).1 = true ↔
        ∃ j, i ≤ j ∧ j < Num ∧ (f j = EGraspQueryResult.Interact ∨
          (f j = EGraspQueryResult.Highlight ∧ T = EGraspQueryResult.Highlight))) := by
  intro Fuel
  induction Fuel with
  | zero =>
    intro i Calls h
    simp only [EntryLoop]
    constructor
    · intro hc; cases hc
    · rintro ⟨j, h1, h2, -⟩
      simp at h
      omega
  | succ n ih =>
    intro i Calls h
    simp only [EntryLoop]
    by_cases hi : i < Num
    · by_cases hp : (f i = EGraspQueryResult.Interact ∨
          (f i = EGraspQueryResult.Highlight ∧ T = EGraspQueryResult.Highlight))
      · have hb : ((f i == EGraspQueryResult.Interact) ||
            (f i == EGraspQueryResult.Highlight && T == EGraspQueryResult.Highlight)) = true := by
          simpa using hp
        simp only [hi, hb, if_true]
        exact ⟨fun _ => ⟨i, le_refl i, hi, hp⟩, fun _ => trivial⟩
      · have hb : ((f i == EGraspQueryResult.Interact) ||
            (f i == EGraspQueryResult.Highlight && T == EGraspQueryResult.Highlight)) = false := by
          rw [Bool.eq_false_iff]
          intro hc
          exact hp (by simpa using hc)
        have hstep : Num ≤ (i + 1) + (n : Int) := by push_cast at h; omega
        simp only [hi, hb, if_true]
        rw [if_neg (by simp), ih (i + 1) (Calls ++ [i]) hstep]
        constructor
        · rintro ⟨j, h1, h2, h3⟩
          exact ⟨j, by omega, h2, h3⟩
        · rintro ⟨j, h1, h2, h3⟩
          have hne : j ≠ i := by
            intro he
            exact hp (he ▸ h3)
          exact ⟨j, by omega, h2, h3⟩
    · simp only [hi, if_false]
      constructor
      · intro hc; cases hc
      · rintro ⟨j, h1, h2, -⟩
        omega

theorem UGraspFilter_IsWithinGraspableData.EntryLoop_fst_data (T : EGraspQueryResult)
    (f : Int → EGraspQueryResult) (Num : Int) :
    ∀ (Fuel : Nat) (i : Int) (Calls : List Int), Num ≤ i + Fuel →
      ((EntryLoop T f Num Fuel i Calls).1 = true ↔
        ∃ j, i ≤ j ∧ j < Num ∧ (f j = EGraspQueryResult.Interact ∨
          (f j = EGraspQueryResult.Highlight ∧ T = EGraspQueryResult.Highlight))) := by
  intro Fuel
  induction Fuel with
  | zero =>
    intro i Calls h
    simp only [EntryLoop]
    constructor
    · intro hc; cases hc
    · rintro ⟨j, h1, h2, -⟩
      simp at h
      omega
  | succ n ih =>
    intro i Calls h
    simp only [EntryLoop]
    by_cases hi : i < Num
    · by_cases hp : (f i = EGraspQueryResult.Interact ∨
          (f i = EGraspQueryResult.Highlight ∧ T = EGraspQueryResult.Highlight))
      · have hb : ((f i == EGraspQueryResult.Interact) ||
            (f i == EGraspQueryResult.Highlight && T == EGraspQueryResult.Highlight)) = true := by
          simpa using hp
        simp only [hi, hb, if_true]
        exact ⟨fun _ => ⟨i, le_refl i, hi, hp⟩, fun _ => trivial⟩
      · have hb : ((f i == EGraspQueryResult.Interact) ||
            (f i == EGraspQueryResult.Highlight && T == EGraspQueryResult.Highlight)) = false := by
          rw [Bool.eq_false_iff]
          intro hc
          exact hp (by simpa using hc)
        have hstep : Num ≤ (i + 1) + (n : Int) := by push_cast at h; omega
        simp only [hi, hb, if_true]
        rw [if_neg (by simp), ih (i + 1) (Calls ++ [i]) hstep]
        constructor
        · rintro ⟨j, h1, h2, h3⟩
          exact ⟨j, by omega, h2, h3⟩
        · rintro ⟨j, h1, h2, h3⟩
          have hne : j ≠ i := by
            intro he
            exact hp (he ▸ h3)
          exact ⟨j, by omega, h2, h3⟩
    · simp only [hi, if_false]
      constructor
      · intro hc; cases hc
      · rintro ⟨j, h1, h2, -⟩
        omega

/-! ## The filters with context present -/

theorem UGraspFilter_IsWithinGraspableAngle.traced_of_present_angle
    (p : AActor → UPrimitiveComponent → Int → Bool)
    {H : FTargetingRequestHandle} {D : FTargetingDefaultResultData} {A : AActor}
    {C : UPrimitiveComponent} {G : IGraspableComponent} (hctx : ContextPresent H D A C G) :
    ShouldFilterTargetTraced p H D =
      EntryLoop (p A C) G.GetNumGraspData G.GetNumGraspData.toNat 0 [] := by
  obtain ⟨⟨S, h1, h2⟩, hv, h3, h4⟩ := hctx
  simp [ShouldFilterTargetTraced, h1, h2, IsValid, hv, h3, h4]

theorem UGraspFilter_IsWithinGraspableHeight.traced_of_present_height
    (p : AActor → UPrimitiveComponent → Int → Bool)
    {H : FTargetingRequestHandle} {D : FTargetingDefaultResultData} {A : AActor}
    {C : UPrimitiveComponent} {G : IGraspableComponent} (hctx : ContextPresent H D A C G) :
    ShouldFilterTargetTraced p H D =
      EntryLoop (p A C) G.GetNumGraspData G.GetNumGraspData.toNat 0 [] := by
  obtain ⟨⟨S, h1, h2⟩, hv, h3, h4⟩ := hctx
  simp [ShouldFilterTargetTraced, h1, h2, IsValid, hv, h3, h4]

theorem UGraspFilter_CanActivateAbility.traced_of_present_ability {σ : Type}
    (F : UGraspFilter_CanActivateAbility σ)
    (p : AActor → UPrimitiveComponent → σ → Int → Bool)
    {H : FTargetingRequestHandle} {D : FTargetingDefaultResultData} {A : AActor}
    {C : UPrimitiveComponent} {G : IGraspableComponent} (hctx : ContextPresent H D A C G) :
    F.ShouldFilterTargetTraced p H D =
      EntryLoop (p A C F.Source) G.GetNumGraspData G.GetNumGraspData.toNat 0 [] := by
  obtain ⟨⟨S, h1, h2⟩, hv, h3, h4⟩ := hctx
  simp [ShouldFilterTargetTraced, h1, h2, IsValid, hv, h3, h4]

theorem UGraspFilter_IsWithinGraspableRange.traced_of_present_range
    (F : UGraspFilter_IsWithinGraspableRange)
    (f : AActor → UPrimitiveComponent → Int → EGraspQueryResult)
    {H : FTargetingRequestHandle} {D : FTargetingDefaultResultData} {A : AActor}
    {C : UPrimitiveComponent} {G : IGraspableComponent} (hctx : ContextPresent H D A C G) :
    F.ShouldFilterTargetTraced f H D =
      (!(EntryLoop F.Threshold (f A C) G.GetNumGraspData G.GetNumGraspData.toNat 0 []).1,
        (EntryLoop F.Threshold (f A C) G.GetNumGraspData G.GetNumGraspData.toNat 0 []).2) := by
  obtain ⟨⟨S, h1, h2⟩, hv, h3, h4⟩ := hctx
  simp [ShouldFilterTargetTraced, h1, h2, IsValid, hv, h3, h4]

theorem UGraspFilter_IsWithinGraspableData.traced_of_present_data
    (F : UGraspFilter_IsWithinGraspableData)
    (f : AActor → UPrimitiveComponent → Int → EGraspQueryResult)
    {H : FTargetingRequestHandle} {D : FTargetingDefaultResultData} {A : AActor}
    {C : UPrimitiveComponent} {G : IGraspableComponent} (hctx : ContextPresent H D A C G) :
    F.ShouldFilterTargetTraced f H D =
      (!(EntryLoop F.Threshold (f A C) G.GetNumGraspData G.GetNumGraspData.toNat 0 []).1,
        (EntryLoop F.Threshold (f A C) G.GetNumGraspData G.GetNumGraspData.toNat 0 []).2) := by
  obtain ⟨⟨S, h1, h2⟩, hv, h3, h4⟩ := hctx
  simp [ShouldFilterTargetTraced, h1, h2, IsValid, hv, h3, h4]

/-- With context present the Range filter keeps the candidate exactly when some entry
index in `[0, Num)` passes the threshold test. -/
theorem UGraspFilter_IsWithinGraspableRange.keeps_iff_range
    (F : UGraspFilter_IsWithinGraspableRange)
    (f : AActor → UPrimitiveComponent → Int → EGraspQueryResult)
    {H : FTargetingRequestHandle} {D : FTargetingDefaultResultData} {A : AActor}
    {C : UPrimitiveComponent} {G : IGraspableComponent} (hctx : ContextPresent H D A C G) :
    F.ShouldFilterTarget f H D = false ↔
      ∃ i, 0 ≤ i ∧ i < G.GetNumGraspData ∧ (f A C i = EGraspQueryResult.Interact ∨
        (f A C i = EGraspQueryResult.Highlight ∧
          F.Threshold = EGraspQueryResult.Highlight)) := by
  have hfuel : G.GetNumGraspData ≤ (0 : Int) + (G.GetNumGraspData.toNat : Int) := by
    rw [zero_add]; exact Int.self_le_toNat _
  rw [ShouldFilterTarget, traced_of_present_range F f hctx]
  simp only [Bool.not_eq_false_eq_eq_true]
  rw [← EntryLoop_fst_range F.Threshold (f A C) G.GetNumGraspData _ 0 [] hfuel]

/-- With context present the combined Data filter keeps the candidate exactly when some
entry index in `[0, Num)` passes the threshold test. -/
theorem UGraspFilter_IsWithinGraspableData.keeps_iff_data
    (F : UGraspFilter_IsWithinGraspableData)
    (f : AActor → UPrimitiveComponent → Int → EGraspQueryResult)
    {H : FTargetingRequestHandle} {D : FTargetingDefaultResultData} {A : AActor}
    {C : UPrimitiveComponent} {G : IGraspableComponent} (hctx : ContextPresent H D A C G) :
    F.ShouldFilterTarget f H D = false ↔
      ∃ i, 0 ≤ i ∧ i < G.GetNumGraspData ∧ (f A C i = EGraspQueryResult.Interact ∨
        (f A C i = EGraspQueryResult.Highlight ∧
          F.Threshold = EGraspQueryResult.Highlight)) := by
  have hfuel : G.GetNumGraspData ≤ (0 : Int) + (G.GetNumGraspData.toNat : Int) := by
    rw [zero_add]; exact Int.self_le_toNat _
  rw [ShouldFilterTarget, traced_of_present_data F f hctx]
  simp only [Bool.not_eq_false_eq_eq_true]
  rw [← EntryLoop_fst_data F.Threshold (f A C) G.GetNumGraspData _ 0 [] hfuel]

/-- With context present an early-return filter keeps the candidate exactly when some
entry index in `[0, Num)` satisfies the per-entry query (Angle filter). -/
theorem UGraspFilter_IsWithinGraspableAngle.keeps_iff_angle
    (p : AActor → UPrimitiveComponent → Int → Bool)
    {H : FTargetingRequestHandle} {D : FTargetingDefaultResultData} {A : AActor}
    {C : UPrimitiveComponent} {G : IGraspableComponent} (hctx : ContextPresent H D A C G) :
    ShouldFilterTarget p H D = false ↔
      ∃ i, 0 ≤ i ∧ i < G.GetNumGraspData ∧ p A C i = true := by
  have hfuel : G.GetNumGraspData ≤ (0 : Int) + (G.GetNumGraspData.toNat : Int) := by
    rw [zero_add]; exact Int.self_le_toNat _
  rw [ShouldFilterTarget, traced_of_present_angle p hctx]
  exact EntryLoop_fst_angle (p A C) G.GetNumGraspData _ 0 [] hfuel

/-- The Height filter keeps the candidate exactly when some entry passes. -/
theorem UGraspFilter_IsWithinGraspableHeight.keeps_iff_height
    (p : AActor → UPrimitiveComponent → Int → Bool)
    {H : FTargetingRequestHandle} {D : FTargetingDefaultResultData} {A : AActor}
    {C : UPrimitiveComponent} {G : IGraspableComponent} (hctx : ContextPresent H D A C G) :
    ShouldFilterTarget p H D = false ↔
      ∃ i, 0 ≤ i ∧ i < G.GetNumGraspData ∧ p A C i = true := by
  have hfuel : G.GetNumGraspData ≤ (0 : Int) + (G.GetNumGraspData.toNat : Int) := by
    rw [zero_add]; exact Int.self_le_toNat _
  rw [ShouldFilterTarget, traced_of_present_height p hctx]
  exact EntryLoop_fst_height (p A C) G.GetNumGraspData _ 0 [] hfuel

/-- The CanActivateAbility filter keeps the candidate exactly when some entry passes. -/
theorem UGraspFilter_CanActivateAbility.keeps_iff_ability {σ : Type}
    (F : UGraspFilter_CanActivateAbility σ)
    (p : AActor → UPrimitiveComponent → σ → Int → Bool)
    {H : FTargetingRequestHandle} {D : FTargetingDefaultResultData} {A : AActor}
    {C : UPrimitiveComponent} {G : IGraspableComponent} (hctx : ContextPresent H D A C G) :
    F.ShouldFilterTarget p H D = false ↔
      ∃ i, 0 ≤ i ∧ i < G.GetNumGraspData ∧ p A C F.Source i = true := by
  have hfuel : G.GetNumGraspData ≤ (0 : Int) + (G.GetNumGraspData.toNat : Int) := by
    rw [zero_add]; exact Int.self_le_toNat _
  rw [ShouldFilterTarget, traced_of_present_ability F p hctx]
  exact EntryLoop_fst_ability (p A C F.Source) G.GetNumGraspData _ 0 [] hfuel

/-! ## The filters with context absent -/

theorem UGraspFilter_IsWithinGraspableAngle.traced_of_absent_angle
    (p : AActor → UPrimitiveComponent → Int → Bool)
    {H : FTargetingRequestHandle} {D : FTargetingDefaultResultData}
    (habs : ContextAbsent H D) : ShouldFilterTargetTraced p H D = (true, []) := by
  unfold ShouldFilterTargetTraced
  rcases habs with h | ⟨S, h, hv⟩ | h | ⟨C, h, hg⟩
  · simp [h]
  · simp [h, hv]
  · split
    · rfl
    · split
      · rfl
      · split
        · rfl
        · simp [h]
  · split
    · rfl
    · split
      · rfl
      · split
        · rfl
        · simp [h, hg]

theorem UGraspFilter_IsWithinGraspableHeight.traced_of_absent_height
    (p : AActor → UPrimitiveComponent → Int → Bool)
    {H : FTargetingRequestHandle} {D : FTargetingDefaultResultData}
    (habs : ContextAbsent H D) : ShouldFilterTargetTraced p H D = (true, []) := by
  unfold ShouldFilterTargetTraced
  rcases habs with h | ⟨S, h, hv⟩ | h | ⟨C, h, hg⟩
  · simp [h]
  · simp [h, hv]
  · split
    · rfl
    · split
      · rfl
      · split
        · rfl
        · simp [h]
  · split
    · rfl
    · split
      · rfl
      · split
        · rfl
        · simp [h, hg]

theorem UGraspFilter_CanActivateAbility.traced_of_absent_ability {σ : Type}
    (F : UGraspFilter_CanActivateAbility σ)
    (p : AActor → UPrimitiveComponent → σ → Int → Bool)
    {H : FTargetingRequestHandle} {D : FTargetingDefaultResultData}
    (habs : ContextAbsent H D) : F.ShouldFilterTargetTraced p H D = (true, []) := by
  unfold ShouldFilterTargetTraced
  rcases habs with h | ⟨S, h, hv⟩ | h | ⟨C, h, hg⟩
  · simp [h]
  · simp [h, hv]
  · split
    · rfl
    · split
      · rfl
      · split
        · rfl
        · simp [h]
  · split
    · rfl
    · split
      · rfl
      · split
        · rfl
        · simp [h, hg]

theorem UGraspFilter_IsWithinGraspableRange.traced_of_absent_range
    (F : UGraspFilter_IsWithinGraspableRange)
    (f : AActor → UPrimitiveComponent → Int → EGraspQueryResult)
    {H : FTargetingRequestHandle} {D : FTargetingDefaultResultData}
    (habs : ContextAbsent H D) : F.ShouldFilterTargetTraced f H D = (true, []) := by
  unfold ShouldFilterTargetTraced
  rcases habs with h | ⟨S, h, hv⟩ | h | ⟨C, h, hg⟩
  · simp [h]
  · simp [h, hv]
  · split
    · rfl
    · split
      · rfl
      · split
        · rfl
        · simp [h]
  · split
    · rfl
    · split
      · rfl
      · split
        · rfl
        · simp [h, hg]

theorem UGraspFilter_IsWithinGraspableData.traced_of_absent_data
    (F : UGraspFilter_IsWithinGraspableData)
    (f : AActor → UPrimitiveComponent → Int → EGraspQueryResult)
    {H : FTargetingRequestHandle} {D : FTargetingDefaultResultData}
    (habs : ContextAbsent H D) : F.ShouldFilterTargetTraced f H D = (true, []) := by
  unfold ShouldFilterTargetTraced
  rcases habs with h | ⟨S, h, hv⟩ | h | ⟨C, h, hg⟩
  · simp [h]
  · simp [h, hv]
  · split
    · rfl
    · split
      · rfl
      · split
        · rfl
        · simp [h]
  · split
    · rfl
    · split
      · rfl
      · split
        · rfl
        · simp [h, hg]

/-- Every handle and candidate either lacks context or has it. -/
theorem contextAbsent_or_present (H : FTargetingRequestHandle)
    (D : FTargetingDefaultResultData) :
    ContextAbsent H D ∨ ∃ A C G, ContextPresent H D A C G := by
  rcases hS : H.SourceContext with _ | S
  · exact Or.inl (Or.inl hS)
  · rcases hA : S.SourceActor with _ | A
    · exact Or.inl (Or.inr (Or.inl ⟨S, hS, by simp [hA, IsValid]⟩))
    · rcases hv : A.bIsValid with _ | _
      · exact Or.inl (Or.inr (Or.inl ⟨S, hS, by simp [hA, IsValid, hv]⟩))
      · rcases hC : D.HitResult.Component with _ | C
        · exact Or.inl (Or.inr (Or.inr (Or.inl hC)))
        · rcases hG : C.Graspable with _ | G
          · exact Or.inl (Or.inr (Or.inr (Or.inr ⟨C, hC, hG⟩)))
          · exact Or.inr ⟨A, C, G, ⟨S, hS, hA⟩, hv, hC, hG⟩

/-! ## Facts about the scenario -/

theorem Scenario.contextPresent :
    ContextPresent Scenario.Handle Scenario.TargetData Scenario.SourceActor
      Scenario.TargetComponent Scenario.Graspable :=
  ⟨⟨_, rfl, rfl⟩, rfl, rfl, rfl⟩

theorem Scenario.entry_is_highlight :
    UGraspStatics.CanInteractWithRange Scenario.SourceActor Scenario.TargetComponent 0 =
      EGraspQueryResult.Highlight := by
  simp [UGraspStatics.CanInteractWithRange, Scenario.TargetComponent, Scenario.Graspable,
    UGraspableBoxComponent.toGraspable, UGraspableBoxComponent.GetGraspData, Scenario.Entry,
    Scenario.SourceActor, FVector.DistSquared]
  norm_num

theorem Scenario.twoEntry_contextPresent :
    ContextPresent Scenario.Handle Scenario.TwoEntryTargetData Scenario.SourceActor
      Scenario.TwoEntryComponent Scenario.TwoEntryGraspable :=
  ⟨⟨_, rfl, rfl⟩, rfl, rfl, rfl⟩

/-! ## The filter claims -/

/-- C1: for the Range filter and the combined Range+Angle+Height (Data) filter, with a
valid source actor and a graspable target exposing `GetNumGraspData()` entries,
`ShouldFilterTarget` returns false (candidate kept) if and only if some index `i` in
`[0, GetNumGraspData())` is classified `Interact`, or is classified `Highlight` while the
filter's `Threshold` is `Highlight`; the classifier is an arbitrary function. -/
theorem range_and_data_keep_iff_some_entry_reaches_threshold
    (FR : UGraspFilter_IsWithinGraspableRange) (FD : UGraspFilter_IsWithinGraspableData)
    (CanInteractWithRange CanInteractWith :
      AActor → UPrimitiveComponent → Int → EGraspQueryResult)
    (H : FTargetingRequestHandle) (D : FTargetingDefaultResultData) (A : AActor)
    (C : UPrimitiveComponent) (G : IGraspableComponent)
    (hctx : ContextPresent H D A C G) :
    (FR.ShouldFilterTarget CanInteractWithRange H D = false ↔
      ∃ i, 0 ≤ i ∧ i < G.GetNumGraspData ∧
        (CanInteractWithRange A C i = EGraspQueryResult.Interact ∨
          (CanInteractWithRange A C i = EGraspQueryResult.Highlight ∧
            FR.Threshold = EGraspQueryResult.Highlight))) ∧
    (FD.ShouldFilterTarget CanInteractWith H D = false ↔
      ∃ i, 0 ≤ i ∧ i < G.GetNumGraspData ∧
        (CanInteractWith A C i = EGraspQueryResult.Interact ∨
          (CanInteractWith A C i = EGraspQueryResult.Highlight ∧
            FD.Threshold = EGraspQueryResult.Highlight))) :=
  ⟨FR.keeps_iff_range CanInteractWithRange hctx, FD.keeps_iff_data CanInteractWith hctx⟩

/-- The statement of C1 applied to the range scenario: context is present, the single
entry is classified `Highlight`, and both filters with threshold `Highlight` keep the
candidate. -/
theorem range_and_data_keep_iff_some_entry_reaches_threshold_witness :
    ContextPresent Scenario.Handle Scenario.TargetData Scenario.SourceActor
        Scenario.TargetComponent Scenario.Graspable ∧
      UGraspFilter_IsWithinGraspableRange.ShouldFilterTarget
        { Threshold := EGraspQueryResult.Highlight } UGraspStatics.CanInteractWithRange
        Scenario.Handle Scenario.TargetData = false ∧
      UGraspFilter_IsWithinGraspableData.ShouldFilterTarget
        { Threshold := EGraspQueryResult.Highlight } UGraspStatics.CanInteractWithRange
        Scenario.Handle Scenario.TargetData = false :=
  have h := range_and_data_keep_iff_some_entry_reaches_threshold
    { Threshold := EGraspQueryResult.Highlight } { Threshold := EGraspQueryResult.Highlight }
    UGraspStatics.CanInteractWithRange UGraspStatics.CanInteractWithRange
    Scenario.Handle Scenario.TargetData Scenario.SourceActor Scenario.TargetComponent
    Scenario.Graspable Scenario.contextPresent
  ⟨Scenario.contextPresent,
    h.1.mpr ⟨0, le_refl 0, by decide, Or.inr ⟨Scenario.entry_is_highlight, rfl⟩⟩,
    h.2.mpr ⟨0, le_refl 0, by decide, Or.inr ⟨Scenario.entry_is_highlight, rfl⟩⟩⟩

/-- C2: for the Angle, Height and CanActivateAbility filters, with a valid source actor
and a graspable target exposing `GetNumGraspData()` entries, `ShouldFilterTarget` returns
false (candidate kept) if and only if at least one index `i` in `[0, GetNumGraspData())`
satisfies the filter's per-entry query; it does not require all entries to pass. -/
theorem angle_height_ability_keep_iff_some_entry_passes {σ : Type}
    (FA : UGraspFilter_CanActivateAbility σ)
    (CanInteractWithAngle CanInteractWithHeight : AActor → UPrimitiveComponent → Int → Bool)
    (CanGraspActivateAbility : AActor → UPrimitiveComponent → σ → Int → Bool)
    (H : FTargetingRequestHandle) (D : FTargetingDefaultResultData) (A : AActor)
    (C : UPrimitiveComponent) (G : IGraspableComponent)
    (hctx : ContextPresent H D A C G) :
    (UGraspFilter_IsWithinGraspableAngle.ShouldFilterTarget CanInteractWithAngle H D = false ↔
      ∃ i, 0 ≤ i ∧ i < G.GetNumGraspData ∧ CanInteractWithAngle A C i = true) ∧
    (UGraspFilter_IsWithinGraspableHeight.ShouldFilterTarget CanInteractWithHeight H D = false ↔
      ∃ i, 0 ≤ i ∧ i < G.GetNumGraspData ∧ CanInteractWithHeight A C i = true) ∧
    (FA.ShouldFilterTarget CanGraspActivateAbility H D = false ↔
      ∃ i, 0 ≤ i ∧ i < G.GetNumGraspData ∧ CanGraspActivateAbility A C FA.Source i = true) :=
  ⟨UGraspFilter_IsWithinGraspableAngle.keeps_iff_angle CanInteractWithAngle hctx,
    UGraspFilter_IsWithinGraspableHeight.keeps_iff_height CanInteractWithHeight hctx,
    FA.keeps_iff_ability CanGraspActivateAbility hctx⟩

/-- The statement of C2 applied to a candidate with two entries of which only the second
passes: the first entry fails and yet all three filters keep the candidate. -/
theorem angle_height_ability_keep_iff_some_entry_passes_witness :
    ContextPresent Scenario.Handle Scenario.TwoEntryTargetData Scenario.SourceActor
        Scenario.TwoEntryComponent Scenario.TwoEntryGraspable ∧
      Scenario.OnlySecondEntry Scenario.SourceActor Scenario.TwoEntryComponent 0 = false ∧
      UGraspFilter_IsWithinGraspableAngle.ShouldFilterTarget Scenario.OnlySecondEntry
        Scenario.Handle Scenario.TwoEntryTargetData = false ∧
      UGraspFilter_IsWithinGraspableHeight.ShouldFilterTarget Scenario.OnlySecondEntry
        Scenario.Handle Scenario.TwoEntryTargetData = false ∧
      UGraspFilter_CanActivateAbility.ShouldFilterTarget { Source := () }
        (fun A C (_ : Unit) i => Scenario.OnlySecondEntry A C i)
        Scenario.Handle Scenario.TwoEntryTargetData = false :=
  have h := angle_height_ability_keep_iff_some_entry_passes { Source := () }
    Scenario.OnlySecondEntry Scenario.OnlySecondEntry
    (fun A C (_ : Unit) i => Scenario.OnlySecondEntry A C i)
    Scenario.Handle Scenario.TwoEntryTargetData Scenario.SourceActor
    Scenario.TwoEntryComponent Scenario.TwoEntryGraspable Scenario.twoEntry_contextPresent
  ⟨Scenario.twoEntry_contextPresent, by decide,
    h.1.mpr ⟨1, by decide, by decide, by decide⟩,
    h.2.1.mpr ⟨1, by decide, by decide, by decide⟩,
    h.2.2.mpr ⟨1, by decide, by decide, by decide⟩⟩

/-- C3, as stated, fails: for a handle without a source context, context is absent and yet
each of the Angle, Height, Range, Data and CanActivateAbility filters returns true (the
candidate is filtered out), also when every entry would pass. -/
theorem absent_context_is_filtered_counterexample :
    ContextAbsent Scenario.NoContextHandle Scenario.TargetData ∧
      ¬ (UGraspFilter_IsWithinGraspableAngle.ShouldFilterTarget (fun _ _ _ => true)
          Scenario.NoContextHandle Scenario.TargetData = false) ∧
      ¬ (UGraspFilter_IsWithinGraspableHeight.ShouldFilterTarget (fun _ _ _ => true)
          Scenario.NoContextHandle Scenario.TargetData = false) ∧
      ¬ (UGraspFilter_IsWithinGraspableRange.ShouldFilterTarget
          { Threshold := EGraspQueryResult.Highlight }
          (fun _ _ _ => EGraspQueryResult.Interact)
          Scenario.NoContextHandle Scenario.TargetData = false) ∧
      ¬ (UGraspFilter_IsWithinGraspableData.ShouldFilterTarget
          { Threshold := EGraspQueryResult.Highlight }
          (fun _ _ _ => EGraspQueryResult.Interact)
          Scenario.NoContextHandle Scenario.TargetData = false) ∧
      ¬ (UGraspFilter_CanActivateAbility.ShouldFilterTarget { Source := () }
          (fun _ _ (_ : Unit) _ => true)
          Scenario.NoContextHandle Scenario.TargetData = false) :=
  ⟨Or.inl rfl, by decide, by decide, by decide, by decide, by decide⟩

/-- C3, amended: when context is absent -- no source context, a null or invalid source
actor, no target component, or a target component that does not implement the graspable
interface -- each of the Angle, Height, Range, Data and CanActivateAbility filters
returns true (the candidate is filtered out), for every per-entry query and threshold. -/
theorem absent_context_is_filtered {σ : Type}
    (FR : UGraspFilter_IsWithinGraspableRange) (FD : UGraspFilter_IsWithinGraspableData)
    (FA : UGraspFilter_CanActivateAbility σ)
    (CanInteractWithAngle CanInteractWithHeight : AActor → UPrimitiveComponent → Int → Bool)
    (CanInteractWithRange CanInteractWith :
      AActor → UPrimitiveComponent → Int → EGraspQueryResult)
    (CanGraspActivateAbility : AActor → UPrimitiveComponent → σ → Int → Bool)
    (H : FTargetingRequestHandle) (D : FTargetingDefaultResultData)
    (habs : ContextAbsent H D) :
    UGraspFilter_IsWithinGraspableAngle.ShouldFilterTarget CanInteractWithAngle H D = true ∧
      UGraspFilter_IsWithinGraspableHeight.ShouldFilterTarget CanInteractWithHeight H D = true ∧
      FR.ShouldFilterTarget CanInteractWithRange H D = true ∧
      FD.ShouldFilterTarget CanInteractWith H D = true ∧
      FA.ShouldFilterTarget CanGraspActivateAbility H D = true := by
  refine ⟨?_, ?_, ?_, ?_, ?_⟩
  · rw [UGraspFilter_IsWithinGraspableAngle.ShouldFilterTarget,
      UGraspFilter_IsWithinGraspableAngle.traced_of_absent_angle _ habs]
  · rw [UGraspFilter_IsWithinGraspableHeight.ShouldFilterTarget,
      UGraspFilter_IsWithinGraspableHeight.traced_of_absent_height _ habs]
  · rw [UGraspFilter_IsWithinGraspableRange.ShouldFilterTarget, FR.traced_of_absent_range _ habs]
  · rw [UGraspFilter_IsWithinGraspableData.ShouldFilterTarget, FD.traced_of_absent_data _ habs]
  · rw [UGraspFilter_CanActivateAbility.ShouldFilterTarget, FA.traced_of_absent_ability _ habs]

/-- The amended C3 applied to a candidate whose source actor is present but not valid:
the Range filter with threshold `Highlight` filters the scenario candidate out although
its entry is classified `Highlight`. -/
theorem absent_context_is_filtered_witness :
    ContextAbsent Scenario.InvalidActorHandle Scenario.TargetData ∧
      UGraspFilter_IsWithinGraspableRange.ShouldFilterTarget
        { Threshold := EGraspQueryResult.Highlight } UGraspStatics.CanInteractWithRange
        Scenario.InvalidActorHandle Scenario.TargetData = true :=
  have habs : ContextAbsent Scenario.InvalidActorHandle Scenario.TargetData :=
    Or.inr (Or.inl ⟨_, rfl, rfl⟩)
  ⟨habs, (@absent_context_is_filtered Unit { Threshold := EGraspQueryResult.Highlight }
    { } { Source := () } (fun _ _ _ => true) (fun _ _ _ => true)
    UGraspStatics.CanInteractWithRange UGraspStatics.CanInteractWithRange
    (fun _ _ _ _ => true) _ _ habs).2.2.1⟩

/-- A graspable target with zero entries: every filter answers true and calls no
per-entry query, whatever the handle holds. -/
theorem UGraspFilter_IsWithinGraspableAngle.traced_of_no_entries_angle
    (p : AActor → UPrimitiveComponent → Int → Bool)
    (H : FTargetingRequestHandle) {D : FTargetingDefaultResultData}
    {C : UPrimitiveComponent} {G : IGraspableComponent}
    (hC : D.HitResult.Component = some C) (hG : C.Graspable = some G)
    (hN : G.GetNumGraspData = 0) : ShouldFilterTargetTraced p H D = (true, []) := by
  rcases contextAbsent_or_present H D with habs | ⟨A, C', G', hctx⟩
  · exact traced_of_absent_angle p habs
  · have hC' : C' = C := Option.some.inj (hctx.2.2.1.symm.trans hC)
    subst hC'
    have hG' : G' = G := Option.some.inj (hctx.2.2.2.symm.trans hG)
    subst hG'
    rw [traced_of_present_angle p hctx, hN]
    rfl

theorem UGraspFilter_IsWithinGraspableHeight.traced_of_no_entries_height
    (p : AActor → UPrimitiveComponent → Int → Bool)
    (H : FTargetingRequestHandle) {D : FTargetingDefaultResultData}
    {C : UPrimitiveComponent} {G : IGraspableComponent}
    (hC : D.HitResult.Component = some C) (hG : C.Graspable = some G)
    (hN : G.GetNumGraspData = 0) : ShouldFilterTargetTraced p H D = (true, []) := by
  rcases contextAbsent_or_present H D with habs | ⟨A, C', G', hctx⟩
  · exact traced_of_absent_height p habs
  · have hC' : C' = C := Option.some.inj (hctx.2.2.1.symm.trans hC)
    subst hC'
    have hG' : G' = G := Option.some.inj (hctx.2.2.2.symm.trans hG)
    subst hG'
    rw [traced_of_present_height p hctx, hN]
    rfl

theorem UGraspFilter_CanActivateAbility.traced_of_no_entries_ability {σ : Type}
    (F : UGraspFilter_CanActivateAbility σ)
    (p : AActor → UPrimitiveComponent → σ → Int → Bool)
    (H : FTargetingRequestHandle) {D : FTargetingDefaultResultData}
    {C : UPrimitiveComponent} {G : IGraspableComponent}
    (hC : D.HitResult.Component = some C) (hG : C.Graspable = some G)
    (hN : G.GetNumGraspData = 0) : F.ShouldFilterTargetTraced p H D = (true, []) := by
  rcases contextAbsent_or_present H D with habs | ⟨A, C', G', hctx⟩
  · exact traced_of_absent_ability F p habs
  · have hC' : C' = C := Option.some.inj (hctx.2.2.1.symm.trans hC)
    subst hC'
    have hG' : G' = G := Option.some.inj (hctx.2.2.2.symm.trans hG)
    subst hG'
    rw [traced_of_present_ability F p hctx, hN]
    rfl

theorem UGraspFilter_IsWithinGraspableRange.traced_of_no_entries_range
    (F : UGraspFilter_IsWithinGraspableRange)
    (f : AActor → UPrimitiveComponent → Int → EGraspQueryResult)
    (H : FTargetingRequestHandle) {D : FTargetingDefaultResultData}
    {C : UPrimitiveComponent} {G : IGraspableComponent}
    (hC : D.HitResult.Component = some C) (hG : C.Graspable = some G)
    (hN : G.GetNumGraspData = 0) : F.ShouldFilterTargetTraced f H D = (true, []) := by
  rcases contextAbsent_or_present H D with habs | ⟨A, C', G', hctx⟩
  · exact traced_of_absent_range F f habs
  · have hC' : C' = C := Option.some.inj (hctx.2.2.1.symm.trans hC)
    subst hC'
    have hG' : G' = G := Option.some.inj (hctx.2.2.2.symm.trans hG)
    subst hG'
    rw [traced_of_present_range F f hctx, hN]
    rfl

theorem UGraspFilter_IsWithinGraspableData.traced_of_no_entries_data
    (F : UGraspFilter_IsWithinGraspableData)
    (f : AActor → UPrimitiveComponent → Int → EGraspQueryResult)
    (H : FTargetingRequestHandle) {D : FTargetingDefaultResultData}
    {C : UPrimitiveComponent} {G : IGraspableComponent}
    (hC : D.HitResult.Component = some C) (hG : C.Graspable = some G)
    (hN : G.GetNumGraspData = 0) : F.ShouldFilterTargetTraced f H D = (true, []) := by
  rcases contextAbsent_or_present H D with habs | ⟨A, C', G', hctx⟩
  · exact traced_of_absent_data F f habs
  · have hC' : C' = C := Option.some.inj (hctx.2.2.1.symm.trans hC)
    subst hC'
    have hG' : G' = G := Option.some.inj (hctx.2.2.2.symm.trans hG)
    subst hG'
    rw [traced_of_present_data F f hctx, hN]
    rfl

/-- C4: a graspable target exposing zero grasp-data entries (`GetNumGraspData() == 0`) is
filtered out (`ShouldFilterTarget` returns true) by every one of the Angle, Height, Range,
Data and CanActivateAbility filters, for every handle (hence every source actor), every
threshold and every per-entry query, and no per-entry query is called (the list of
evaluated indices is empty). -/
theorem zero_entries_is_filtered {σ : Type}
    (FR : UGraspFilter_IsWithinGraspableRange) (FD : UGraspFilter_IsWithinGraspableData)
    (FA : UGraspFilter_CanActivateAbility σ)
    (CanInteractWithAngle CanInteractWithHeight : AActor → UPrimitiveComponent → Int → Bool)
    (CanInteractWithRange CanInteractWith :
      AActor → UPrimitiveComponent → Int → EGraspQueryResult)
    (CanGraspActivateAbility : AActor → UPrimitiveComponent → σ → Int → Bool)
    (H : FTargetingRequestHandle) (D : FTargetingDefaultResultData)
    (C : UPrimitiveComponent) (G : IGraspableComponent)
    (hC : D.HitResult.Component = some C) (hG : C.Graspable = some G)
    (hN : G.GetNumGraspData = 0) :
    (UGraspFilter_IsWithinGraspableAngle.ShouldFilterTarget CanInteractWithAngle H D = true ∧
      (UGraspFilter_IsWithinGraspableAngle.ShouldFilterTargetTraced
        CanInteractWithAngle H D).2 = []) ∧
    (UGraspFilter_IsWithinGraspableHeight.ShouldFilterTarget CanInteractWithHeight H D = true ∧
      (UGraspFilter_IsWithinGraspableHeight.ShouldFilterTargetTraced
        CanInteractWithHeight H D).2 = []) ∧
    (FR.ShouldFilterTarget CanInteractWithRange H D = true ∧
      (FR.ShouldFilterTargetTraced CanInteractWithRange H D).2 = []) ∧
    (FD.ShouldFilterTarget CanInteractWith H D = true ∧
      (FD.ShouldFilterTargetTraced CanInteractWith H D).2 = []) ∧
    (FA.ShouldFilterTarget CanGraspActivateAbility H D = true ∧
      (FA.ShouldFilterTargetTraced CanGraspActivateAbility H D).2 = []) := by
  refine ⟨?_, ?_, ?_, ?_, ?_⟩
  · rw [UGraspFilter_IsWithinGraspableAngle.ShouldFilterTarget,
      UGraspFilter_IsWithinGraspableAngle.traced_of_no_entries_angle _ H hC hG hN]
    exact ⟨rfl, rfl⟩
  · rw [UGraspFilter_IsWithinGraspableHeight.ShouldFilterTarget,
      UGraspFilter_IsWithinGraspableHeight.traced_of_no_entries_height _ H hC hG hN]
    exact ⟨rfl, rfl⟩
  · rw [UGraspFilter_IsWithinGraspableRange.ShouldFilterTarget,
      FR.traced_of_no_entries_range _ H hC hG hN]
    exact ⟨rfl, rfl⟩
  · rw [UGraspFilter_IsWithinGraspableData.ShouldFilterTarget,
      FD.traced_of_no_entries_data _ H hC hG hN]
    exact ⟨rfl, rfl⟩
  · rw [UGraspFilter_CanActivateAbility.ShouldFilterTarget,
      FA.traced_of_no_entries_ability _ H hC hG hN]
    exact ⟨rfl, rfl⟩

/-- The statement of C4 applied, with a valid source actor, to a box component with an
empty entry array and to a graspable that keeps the interface's default
`GetNumGraspData`: both report 0 entries, the Angle filter and the Data filter with
threshold `Highlight` filter them out although the per-entry query would accept every
index, and no index is evaluated. -/
theorem zero_entries_is_filtered_witness :
    (UGraspableBoxComponent.toGraspable { GraspDataEntries := [] }).GetNumGraspData = 0 ∧
      Scenario.DefaultGraspable.GetNumGraspData = 0 ∧
      (UGraspFilter_IsWithinGraspableAngle.ShouldFilterTarget (fun _ _ _ => true)
          Scenario.Handle Scenario.EmptyTargetData = true ∧
        (UGraspFilter_IsWithinGraspableAngle.ShouldFilterTargetTraced (fun _ _ _ => true)
          Scenario.Handle Scenario.EmptyTargetData).2 = []) ∧
      (UGraspFilter_IsWithinGraspableData.ShouldFilterTarget
          { Threshold := EGraspQueryResult.Highlight }
          (fun _ _ _ => EGraspQueryResult.Interact)
          Scenario.Handle Scenario.DefaultTargetData = true ∧
        (UGraspFilter_IsWithinGraspableData.ShouldFilterTargetTraced
          { Threshold := EGraspQueryResult.Highlight }
          (fun _ _ _ => EGraspQueryResult.Interact)
          Scenario.Handle Scenario.DefaultTargetData).2 = []) :=
  ⟨rfl, rfl,
    (@zero_entries_is_filtered Unit { Threshold := EGraspQueryResult.Highlight }
      { Threshold := EGraspQueryResult.Highlight } { Source := () }
      (fun _ _ _ => true) (fun _ _ _ => true) (fun _ _ _ => EGraspQueryResult.Interact)
      (fun _ _ _ => EGraspQueryResult.Interact) (fun _ _ _ _ => true)
      Scenario.Handle Scenario.EmptyTargetData Scenario.EmptyComponent
      (UGraspableBoxComponent.toGraspable { GraspDataEntries := [] }) rfl rfl rfl).1,
    (@zero_entries_is_filtered Unit { Threshold := EGraspQueryResult.Highlight }
      { Threshold := EGraspQueryResult.Highlight } { Source := () }
      (fun _ _ _ => true) (fun _ _ _ => true) (fun _ _ _ => EGraspQueryResult.Interact)
      (fun _ _ _ => EGraspQueryResult.Interact) (fun _ _ _ _ => true)
      Scenario.Handle Scenario.DefaultTargetData Scenario.DefaultComponent
      Scenario.DefaultGraspable rfl rfl rfl).2.2.2.1⟩

theorem Scenario.near_contextPresent :
    ContextPresent Scenario.Handle Scenario.NearTargetData Scenario.SourceActor
      Scenario.NearComponent Scenario.Graspable :=
  ⟨⟨_, rfl, rfl⟩, rfl, rfl, rfl⟩

theorem Scenario.near_entry_is_interact :
    UGraspStatics.CanInteractWithRange Scenario.SourceActor Scenario.NearComponent 0 =
      EGraspQueryResult.Interact := by
  simp [UGraspStatics.CanInteractWithRange, Scenario.NearComponent, Scenario.Graspable,
    UGraspableBoxComponent.toGraspable, UGraspableBoxComponent.GetGraspData, Scenario.Entry,
    Scenario.SourceActor, FVector.DistSquared]
  norm_num

/-- C5: for every candidate none of whose entries is classified `Interact` and at least
one of whose entries is classified `Highlight`, the Range filter and the combined Data
filter with `Threshold = Interact` filter the candidate out, and the same filters with
`Threshold = Highlight` keep it. -/
theorem highlight_only_candidate_splits_thresholds
    (Classify : AActor → UPrimitiveComponent → Int → EGraspQueryResult)
    (H : FTargetingRequestHandle) (D : FTargetingDefaultResultData) (A : AActor)
    (C : UPrimitiveComponent) (G : IGraspableComponent)
    (hctx : ContextPresent H D A C G)
    (hNoInteract : ∀ i, 0 ≤ i → i < G.GetNumGraspData →
      Classify A C i ≠ EGraspQueryResult.Interact)
    (hHighlight : ∃ i, 0 ≤ i ∧ i < G.GetNumGraspData ∧
      Classify A C i = EGraspQueryResult.Highlight) :
    UGraspFilter_IsWithinGraspableRange.ShouldFilterTarget
        { Threshold := EGraspQueryResult.Interact } Classify H D = true ∧
      UGraspFilter_IsWithinGraspableRange.ShouldFilterTarget
        { Threshold := EGraspQueryResult.Highlight } Classify H D = false ∧
      UGraspFilter_IsWithinGraspableData.ShouldFilterTarget
        { Threshold := EGraspQueryResult.Interact } Classify H D = true ∧
      UGraspFilter_IsWithinGraspableData.ShouldFilterTarget
        { Threshold := EGraspQueryResult.Highlight } Classify H D = false := by
  obtain ⟨k, hk0, hkN, hkH⟩ := hHighlight
  refine ⟨?_, ?_, ?_, ?_⟩
  · apply Bool.eq_true_of_not_eq_false
    intro hkeep
    obtain ⟨i, h0, hN, hi | ⟨-, hT⟩⟩ :=
      (UGraspFilter_IsWithinGraspableRange.keeps_iff_range _ Classify hctx).mp hkeep
    · exact hNoInteract i h0 hN hi
    · cases hT
  · exact (UGraspFilter_IsWithinGraspableRange.keeps_iff_range _ Classify hctx).mpr
      ⟨k, hk0, hkN, Or.inr ⟨hkH, rfl⟩⟩
  · apply Bool.eq_true_of_not_eq_false
    intro hkeep
    obtain ⟨i, h0, hN, hi | ⟨-, hT⟩⟩ :=
      (UGraspFilter_IsWithinGraspableData.keeps_iff_data _ Classify hctx).mp hkeep
    · exact hNoInteract i h0 hN hi
    · cases hT
  · exact (UGraspFilter_IsWithinGraspableData.keeps_iff_data _ Classify hctx).mpr
      ⟨k, hk0, hkN, Or.inr ⟨hkH, rfl⟩⟩

/-- The scenario of C5: source at the origin, candidate 300 units along `+X`, a single
entry with maximum grasp distance 250 and maximum highlight distance 400 (the range test
does not read the facing of the source).  The entry is classified `Highlight`; with
threshold `Interact` the Range and Data filters filter the candidate out and with
threshold `Highlight` they keep it.  The Data filter is run with the same classification
of the entry. -/
theorem highlight_only_candidate_splits_thresholds_witness :
    UGraspStatics.CanInteractWithRange Scenario.SourceActor Scenario.TargetComponent 0 =
        EGraspQueryResult.Highlight ∧
      UGraspFilter_IsWithinGraspableRange.ShouldFilterTarget
        { Threshold := EGraspQueryResult.Interact } UGraspStatics.CanInteractWithRange
        Scenario.Handle Scenario.TargetData = true ∧
      UGraspFilter_IsWithinGraspableRange.ShouldFilterTarget
        { Threshold := EGraspQueryResult.Highlight } UGraspStatics.CanInteractWithRange
        Scenario.Handle Scenario.TargetData = false ∧
      UGraspFilter_IsWithinGraspableData.ShouldFilterTarget
        { Threshold := EGraspQueryResult.Interact } UGraspStatics.CanInteractWithRange
        Scenario.Handle Scenario.TargetData = true ∧
      UGraspFilter_IsWithinGraspableData.ShouldFilterTarget
        { Threshold := EGraspQueryResult.Highlight } UGraspStatics.CanInteractWithRange
        Scenario.Handle Scenario.TargetData = false :=
  ⟨Scenario.entry_is_highlight,
    highlight_only_candidate_splits_thresholds UGraspStatics.CanInteractWithRange
      Scenario.Handle Scenario.TargetData Scenario.SourceActor Scenario.TargetComponent
      Scenario.Graspable Scenario.contextPresent
      (fun i h0 hN => by
        have hi : i = 0 := by
          have hN1 : i < 1 := hN
          omega
        rw [hi, Scenario.entry_is_highlight]
        decide)
      ⟨0, le_refl 0, by decide, Scenario.entry_is_highlight⟩⟩

/-- C6: `Interact` is contained in `Highlight` at the filter level.  For every handle,
candidate and per-entry classification: if the Range filter with `Threshold = Interact`
keeps a candidate then the Range filter with `Threshold = Highlight` keeps it, likewise
for the combined Data filter; and with context present, an entry classified `Interact`
makes both filters with `Threshold = Highlight` keep the candidate. -/
theorem interact_keep_implies_highlight_keep
    (Classify : AActor → UPrimitiveComponent → Int → EGraspQueryResult)
    (H : FTargetingRequestHandle) (D : FTargetingDefaultResultData) :
    (UGraspFilter_IsWithinGraspableRange.ShouldFilterTarget
        { Threshold := EGraspQueryResult.Interact } Classify H D = false →
      UGraspFilter_IsWithinGraspableRange.ShouldFilterTarget
        { Threshold := EGraspQueryResult.Highlight } Classify H D = false) ∧
    (UGraspFilter_IsWithinGraspableData.ShouldFilterTarget
        { Threshold := EGraspQueryResult.Interact } Classify H D = false →
      UGraspFilter_IsWithinGraspableData.ShouldFilterTarget
        { Threshold := EGraspQueryResult.Highlight } Classify H D = false) ∧
    (∀ A C G i, ContextPresent H D A C G → 0 ≤ i → i < G.GetNumGraspData →
      Classify A C i = EGraspQueryResult.Interact →
      UGraspFilter_IsWithinGraspableRange.ShouldFilterTarget
          { Threshold := EGraspQueryResult.Highlight } Classify H D = false ∧
        UGraspFilter_IsWithinGraspableData.ShouldFilterTarget
          { Threshold := EGraspQueryResult.Highlight } Classify H D = false) := by
  refine ⟨?_, ?_, ?_⟩
  · intro hkeep
    rcases contextAbsent_or_present H D with habs | ⟨A, C, G, hctx⟩
    · rw [UGraspFilter_IsWithinGraspableRange.ShouldFilterTarget,
        UGraspFilter_IsWithinGraspableRange.traced_of_absent_range _ Classify habs] at hkeep
      cases hkeep
    · obtain ⟨i, h0, hN, hi | ⟨-, hT⟩⟩ :=
        (UGraspFilter_IsWithinGraspableRange.keeps_iff_range _ Classify hctx).mp hkeep
      · exact (UGraspFilter_IsWithinGraspableRange.keeps_iff_range _ Classify hctx).mpr
          ⟨i, h0, hN, Or.inl hi⟩
      · cases hT
  · intro hkeep
    rcases contextAbsent_or_present H D with habs | ⟨A, C, G, hctx⟩
    · rw [UGraspFilter_IsWithinGraspableData.ShouldFilterTarget,
        UGraspFilter_IsWithinGraspableData.traced_of_absent_data _ Classify habs] at hkeep
      cases hkeep
    · obtain ⟨i, h0, hN, hi | ⟨-, hT⟩⟩ :=
        (UGraspFilter_IsWithinGraspableData.keeps_iff_data _ Classify hctx).mp hkeep
      · exact (UGraspFilter_IsWithinGraspableData.keeps_iff_data _ Classify hctx).mpr
          ⟨i, h0, hN, Or.inl hi⟩
      · cases hT
  · intro A C G i hctx h0 hN hi
    exact ⟨(UGraspFilter_IsWithinGraspableRange.keeps_iff_range _ Classify hctx).mpr
        ⟨i, h0, hN, Or.inl hi⟩,
      (UGraspFilter_IsWithinGraspableData.keeps_iff_data _ Classify hctx).mpr
        ⟨i, h0, hN, Or.inl hi⟩⟩

/-- The statement of C6 applied to a candidate 200 units from the source whose entry is
classified `Interact`: the filters with threshold `Interact` keep it, and so do the
filters with threshold `Highlight`. -/
theorem interact_keep_implies_highlight_keep_witness :
    (UGraspFilter_IsWithinGraspableRange.ShouldFilterTarget
        { Threshold := EGraspQueryResult.Interact } UGraspStatics.CanInteractWithRange
        Scenario.Handle Scenario.NearTargetData = false ∧
      UGraspFilter_IsWithinGraspableData.ShouldFilterTarget
        { Threshold := EGraspQueryResult.Interact } UGraspStatics.CanInteractWithRange
        Scenario.Handle Scenario.NearTargetData = false) ∧
    (UGraspFilter_IsWithinGraspableRange.ShouldFilterTarget
        { Threshold := EGraspQueryResult.Highlight } UGraspStatics.CanInteractWithRange
        Scenario.Handle Scenario.NearTargetData = false ∧
      UGraspFilter_IsWithinGraspableData.ShouldFilterTarget
        { Threshold := EGraspQueryResult.Highlight } UGraspStatics.CanInteractWithRange
        Scenario.Handle Scenario.NearTargetData = false) :=
  have hR := (UGraspFilter_IsWithinGraspableRange.keeps_iff_range
    { Threshold := EGraspQueryResult.Interact } UGraspStatics.CanInteractWithRange
    Scenario.near_contextPresent).mpr
    ⟨0, le_refl 0, by decide, Or.inl Scenario.near_entry_is_interact⟩
  have hD := (UGraspFilter_IsWithinGraspableData.keeps_iff_data
    { Threshold := EGraspQueryResult.Interact } UGraspStatics.CanInteractWithRange
    Scenario.near_contextPresent).mpr
    ⟨0, le_refl 0, by decide, Or.inl Scenario.near_entry_is_interact⟩
  have h := interact_keep_implies_highlight_keep UGraspStatics.CanInteractWithRange
    Scenario.Handle Scenario.NearTargetData
  ⟨⟨hR, hD⟩, h.1 hR, h.2.1 hD⟩

/-! ## Machine floating point -/

/-- With fuel not less than `N`, `FFloat.Log2` is the position of the leading binary digit
of a positive `N`. -/
theorem FFloat.Log2_bounds : ∀ (Fuel N : Nat), 1 ≤ N → N ≤ Fuel →
    2 ^ FFloat.Log2 Fuel N ≤ N ∧ N < 2 ^ (FFloat.Log2 Fuel N + 1) := by
  intro Fuel
  induction Fuel with
  | zero =>
    intro N h1 h2
    omega
  | succ Fuel ih =>
    intro N h1 h2
    unfold FFloat.Log2
    by_cases hN : N < 2
    · rw [if_pos hN]
      constructor
      · simpa using h1
      · simpa using hN
    · rw [if_neg hN]
      have hhalf1 : 1 ≤ N / 2 := by omega
      have hhalf2 : N / 2 ≤ Fuel := by omega
      obtain ⟨hlo, hhi⟩ := ih (N / 2) hhalf1 hhalf2
      constructor
      · rw [pow_succ]
        omega
      · rw [pow_succ]
        omega

/-- Rounding to `float` and to `double` at some numbers: a number the format holds stays;
a tie goes to the even neighbour; the largest finite `float` is `2^128 - 2^104` and the
numbers from `2^128 - 2^103` on round to infinity; below the normal range the spacing is
`2^-149`; 1/10 rounds to the known `float` and `double` nearest to it. -/
theorem Scenario.rounding_examples :
    FFloatFormat.Single.Round 250000 = FFloat.Finite 250000 ∧
    FFloatFormat.Single.Round (2 ^ 24 + 1) = FFloat.Finite (2 ^ 24) ∧
    FFloatFormat.Single.Round (2 ^ 24 + 3) = FFloat.Finite (2 ^ 24 + 4) ∧
    FFloatFormat.Single.Round (2 ^ 128 - 2 ^ 103 - 1) = FFloat.Finite (2 ^ 128 - 2 ^ 104) ∧
    FFloatFormat.Single.Round (2 ^ 128 - 2 ^ 103) = FFloat.Infinity false ∧
    FFloatFormat.Single.Round (-(2 ^ 128)) = FFloat.Infinity true ∧
    FFloatFormat.Single.Round (3 / 2 ^ 150) = FFloat.Finite (1 / 2 ^ 148) ∧
    FFloatFormat.Single.Round (1 / 2 ^ 150) = FFloat.Finite 0 ∧
    FFloatFormat.Single.Round (1 / 10) = FFloat.Finite (13421773 / 2 ^ 27) ∧
    FFloatFormat.Double.Round (1 / 10) = FFloat.Finite (3602879701896397 / 2 ^ 55) ∧
    FFloatFormat.Double.Round (2 ^ 53 + 1) = FFloat.Finite (2 ^ 53) ∧
    FFloatFormat.Double.Round (-(1 / 3)) =
      FFloat.Finite (-(6004799503160661 / 2 ^ 54)) := by
  refine ⟨by decide!, by decide!, by decide!, by decide!, by decide!, by decide!,
    by decide!, by decide!, by decide!, by decide!, by decide!, by decide!⟩

/-! ## Movement alpha -/

theorem FMath.Clamp_zero_one_bounds (X : ℚ) : 0 ≤ FMath.Clamp X 0 1 ∧ FMath.Clamp X 0 1 ≤ 1 := by
  unfold FMath.Clamp
  exact ⟨le_max_right _ _, max_le (min_le_right _ _) zero_le_one⟩

theorem FMath.Clamp_zero_one_eq_spec (X : ℚ) : FMath.Clamp X 0 1 = SpecClamp01 X := by
  unfold FMath.Clamp SpecClamp01
  by_cases h0 : X < 0
  · rw [if_pos h0]
    exact max_eq_right ((min_le_left _ _).trans h0.le)
  · rw [if_neg h0]
    by_cases h1 : 1 < X
    · rw [if_pos h1, min_eq_right h1.le]
      exact max_eq_left zero_le_one
    · rw [if_neg h1, min_eq_left (not_lt.mp h1)]
      exact max_eq_left (not_lt.mp h0)

/-- The clamp of a float between 0 and 1 lies between 0 and 1, whatever the float. -/
theorem FMath.ClampFloat_zero_one_bounds (X : FFloat) :
    0 ≤ FMath.ClampFloat X 0 1 ∧ FMath.ClampFloat X 0 1 ≤ 1 := by
  unfold FMath.ClampFloat
  split
  · exact FMath.Clamp_zero_one_bounds _
  · exact FMath.Clamp_zero_one_bounds _
  · exact ⟨le_refl 0, zero_le_one⟩
  · exact FMath.Clamp_zero_one_bounds _

/-- The clamp of a quotient by a divisor that is not zero is the clamp of the exact
quotient. -/
theorem FMath.ClampFloat_Quotient_of_ne_zero (X Y MinValue MaxValue : ℚ) (hY : Y ≠ 0) :
    FMath.ClampFloat (FFloat.Quotient X Y) MinValue MaxValue =
      FMath.Clamp (X / Y) MinValue MaxValue := by
  unfold FFloat.Quotient
  rw [if_neg hY]
  rfl

/-- The clamp of a float is `Max(Min(X, MaxValue), MinValue)` evaluated with the
floating-point comparisons. -/
theorem FMath.ClampFloat_eq_Max_Min (X : FFloat) (MinValue MaxValue : ℚ) :
    FFloat.Finite (FMath.ClampFloat X MinValue MaxValue) =
      FMath.MaxFloat (FMath.MinFloat X (FFloat.Finite MaxValue)) (FFloat.Finite MinValue) := by
  cases X with
  | Finite Value =>
    simp only [FMath.ClampFloat, FMath.Clamp, FMath.MinFloat, FMath.MaxFloat, FFloat.Lt]
    by_cases h1 : Value < MaxValue
    · simp only [h1, decide_True, if_true, FFloat.Lt, min_eq_left h1.le]
      by_cases h2 : MinValue < Value
      · simp [h2, max_eq_left h2.le]
      · simp [h2, max_eq_right (not_lt.mp h2)]
    · simp only [h1, decide_False, Bool.false_eq_true, if_false, FFloat.Lt,
        min_eq_right (not_lt.mp h1)]
      by_cases h2 : MinValue < MaxValue
      · simp [h2, max_eq_left h2.le]
      · simp [h2, max_eq_right (not_lt.mp h2)]
  | Infinity bNegative =>
    cases bNegative
    · simp only [FMath.ClampFloat, FMath.Clamp, FMath.MinFloat, FMath.MaxFloat, FFloat.Lt,
        min_self]
      by_cases h2 : MinValue < MaxValue
      · simp [h2, max_eq_left h2.le]
      · simp [h2, max_eq_right (not_lt.mp h2)]
    · simp [FMath.ClampFloat, FMath.MinFloat, FMath.MaxFloat, FFloat.Lt]
  | NaN =>
    simp only [FMath.ClampFloat, FMath.Clamp, FMath.MinFloat, FMath.MaxFloat, FFloat.Lt,
      min_self]
    by_cases h2 : MinValue < MaxValue
    · simp [h2, max_eq_left h2.le]
    · simp [h2, max_eq_right (not_lt.mp h2)]

theorem Scenario.getPawn_characterHandle (M : UCharacterMovementComponent) :
    UGraspTargetSelection.GetPawnFromTargetingHandle (Scenario.CharacterHandle M) =
      some (Scenario.CharacterPawn M) := rfl

/-- The movement alpha on a resolved character, by mode. -/
theorem UGraspTargetSelection.GetPawnMovementAlpha_resolved (Sel : UGraspTargetSelection)
    {H : FTargetingRequestHandle} {Pawn : APawn} {Character : ACharacter}
    {M : UCharacterMovementComponent}
    (hP : GetPawnFromTargetingHandle H = some Pawn)
    (hC : Pawn.Character = some Character)
    (hM : Character.CharacterMovement = some M) :
    Sel.GetPawnMovementAlpha H =
      match Sel.MovementSelectionMode with
      | EGraspMovementSelectionMode.Disabled => 0
      | EGraspMovementSelectionMode.Velocity =>
        FMath.ClampFloat (FFloat.Quotient
          (if M.bIsMovingOnGround then M.VelocitySize else M.VelocitySize2D) M.MaxSpeed) 0 1
      | EGraspMovementSelectionMode.Acceleration =>
        FMath.ClampFloat (FFloat.Quotient M.CurrentAccelerationSize2D M.MaxAcceleration) 0 1
      | EGraspMovementSelectionMode.VelocityAndAcceleration =>
        FMath.Clamp ((1 / 2) *
          ((FMath.ClampFloat
                (FFloat.Quotient M.CurrentAccelerationSize2D M.MaxAcceleration) 0 1 *
              Sel.MovementSelectionAccelBias) +
            (FMath.ClampFloat (FFloat.Quotient (if M.bIsMovingOnGround then M.VelocitySize
                else M.VelocitySize2D) M.MaxSpeed) 0 1 *
              (1 - Sel.MovementSelectionAccelBias)))) 0 1 := by
  unfold GetPawnMovementAlpha
  rw [hP]
  simp only [hC, hM]
  cases hmode : Sel.MovementSelectionMode <;> simp

/-- C7: `GetPawnMovementAlpha` returns a value in the closed interval `[0, 1]` for every
movement-selection mode, every value of `MovementSelectionAccelBias`, every handle and
every kinematic state (exact rationals); in particular for all non-negative speed and
acceleration magnitudes and positive maximum speed and maximum acceleration. -/
theorem movement_alpha_in_unit_interval (Sel : UGraspTargetSelection)
    (H : FTargetingRequestHandle) :
    0 ≤ Sel.GetPawnMovementAlpha H ∧ Sel.GetPawnMovementAlpha H ≤ 1 := by
  rcases hP : UGraspTargetSelection.GetPawnFromTargetingHandle H with _ | Pawn
  · unfold UGraspTargetSelection.GetPawnMovementAlpha
    rw [hP]
    split <;> exact ⟨le_refl 0, zero_le_one⟩
  · rcases hC : Pawn.Character with _ | Character
    · unfold UGraspTargetSelection.GetPawnMovementAlpha
      rw [hP]
      simp only [hC]
      split <;> exact ⟨le_refl 0, zero_le_one⟩
    · rcases hM : Character.CharacterMovement with _ | M
      · unfold UGraspTargetSelection.GetPawnMovementAlpha
        rw [hP]
        simp only [hC, hM]
        split <;> exact ⟨le_refl 0, zero_le_one⟩
      · rw [Sel.GetPawnMovementAlpha_resolved hP hC hM]
        cases Sel.MovementSelectionMode
        · exact ⟨le_refl 0, zero_le_one⟩
        · exact FMath.ClampFloat_zero_one_bounds _
        · exact FMath.ClampFloat_zero_one_bounds _
        · exact FMath.Clamp_zero_one_bounds _

/-- C8: when `MovementSelectionMode` is `Disabled`, `GetPawnMovementAlpha` returns
exactly 0 for every handle, whatever source actor and kinematic state it holds. -/
theorem movement_alpha_disabled_is_zero (Sel : UGraspTargetSelection)
    (H : FTargetingRequestHandle)
    (hmode : Sel.MovementSelectionMode = EGraspMovementSelectionMode.Disabled) :
    Sel.GetPawnMovementAlpha H = 0 := by
  unfold UGraspTargetSelection.GetPawnMovementAlpha
  rw [if_pos hmode]

/-- The statement of C8 applied to a character moving at maximum speed and
acceleration. -/
theorem movement_alpha_disabled_is_zero_witness :
    UGraspTargetSelection.GetPawnMovementAlpha
      { MovementSelectionMode := EGraspMovementSelectionMode.Disabled }
      (Scenario.CharacterHandle Scenario.SaturatedMovement) = 0 :=
  movement_alpha_disabled_is_zero _ _ rfl

/-- C10 fails on the code: in `VelocityAndAcceleration` mode the weighted sum is halved
before the final clamp.  With bias 1 and the acceleration ratio saturated (`A = 1`,
`V = 0`) the alpha is 1/2, not `A = 1`; with bias 0 and the velocity ratio saturated
(`V = 1`) the alpha is 1/2, not `V = 1`; with bias 1/2 and both ratios saturated the
alpha is 1/2, not the average `(A + V) / 2 = 1`. -/
theorem movement_alpha_combined_mode_is_halved :
    (UGraspTargetSelection.GetPawnMovementAlpha
        { MovementSelectionMode := EGraspMovementSelectionMode.VelocityAndAcceleration,
          MovementSelectionAccelBias := 1 }
        (Scenario.CharacterHandle Scenario.FullAccelMovement) = 1 / 2 ∧
      SpecClamp01 (Scenario.FullAccelMovement.CurrentAccelerationSize2D /
        Scenario.FullAccelMovement.MaxAcceleration) = 1) ∧
    (UGraspTargetSelection.GetPawnMovementAlpha
        { MovementSelectionMode := EGraspMovementSelectionMode.VelocityAndAcceleration,
          MovementSelectionAccelBias := 0 }
        (Scenario.CharacterHandle Scenario.SaturatedMovement) = 1 / 2 ∧
      SpecClamp01 (Scenario.SaturatedMovement.VelocitySize /
        Scenario.SaturatedMovement.MaxSpeed) = 1) ∧
    (UGraspTargetSelection.GetPawnMovementAlpha
        { MovementSelectionMode := EGraspMovementSelectionMode.VelocityAndAcceleration,
          MovementSelectionAccelBias := 1 / 2 }
        (Scenario.CharacterHandle Scenario.SaturatedMovement) = 1 / 2 ∧
      (SpecClamp01 (Scenario.SaturatedMovement.CurrentAccelerationSize2D /
          Scenario.SaturatedMovement.MaxAcceleration) +
        SpecClamp01 (Scenario.SaturatedMovement.VelocitySize /
          Scenario.SaturatedMovement.MaxSpeed)) / 2 = 1) := by
  refine ⟨⟨?_, ?_⟩, ⟨?_, ?_⟩, ⟨?_, ?_⟩⟩
  · rw [UGraspTargetSelection.GetPawnMovementAlpha_resolved _
      (Scenario.getPawn_characterHandle _) rfl rfl]
    norm_num [FMath.ClampFloat, FFloat.Quotient, FMath.Clamp, Scenario.FullAccelMovement]
  · norm_num [SpecClamp01, Scenario.FullAccelMovement]
  · rw [UGraspTargetSelection.GetPawnMovementAlpha_resolved _
      (Scenario.getPawn_characterHandle _) rfl rfl]
    norm_num [FMath.ClampFloat, FFloat.Quotient, FMath.Clamp, Scenario.SaturatedMovement]
  · norm_num [SpecClamp01, Scenario.SaturatedMovement]
  · rw [UGraspTargetSelection.GetPawnMovementAlpha_resolved _
      (Scenario.getPawn_characterHandle _) rfl rfl]
    norm_num [FMath.ClampFloat, FFloat.Quotient, FMath.Clamp, Scenario.SaturatedMovement]
  · norm_num [SpecClamp01, Scenario.SaturatedMovement]

theorem FMath.Clamp_zero_one_mono {x y : ℚ} (h : x ≤ y) :
    FMath.Clamp x 0 1 ≤ FMath.Clamp y 0 1 := by
  unfold FMath.Clamp
  exact max_le_max (min_le_min h (le_refl 1)) (le_refl 0)

/-- The movement alpha of the combined mode on a resolved character, in terms of the
locals `AccelBias` and `VelBias`. -/
theorem UGraspTargetSelection.GetPawnMovementAlpha_combined (Sel : UGraspTargetSelection)
    {H : FTargetingRequestHandle} {Pawn : APawn} {Character : ACharacter}
    {M : UCharacterMovementComponent}
    (hP : GetPawnFromTargetingHandle H = some Pawn)
    (hC : Pawn.Character = some Character)
    (hM : Character.CharacterMovement = some M)
    (hmode : Sel.MovementSelectionMode = EGraspMovementSelectionMode.VelocityAndAcceleration) :
    Sel.GetPawnMovementAlpha H =
      FMath.Clamp ((1 / 2) *
        ((AccelBiasOf M * Sel.MovementSelectionAccelBias) +
          (VelBiasOf M * (1 - Sel.MovementSelectionAccelBias)))) 0 1 := by
  rw [Sel.GetPawnMovementAlpha_resolved hP hC hM, hmode]
  rfl

/-- With a maximum speed that is not zero, `VelBias` is the clamp of the velocity
ratio. -/
theorem VelBiasOf_of_ne_zero (M : UCharacterMovementComponent) (hS : M.MaxSpeed ≠ 0) :
    VelBiasOf M = FMath.Clamp (VelocityRatioOf M) 0 1 :=
  FMath.ClampFloat_Quotient_of_ne_zero _ _ _ _ hS

/-- With a maximum acceleration that is not zero, `AccelBias` is the clamp of the
acceleration ratio. -/
theorem AccelBiasOf_of_ne_zero (M : UCharacterMovementComponent)
    (hA : M.MaxAcceleration ≠ 0) :
    AccelBiasOf M = FMath.Clamp (AccelRatioOf M) 0 1 :=
  FMath.ClampFloat_Quotient_of_ne_zero _ _ _ _ hA

/-- C11: in `VelocityAndAcceleration` mode with bias `b` in `[0, 1]` and positive maximum
speed and maximum acceleration, `GetPawnMovementAlpha` is monotonic non-decreasing in
the velocity ratio with the acceleration ratio held fixed, and monotonic non-decreasing
in the acceleration ratio with the velocity ratio held fixed (the ratios are speed over
maximum speed and planar acceleration over maximum acceleration). -/
theorem movement_alpha_combined_mode_monotone (Sel : UGraspTargetSelection)
    (H1 H2 : FTargetingRequestHandle) (P1 P2 : APawn) (C1 C2 : ACharacter)
    (M1 M2 : UCharacterMovementComponent)
    (hP1 : UGraspTargetSelection.GetPawnFromTargetingHandle H1 = some P1)
    (hC1 : P1.Character = some C1) (hM1 : C1.CharacterMovement = some M1)
    (hP2 : UGraspTargetSelection.GetPawnFromTargetingHandle H2 = some P2)
    (hC2 : P2.Character = some C2) (hM2 : C2.CharacterMovement = some M2)
    (hmode : Sel.MovementSelectionMode = EGraspMovementSelectionMode.VelocityAndAcceleration)
    (hb0 : 0 ≤ Sel.MovementSelectionAccelBias) (hb1 : Sel.MovementSelectionAccelBias ≤ 1)
    (hS1 : 0 < M1.MaxSpeed) (hA1 : 0 < M1.MaxAcceleration)
    (hS2 : 0 < M2.MaxSpeed) (hA2 : 0 < M2.MaxAcceleration) :
    (AccelRatioOf M1 = AccelRatioOf M2 → VelocityRatioOf M1 ≤ VelocityRatioOf M2 →
      Sel.GetPawnMovementAlpha H1 ≤ Sel.GetPawnMovementAlpha H2) ∧
    (VelocityRatioOf M1 = VelocityRatioOf M2 → AccelRatioOf M1 ≤ AccelRatioOf M2 →
      Sel.GetPawnMovementAlpha H1 ≤ Sel.GetPawnMovementAlpha H2) := by
  rw [Sel.GetPawnMovementAlpha_combined hP1 hC1 hM1 hmode,
    Sel.GetPawnMovementAlpha_combined hP2 hC2 hM2 hmode,
    VelBiasOf_of_ne_zero M1 hS1.ne', VelBiasOf_of_ne_zero M2 hS2.ne',
    AccelBiasOf_of_ne_zero M1 hA1.ne', AccelBiasOf_of_ne_zero M2 hA2.ne']
  have hvb : 0 ≤ 1 - Sel.MovementSelectionAccelBias := by linarith
  constructor
  · intro hA hV
    apply FMath.Clamp_zero_one_mono
    rw [hA]
    have hmono := mul_le_mul_of_nonneg_right (FMath.Clamp_zero_one_mono hV) hvb
    linarith
  · intro hV hA
    apply FMath.Clamp_zero_one_mono
    rw [hV]
    have hmono := mul_le_mul_of_nonneg_right (FMath.Clamp_zero_one_mono hA) hb0
    linarith

/-- The statement of C11 applied with bias 1/5 and maxima 600 and 2048: raising the speed
from 300 to 450 at equal acceleration does not lower the alpha, and neither does raising
the acceleration from 512 to 1024 at equal speed. -/
theorem movement_alpha_combined_mode_monotone_witness :
    UGraspTargetSelection.GetPawnMovementAlpha
        { MovementSelectionMode := EGraspMovementSelectionMode.VelocityAndAcceleration }
        (Scenario.CharacterHandle Scenario.Movement) ≤
      UGraspTargetSelection.GetPawnMovementAlpha
        { MovementSelectionMode := EGraspMovementSelectionMode.VelocityAndAcceleration }
        (Scenario.CharacterHandle Scenario.FasterMovement) ∧
    UGraspTargetSelection.GetPawnMovementAlpha
        { MovementSelectionMode := EGraspMovementSelectionMode.VelocityAndAcceleration }
        (Scenario.CharacterHandle Scenario.Movement) ≤
      UGraspTargetSelection.GetPawnMovementAlpha
        { MovementSelectionMode := EGraspMovementSelectionMode.VelocityAndAcceleration }
        (Scenario.CharacterHandle Scenario.HarderAccelMovement) :=
  ⟨(movement_alpha_combined_mode_monotone
      { MovementSelectionMode := EGraspMovementSelectionMode.VelocityAndAcceleration }
      (Scenario.CharacterHandle Scenario.Movement)
      (Scenario.CharacterHandle Scenario.FasterMovement) _ _ _ _
      Scenario.Movement Scenario.FasterMovement
      (Scenario.getPawn_characterHandle _) rfl rfl
      (Scenario.getPawn_characterHandle _) rfl rfl rfl
      (by norm_num) (by norm_num)
      (by norm_num [Scenario.Movement]) (by norm_num [Scenario.Movement])
      (by norm_num [Scenario.FasterMovement]) (by norm_num [Scenario.FasterMovement])).1
      (by norm_num [AccelRatioOf, Scenario.Movement, Scenario.FasterMovement])
      (by norm_num [VelocityRatioOf, SelectedSpeed, Scenario.Movement,
        Scenario.FasterMovement]),
    (movement_alpha_combined_mode_monotone
      { MovementSelectionMode := EGraspMovementSelectionMode.VelocityAndAcceleration }
      (Scenario.CharacterHandle Scenario.Movement)
      (Scenario.CharacterHandle Scenario.HarderAccelMovement) _ _ _ _
      Scenario.Movement Scenario.HarderAccelMovement
      (Scenario.getPawn_characterHandle _) rfl rfl
      (Scenario.getPawn_characterHandle _) rfl rfl rfl
      (by norm_num) (by norm_num)
      (by norm_num [Scenario.Movement]) (by norm_num [Scenario.Movement])
      (by norm_num [Scenario.HarderAccelMovement])
      (by norm_num [Scenario.HarderAccelMovement])).2
      (by norm_num [VelocityRatioOf, SelectedSpeed, Scenario.Movement,
        Scenario.HarderAccelMovement])
      (by norm_num [AccelRatioOf, Scenario.Movement, Scenario.HarderAccelMovement])⟩

/-! ## Shape selection -/

theorem FMath.Lerp_eq_spec (A B Alpha : ℚ) : FMath.Lerp A B Alpha = SpecLerp A B Alpha := by
  unfold FMath.Lerp SpecLerp
  ring

theorem FMath.LerpVector_eq_spec (A B : FVector) (Alpha : ℚ) :
    FMath.LerpVector A B Alpha = SpecLerpVector A B Alpha := by
  simp only [FMath.LerpVector, SpecLerpVector, SpecLerp, FVector.add, FVector.scale,
    FVector.sub, FVector.mk.injEq]
  refine ⟨?_, ?_, ?_⟩ <;> ring

theorem FMath.Lerp_zero (A B : ℚ) : FMath.Lerp A B 0 = A := by
  unfold FMath.Lerp
  ring

theorem FMath.Lerp_one (A B : ℚ) : FMath.Lerp A B 1 = B := by
  unfold FMath.Lerp
  ring

theorem FMath.LerpVector_zero (A B : FVector) : FMath.LerpVector A B 0 = A := by
  cases A
  simp [FMath.LerpVector, FVector.add, FVector.scale, FVector.sub]

theorem FMath.LerpVector_one (A B : FVector) : FMath.LerpVector A B 1 = B := by
  cases B
  simp [FMath.LerpVector, FVector.add, FVector.scale, FVector.sub]

theorem Scenario.alpha_velocity_half :
    UGraspTargetSelection.GetPawnMovementAlpha
      { MovementSelectionMode := EGraspMovementSelectionMode.Velocity }
      (Scenario.CharacterHandle Scenario.Movement) = 1 / 2 := by
  rw [UGraspTargetSelection.GetPawnMovementAlpha_resolved _
    (Scenario.getPawn_characterHandle _) rfl rfl]
  norm_num [FMath.ClampFloat, FFloat.Quotient, FMath.Clamp, Scenario.Movement]

/-- C12: `GetCollisionShape` interpolates linearly between base and maximum dimensions.
With `alpha` the movement alpha of the handle: for Box and Cylinder the box extent is
`lerp(HalfExtent, MaxHalfExtent, alpha)`, for Sphere the radius is
`lerp(Radius, MaxRadius, alpha)`, for Capsule radius and half-height are
`lerp(Radius, MaxRadius, alpha)` and `lerp(HalfHeight, MaxHalfHeight, alpha)`; and for
every shape kind, at `alpha = 0` the shape is that of the base configuration and at
`alpha = 1` that of the maximum configuration. -/
theorem collision_shape_interpolates (Sel : UGraspTargetSelection)
    (H : FTargetingRequestHandle) :
    (Sel.ShapeType = EGraspTargetingShape.Box →
      Sel.GetCollisionShape H = FCollisionShape.MakeBox
        (SpecLerpVector Sel.HalfExtent Sel.MaxHalfExtent (Sel.GetPawnMovementAlpha H))) ∧
    (Sel.ShapeType = EGraspTargetingShape.Cylinder →
      Sel.GetCollisionShape H = FCollisionShape.MakeBox
        (SpecLerpVector Sel.HalfExtent Sel.MaxHalfExtent (Sel.GetPawnMovementAlpha H))) ∧
    (Sel.ShapeType = EGraspTargetingShape.Sphere →
      Sel.GetCollisionShape H = FCollisionShape.MakeSphere
        (SpecLerp Sel.Radius Sel.MaxRadius (Sel.GetPawnMovementAlpha H))) ∧
    (Sel.ShapeType = EGraspTargetingShape.Capsule →
      Sel.GetCollisionShape H = FCollisionShape.MakeCapsule
        (SpecLerp Sel.Radius Sel.MaxRadius (Sel.GetPawnMovementAlpha H))
        (SpecLerp Sel.HalfHeight Sel.MaxHalfHeight (Sel.GetPawnMovementAlpha H))) ∧
    (Sel.GetPawnMovementAlpha H = 0 → Sel.GetCollisionShape H = SpecBaseShape Sel H) ∧
    (Sel.GetPawnMovementAlpha H = 1 → Sel.GetCollisionShape H = SpecMaxShape Sel H) := by
  refine ⟨?_, ?_, ?_, ?_, ?_, ?_⟩
  · intro hs
    simp only [UGraspTargetSelection.GetCollisionShape, hs, FMath.LerpVector_eq_spec]
  · intro hs
    simp only [UGraspTargetSelection.GetCollisionShape, hs, FMath.LerpVector_eq_spec]
  · intro hs
    simp only [UGraspTargetSelection.GetCollisionShape, hs, FMath.Lerp_eq_spec]
  · intro hs
    simp only [UGraspTargetSelection.GetCollisionShape, hs, FMath.Lerp_eq_spec]
  · intro h0
    unfold UGraspTargetSelection.GetCollisionShape SpecBaseShape
    rw [h0]
    cases Sel.ShapeType
    · simp only [FMath.LerpVector_zero]
    · simp only [FMath.LerpVector_zero]
    · simp only [FMath.Lerp_zero]
    · simp only [FMath.Lerp_zero]
    · rcases UGraspTargetSelection.GetPawnCapsuleSize H with _ | ⟨r, h⟩
      · simp only [FMath.Lerp_zero]
      · simp only [FMath.Lerp_zero]
  · intro h1
    unfold UGraspTargetSelection.GetCollisionShape SpecMaxShape
    rw [h1]
    cases Sel.ShapeType
    · simp only [FMath.LerpVector_one]
    · simp only [FMath.LerpVector_one]
    · simp only [FMath.Lerp_one]
    · simp only [FMath.Lerp_one]
    · rcases UGraspTargetSelection.GetPawnCapsuleSize H with _ | ⟨r, h⟩
      · simp only [FMath.Lerp_one]
      · simp only [FMath.Lerp_one]

theorem Scenario.alpha_capsule_character_one :
    UGraspTargetSelection.GetPawnMovementAlpha
      { MovementSelectionMode := EGraspMovementSelectionMode.Velocity,
        ShapeType := EGraspTargetingShape.CharacterCapsule }
      Scenario.CapsuleCharacterHandle = 1 := by
  have hP : UGraspTargetSelection.GetPawnFromTargetingHandle Scenario.CapsuleCharacterHandle =
      some { Character := some Scenario.CapsuleCharacter } := rfl
  rw [UGraspTargetSelection.GetPawnMovementAlpha_resolved _ hP rfl rfl]
  norm_num [FMath.ClampFloat, FFloat.Quotient, FMath.Clamp, Scenario.SaturatedMovement]

/-- The statement of C12 applied to the default dimensions.  At alpha 1/2 (speed 300 of
600): the box and the cylinder have extent (750, 570, 180), the sphere radius 350, the
capsule radius 350 and half-height 400.  At alpha 0 (mode `Disabled`) the character
capsule without a resolved actor capsule is the base capsule (200, 200).  At alpha 1
(speed 600 of 600) the character capsule on an actor capsule (34, 88) is
(34 * 24, 88 * 1). -/
theorem collision_shape_interpolates_witness :
    UGraspTargetSelection.GetCollisionShape
        { MovementSelectionMode := EGraspMovementSelectionMode.Velocity,
          ShapeType := EGraspTargetingShape.Box }
        (Scenario.CharacterHandle Scenario.Movement) =
      FCollisionShape.MakeBox { X := 750, Y := 570, Z := 180 } ∧
    UGraspTargetSelection.GetCollisionShape
        { MovementSelectionMode := EGraspMovementSelectionMode.Velocity,
          ShapeType := EGraspTargetingShape.Cylinder }
        (Scenario.CharacterHandle Scenario.Movement) =
      FCollisionShape.MakeBox { X := 750, Y := 570, Z := 180 } ∧
    UGraspTargetSelection.GetCollisionShape
        { MovementSelectionMode := EGraspMovementSelectionMode.Velocity,
          ShapeType := EGraspTargetingShape.Sphere }
        (Scenario.CharacterHandle Scenario.Movement) = FCollisionShape.MakeSphere 350 ∧
    UGraspTargetSelection.GetCollisionShape
        { MovementSelectionMode := EGraspMovementSelectionMode.Velocity,
          ShapeType := EGraspTargetingShape.Capsule }
        (Scenario.CharacterHandle Scenario.Movement) = FCollisionShape.MakeCapsule 350 400 ∧
    UGraspTargetSelection.GetCollisionShape
        { ShapeType := EGraspTargetingShape.CharacterCapsule }
        (Scenario.CharacterHandle Scenario.Movement) = FCollisionShape.MakeCapsule 200 200 ∧
    UGraspTargetSelection.GetCollisionShape
        { MovementSelectionMode := EGraspMovementSelectionMode.Velocity,
          ShapeType := EGraspTargetingShape.CharacterCapsule }
        Scenario.CapsuleCharacterHandle = FCollisionShape.MakeCapsule (34 * 24) (88 * 1) := by
  refine ⟨?_, ?_, ?_, ?_, ?_, ?_⟩
  · rw [(collision_shape_interpolates
      { MovementSelectionMode := EGraspMovementSelectionMode.Velocity,
        ShapeType := EGraspTargetingShape.Box }
      (Scenario.CharacterHandle Scenario.Movement)).1 rfl]
    have hα := Scenario.alpha_velocity_half
    simp only [UGraspTargetSelection.GetPawnMovementAlpha] at hα ⊢
    rw [hα]
    norm_num [SpecLerpVector, SpecLerp]
  · rw [(collision_shape_interpolates
      { MovementSelectionMode := EGraspMovementSelectionMode.Velocity,
        ShapeType := EGraspTargetingShape.Cylinder }
      (Scenario.CharacterHandle Scenario.Movement)).2.1 rfl]
    have hα := Scenario.alpha_velocity_half
    simp only [UGraspTargetSelection.GetPawnMovementAlpha] at hα ⊢
    rw [hα]
    norm_num [SpecLerpVector, SpecLerp]
  · rw [(collision_shape_interpolates
      { MovementSelectionMode := EGraspMovementSelectionMode.Velocity,
        ShapeType := EGraspTargetingShape.Sphere }
      (Scenario.CharacterHandle Scenario.Movement)).2.2.1 rfl]
    have hα := Scenario.alpha_velocity_half
    simp only [UGraspTargetSelection.GetPawnMovementAlpha] at hα ⊢
    rw [hα]
    norm_num [SpecLerp]
  · rw [(collision_shape_interpolates
      { MovementSelectionMode := EGraspMovementSelectionMode.Velocity,
        ShapeType := EGraspTargetingShape.Capsule }
      (Scenario.CharacterHandle Scenario.Movement)).2.2.2.1 rfl]
    have hα := Scenario.alpha_velocity_half
    simp only [UGraspTargetSelection.GetPawnMovementAlpha] at hα ⊢
    rw [hα]
    norm_num [SpecLerp]
  · exact (collision_shape_interpolates
      { ShapeType := EGraspTargetingShape.CharacterCapsule }
      (Scenario.CharacterHandle Scenario.Movement)).2.2.2.2.1 rfl
  · exact (collision_shape_interpolates
      { MovementSelectionMode := EGraspMovementSelectionMode.Velocity,
        ShapeType := EGraspTargetingShape.CharacterCapsule }
      Scenario.CapsuleCharacterHandle).2.2.2.2.2 Scenario.alpha_capsule_character_one

/-- C13: after `UpdateGraspAbilityRadius`, for shape Box or Cylinder `GraspAbilityRadius`
equals `(E.X + E.Y) / 2` where `E` is the maximum half-extent (its `Z` is not read), and
for shape Sphere it equals the maximum radius alone; the maximum is the `Max*` member
when the movement selection mode is not `Disabled` and the base member when it is. -/
theorem ability_radius_box_cylinder_sphere (Sel : UGraspTargetSelection) :
    (Sel.ShapeType = EGraspTargetingShape.Box ∨
        Sel.ShapeType = EGraspTargetingShape.Cylinder →
      Sel.UpdateGraspAbilityRadius.GraspAbilityRadius =
        if Sel.MovementSelectionMode = EGraspMovementSelectionMode.Disabled then
          (Sel.HalfExtent.X + Sel.HalfExtent.Y) / 2
        else (Sel.MaxHalfExtent.X + Sel.MaxHalfExtent.Y) / 2) ∧
    (Sel.ShapeType = EGraspTargetingShape.Sphere →
      Sel.UpdateGraspAbilityRadius.GraspAbilityRadius =
        if Sel.MovementSelectionMode = EGraspMovementSelectionMode.Disabled then Sel.Radius
        else Sel.MaxRadius) := by
  constructor
  · intro hs
    by_cases hm : Sel.MovementSelectionMode = EGraspMovementSelectionMode.Disabled
    · rcases hs with hs | hs <;>
        simp only [UGraspTargetSelection.UpdateGraspAbilityRadius, hs,
          UGraspTargetSelection.GetMaxHalfExtent, hm, ne_eq, not_true_eq_false, if_false,
          if_true] <;> ring
    · rcases hs with hs | hs <;>
        simp only [UGraspTargetSelection.UpdateGraspAbilityRadius, hs,
          UGraspTargetSelection.GetMaxHalfExtent, hm, ne_eq, not_false_eq_true, if_false,
          if_true] <;> ring
  · intro hs
    by_cases hm : Sel.MovementSelectionMode = EGraspMovementSelectionMode.Disabled
    · simp only [UGraspTargetSelection.UpdateGraspAbilityRadius, hs,
        UGraspTargetSelection.GetMaxRadius, hm, ne_eq, not_true_eq_false, if_false, if_true]
    · simp only [UGraspTargetSelection.UpdateGraspAbilityRadius, hs,
        UGraspTargetSelection.GetMaxRadius, hm, ne_eq, not_false_eq_true, if_false, if_true]

/-- The statement of C13 applied to the default dimensions: a box with movement selection
`Disabled` gets (500 + 380) / 2 = 440, a cylinder in `Velocity` mode gets
(1000 + 760) / 2 = 880, a sphere in `Velocity` mode gets the maximum radius 500 and a
sphere with movement selection `Disabled` the base radius 200. -/
theorem ability_radius_box_cylinder_sphere_witness :
    (UGraspTargetSelection.UpdateGraspAbilityRadius
        { ShapeType := EGraspTargetingShape.Box }).GraspAbilityRadius = 440 ∧
    (UGraspTargetSelection.UpdateGraspAbilityRadius
        { MovementSelectionMode := EGraspMovementSelectionMode.Velocity,
          ShapeType := EGraspTargetingShape.Cylinder }).GraspAbilityRadius = 880 ∧
    (UGraspTargetSelection.UpdateGraspAbilityRadius
        { MovementSelectionMode := EGraspMovementSelectionMode.Velocity,
          ShapeType := EGraspTargetingShape.Sphere }).GraspAbilityRadius = 500 ∧
    (UGraspTargetSelection.UpdateGraspAbilityRadius
        { ShapeType := EGraspTargetingShape.Sphere }).GraspAbilityRadius = 200 := by
  refine ⟨?_, ?_, ?_, ?_⟩
  · rw [(ability_radius_box_cylinder_sphere
      { ShapeType := EGraspTargetingShape.Box }).1 (Or.inl rfl)]
    norm_num
  · rw [(ability_radius_box_cylinder_sphere
      { MovementSelectionMode := EGraspMovementSelectionMode.Velocity,
        ShapeType := EGraspTargetingShape.Cylinder }).1 (Or.inr rfl),
      if_neg (by decide)]
    norm_num
  · rw [(ability_radius_box_cylinder_sphere
      { MovementSelectionMode := EGraspMovementSelectionMode.Velocity,
        ShapeType := EGraspTargetingShape.Sphere }).2 rfl,
      if_neg (by decide)]
  · rw [(ability_radius_box_cylinder_sphere
      { ShapeType := EGraspTargetingShape.Sphere }).2 rfl]
    norm_num

/-- C14, as stated, fails for the character capsule: with the constructor's dimensions
(radius 200, half-height 200, radius scalar 12, half-height scalar 1, movement selection
`Disabled`) `UpdateGraspAbilityRadius` gives (200 * 12 + 200 * 1) / 2 = 1300, while
`(GetMaxRadius() + GetMaxHalfHeight()) / 2` is 200. -/
theorem ability_radius_character_capsule_counterexample :
    (UGraspTargetSelection.UpdateGraspAbilityRadius
        { ShapeType := EGraspTargetingShape.CharacterCapsule }).GraspAbilityRadius = 1300 ∧
    (UGraspTargetSelection.GetMaxRadius
          { ShapeType := EGraspTargetingShape.CharacterCapsule } +
        UGraspTargetSelection.GetMaxHalfHeight
          { ShapeType := EGraspTargetingShape.CharacterCapsule }) / 2 = 200 ∧
    ¬ ((UGraspTargetSelection.UpdateGraspAbilityRadius
        { ShapeType := EGraspTargetingShape.CharacterCapsule }).GraspAbilityRadius =
      (UGraspTargetSelection.GetMaxRadius
          { ShapeType := EGraspTargetingShape.CharacterCapsule } +
        UGraspTargetSelection.GetMaxHalfHeight
          { ShapeType := EGraspTargetingShape.CharacterCapsule }) / 2) := by
  refine ⟨?_, ?_, ?_⟩ <;>
    norm_num [UGraspTargetSelection.UpdateGraspAbilityRadius,
      UGraspTargetSelection.GetMaxRadius, UGraspTargetSelection.GetMaxHalfHeight,
      UGraspTargetSelection.GetMaxRadiusScalar, UGraspTargetSelection.GetMaxHalfHeightScalar]

/-- C14, amended: after `UpdateGraspAbilityRadius`, for shape Capsule
`GraspAbilityRadius` equals `(GetMaxRadius() + GetMaxHalfHeight()) / 2` for every
configuration of the scalars; for shape CharacterCapsule it equals
`(GetMaxRadius() * GetMaxRadiusScalar() + GetMaxHalfHeight() * GetMaxHalfHeightScalar()) / 2`,
the average of the scaled maximum radius and the scaled maximum half-height. -/
theorem ability_radius_capsules (Sel : UGraspTargetSelection) :
    (Sel.ShapeType = EGraspTargetingShape.Capsule →
      Sel.UpdateGraspAbilityRadius.GraspAbilityRadius =
        (Sel.GetMaxRadius + Sel.GetMaxHalfHeight) / 2) ∧
    (Sel.ShapeType = EGraspTargetingShape.CharacterCapsule →
      Sel.UpdateGraspAbilityRadius.GraspAbilityRadius =
        (Sel.GetMaxRadius * Sel.GetMaxRadiusScalar +
          Sel.GetMaxHalfHeight * Sel.GetMaxHalfHeightScalar) / 2) := by
  constructor
  · intro hs
    simp only [UGraspTargetSelection.UpdateGraspAbilityRadius, hs]
    ring
  · intro hs
    simp only [UGraspTargetSelection.UpdateGraspAbilityRadius, hs]
    ring

/-- The amended C14 applied to the constructor's dimensions: the capsule gets
(200 + 200) / 2 = 200 whatever the scalars (here 12 and 1), the character capsule in
`Velocity` mode gets (500 * 24 + 600 * 1) / 2 = 6300. -/
theorem ability_radius_capsules_witness :
    (UGraspTargetSelection.UpdateGraspAbilityRadius
        { ShapeType := EGraspTargetingShape.Capsule }).GraspAbilityRadius = 200 ∧
    (UGraspTargetSelection.UpdateGraspAbilityRadius
        { MovementSelectionMode := EGraspMovementSelectionMode.Velocity,
          ShapeType := EGraspTargetingShape.CharacterCapsule }).GraspAbilityRadius = 6300 := by
  constructor
  · rw [(ability_radius_capsules { ShapeType := EGraspTargetingShape.Capsule }).1 rfl]
    norm_num [UGraspTargetSelection.GetMaxRadius, UGraspTargetSelection.GetMaxHalfHeight]
  · rw [(ability_radius_capsules
      { MovementSelectionMode := EGraspMovementSelectionMode.Velocity,
        ShapeType := EGraspTargetingShape.CharacterCapsule }).2 rfl]
    have hm : ¬ (EGraspMovementSelectionMode.Velocity = EGraspMovementSelectionMode.Disabled) := by
      decide
    norm_num [UGraspTargetSelection.GetMaxRadius, UGraspTargetSelection.GetMaxHalfHeight,
      UGraspTargetSelection.GetMaxRadiusScalar, UGraspTargetSelection.GetMaxHalfHeightScalar,
      hm]

/-- C15: maximum dimensions are only used when movement scaling is enabled.  With
`MovementSelectionMode = Disabled`, replacing `MaxHalfExtent`, `MaxRadius`,
`MaxHalfHeight`, `MaxRadiusScalar` and `MaxHalfHeightScalar` by any other values changes
neither the shape returned by `GetCollisionShape`, for every handle, nor the value
computed by `UpdateGraspAbilityRadius` (exact rationals). -/
theorem disabled_mode_ignores_max_dimensions (Sel : UGraspTargetSelection)
    (H : FTargetingRequestHandle) (NewMaxHalfExtent : FVector)
    (NewMaxRadius NewMaxHalfHeight NewMaxRadiusScalar NewMaxHalfHeightScalar : ℚ)
    (hmode : Sel.MovementSelectionMode = EGraspMovementSelectionMode.Disabled) :
    UGraspTargetSelection.GetCollisionShape
        { Sel with MaxHalfExtent := NewMaxHalfExtent, MaxRadius := NewMaxRadius,
                   MaxHalfHeight := NewMaxHalfHeight, MaxRadiusScalar := NewMaxRadiusScalar,
                   MaxHalfHeightScalar := NewMaxHalfHeightScalar } H =
      Sel.GetCollisionShape H ∧
    (UGraspTargetSelection.UpdateGraspAbilityRadius
        { Sel with MaxHalfExtent := NewMaxHalfExtent, MaxRadius := NewMaxRadius,
                   MaxHalfHeight := NewMaxHalfHeight, MaxRadiusScalar := NewMaxRadiusScalar,
                   MaxHalfHeightScalar := NewMaxHalfHeightScalar }).GraspAbilityRadius =
      Sel.UpdateGraspAbilityRadius.GraspAbilityRadius := by
  constructor
  · have h0 : Sel.GetPawnMovementAlpha H = 0 := by
      unfold UGraspTargetSelection.GetPawnMovementAlpha
      rw [if_pos hmode]
    have h0' : UGraspTargetSelection.GetPawnMovementAlpha
        { Sel with MaxHalfExtent := NewMaxHalfExtent, MaxRadius := NewMaxRadius,
                   MaxHalfHeight := NewMaxHalfHeight, MaxRadiusScalar := NewMaxRadiusScalar,
                   MaxHalfHeightScalar := NewMaxHalfHeightScalar } H = 0 := by
      unfold UGraspTargetSelection.GetPawnMovementAlpha
      rw [if_pos hmode]
    unfold UGraspTargetSelection.GetCollisionShape
    rw [h0, h0']
    cases Sel.ShapeType
    · simp only [FMath.LerpVector_zero]
    · simp only [FMath.LerpVector_zero]
    · simp only [FMath.Lerp_zero]
    · simp only [FMath.Lerp_zero]
    · rcases UGraspTargetSelection.GetPawnCapsuleSize H with _ | ⟨r, h⟩
      · simp only [FMath.Lerp_zero]
      · simp only [FMath.Lerp_zero]
  · unfold UGraspTargetSelection.UpdateGraspAbilityRadius
    cases Sel.ShapeType <;>
      simp [UGraspTargetSelection.GetMaxHalfExtent, UGraspTargetSelection.GetMaxRadius,
        UGraspTargetSelection.GetMaxHalfHeight, UGraspTargetSelection.GetMaxRadiusScalar,
        UGraspTargetSelection.GetMaxHalfHeightScalar, hmode]

/-- The statement of C15 applied to a box with movement selection `Disabled` on a
character at maximum speed: with every maximum dimension replaced (extent (9, 9, 9) and
the four maxima 7) the shape is still the base box (500, 380, 120) and the ability
radius still 440. -/
theorem disabled_mode_ignores_max_dimensions_witness :
    UGraspTargetSelection.GetCollisionShape
        { ShapeType := EGraspTargetingShape.Box, MaxHalfExtent := { X := 9, Y := 9, Z := 9 },
          MaxRadius := 7, MaxHalfHeight := 7, MaxRadiusScalar := 7, MaxHalfHeightScalar := 7 }
        (Scenario.CharacterHandle Scenario.SaturatedMovement) =
      FCollisionShape.MakeBox { X := 500, Y := 380, Z := 120 } ∧
    (UGraspTargetSelection.UpdateGraspAbilityRadius
        { ShapeType := EGraspTargetingShape.Box, MaxHalfExtent := { X := 9, Y := 9, Z := 9 },
          MaxRadius := 7, MaxHalfHeight := 7, MaxRadiusScalar := 7,
          MaxHalfHeightScalar := 7 }).GraspAbilityRadius = 440 := by
  have h := disabled_mode_ignores_max_dimensions { ShapeType := EGraspTargetingShape.Box }
    (Scenario.CharacterHandle Scenario.SaturatedMovement) { X := 9, Y := 9, Z := 9 } 7 7 7 7 rfl
  constructor
  · rw [h.1]
    simp [UGraspTargetSelection.GetCollisionShape, UGraspTargetSelection.GetPawnMovementAlpha,
      FMath.LerpVector_zero]
  · rw [h.2]
    norm_num [UGraspTargetSelection.UpdateGraspAbilityRadius,
      UGraspTargetSelection.GetMaxHalfExtent]

/-! ## Overlap result processing -/

theorem ActorPtrEq_some_eq_false_iff (P : Option AActor) (A : AActor) :
    ActorPtrEq P (some A) = false ↔ ∀ B, P = some B → B.Id ≠ A.Id := by
  cases P with
  | none => simp [ActorPtrEq]
  | some B => simp [ActorPtrEq]

theorem UGraspTargetSelection.bAddResult_iff (A : AActor)
    (Results : List FTargetingDefaultResultData) :
    bAddResult (some A) Results = true ↔
      ∀ R ∈ Results, ∀ Other, R.HitResult.GetActor = some Other → Other.Id ≠ A.Id := by
  induction Results with
  | nil => simp [bAddResult]
  | cons R Rest ih =>
    simp only [bAddResult, List.mem_cons, forall_eq_or_imp]
    by_cases hR : ActorPtrEq R.HitResult.GetActor (some A) = true
    · simp only [hR, if_true, false_iff, not_and, Bool.false_eq_true]
      intro hall
      have hfalse := (ActorPtrEq_some_eq_false_iff _ A).mpr hall
      rw [hR] at hfalse
      cases hfalse
    · have hR' : ActorPtrEq R.HitResult.GetActor (some A) = false := by
        simpa using hR
      simp only [hR', Bool.false_eq_true, if_false, ih]
      constructor
      · intro h
        exact ⟨(ActorPtrEq_some_eq_false_iff _ A).mp hR', h⟩
      · intro h
        exact h.2

/-- The loop body on an accepted hit: one record is appended and the count grows by
one. -/
theorem UGraspTargetSelection.ProcessOverlap_of_accepted (This : UGraspTargetSelection)
    (Quat : FQuatMath) (SourceLocation : FVector) (SourceRotation : FQuat)
    (O : FOverlapResult) (State : Int × List FTargetingDefaultResultData)
    (hacc : HitAccepted This SourceLocation O State.2) :
    ∃ Actor, O.GetActor = some Actor ∧
      This.ProcessOverlap Quat SourceLocation SourceRotation O State =
        (State.1 + 1,
          State.2 ++ [This.NewResultData Quat SourceLocation SourceRotation O Actor]) := by
  obtain ⟨A, hA, hshape, hnew⟩ := hacc
  refine ⟨A, hA, ?_⟩
  have hadd : bAddResult O.GetActor State.2 = true := by
    rw [hA]
    exact (bAddResult_iff A State.2).mpr hnew
  unfold ProcessOverlap
  rw [hA]
  simp only
  by_cases hs : This.ShapeType = EGraspTargetingShape.Cylinder
  · rcases hshape with hne | hle
    · exact absurd hs hne
    · have hgt : ¬ (FFloat.Gt (DistanceSquared A.ActorLocation SourceLocation)
          This.RadiusSquared = true) := by
        rw [show FFloat.Gt (DistanceSquared A.ActorLocation SourceLocation)
          This.RadiusSquared = false from hle]
        exact Bool.false_ne_true
      rw [if_pos hs, if_neg hgt]
      unfold AddResultIfNew
      rw [if_pos hadd]
  · rw [if_neg hs]
    unfold AddResultIfNew
    rw [if_pos hadd]

/-- The loop body on a hit that is not accepted: the state is left as it is. -/
theorem UGraspTargetSelection.ProcessOverlap_of_not_accepted (This : UGraspTargetSelection)
    (Quat : FQuatMath) (SourceLocation : FVector) (SourceRotation : FQuat)
    (O : FOverlapResult) (State : Int × List FTargetingDefaultResultData)
    (hrej : ¬ HitAccepted This SourceLocation O State.2) :
    This.ProcessOverlap Quat SourceLocation SourceRotation O State = State := by
  unfold ProcessOverlap
  rcases hA : O.GetActor with _ | A
  · rfl
  · simp only
    have hcases : ¬ ((This.ShapeType ≠ EGraspTargetingShape.Cylinder ∨
        PassesCylinderTest This SourceLocation A.ActorLocation) ∧
        bAddResult (some A) State.2 = true) := by
      rintro ⟨hshape, hadd⟩
      exact hrej ⟨A, hA, hshape, (bAddResult_iff A State.2).mp hadd⟩
    by_cases hs : This.ShapeType = EGraspTargetingShape.Cylinder
    · rw [if_pos hs]
      by_cases hd : FFloat.Gt (DistanceSquared A.ActorLocation SourceLocation)
          This.RadiusSquared = true
      · rw [if_pos hd]
      · rw [if_neg hd]
        unfold AddResultIfNew
        rw [hA, if_neg]
        intro hadd
        exact hcases ⟨Or.inr (Bool.eq_false_iff.mpr hd), hadd⟩
    · rw [if_neg hs]
      unfold AddResultIfNew
      rw [hA, if_neg]
      intro hadd
      exact hcases ⟨Or.inl hs, hadd⟩

/-- The outer loop appends, in overlap-list order, one record for each hit of a sublist
of the overlaps, each with a resolved actor that passed the cylinder test, and counts
them. -/
theorem UGraspTargetSelection.OverlapLoop_appends (This : UGraspTargetSelection)
    (Quat : FQuatMath) (SourceLocation : FVector) (SourceRotation : FQuat) :
    ∀ (Overlaps : List FOverlapResult) (State : Int × List FTargetingDefaultResultData),
      ∃ Accepted : List (FOverlapResult × AActor),
        (Accepted.map Prod.fst).Sublist Overlaps ∧
        (∀ p ∈ Accepted, p.1.GetActor = some p.2 ∧
          (This.ShapeType = EGraspTargetingShape.Cylinder →
            PassesCylinderTest This SourceLocation p.2.ActorLocation)) ∧
        This.OverlapLoop Quat SourceLocation SourceRotation Overlaps State =
          (State.1 + (Accepted.length : Int),
            State.2 ++ Accepted.map (fun p =>
              This.NewResultData Quat SourceLocation SourceRotation p.1 p.2)) := by
  intro Overlaps
  induction Overlaps with
  | nil =>
    intro State
    exact ⟨[], List.Sublist.slnil, by simp, by simp [OverlapLoop]⟩
  | cons O Rest ih =>
    intro State
    by_cases hacc : HitAccepted This SourceLocation O State.2
    · obtain ⟨A, hA, hstep⟩ :=
        This.ProcessOverlap_of_accepted Quat SourceLocation SourceRotation O State hacc
      obtain ⟨Acc, hsub, hall, hloop⟩ := ih (State.1 + 1,
        State.2 ++ [This.NewResultData Quat SourceLocation SourceRotation O A])
      refine ⟨(O, A) :: Acc, ?_, ?_, ?_⟩
      · simpa using hsub.cons₂ O
      · intro p hp
        rcases List.mem_cons.mp hp with hp | hp
        · subst hp
          refine ⟨hA, fun hs => ?_⟩
          obtain ⟨A', hA', hshape, -⟩ := hacc
          have hAA : A' = A := Option.some.inj (hA'.symm.trans hA)
          subst hAA
          rcases hshape with hne | hle
          · exact absurd hs hne
          · exact hle
        · exact hall p hp
      · simp only [OverlapLoop, hstep, hloop, List.length_cons, List.map_cons,
          List.append_assoc, List.singleton_append, Nat.cast_add, Nat.cast_one]
        congr 1
        ring
    · have hstep :=
        This.ProcessOverlap_of_not_accepted Quat SourceLocation SourceRotation O State hacc
      obtain ⟨Acc, hsub, hall, hloop⟩ := ih State
      refine ⟨Acc, hsub.cons O, hall, ?_⟩
      simp only [OverlapLoop, hstep, hloop]

theorem UGraspTargetSelection.OverlapLoop_append (This : UGraspTargetSelection)
    (Quat : FQuatMath) (SourceLocation : FVector) (SourceRotation : FQuat) :
    ∀ (Pre Post : List FOverlapResult) (State : Int × List FTargetingDefaultResultData),
      This.OverlapLoop Quat SourceLocation SourceRotation (Pre ++ Post) State =
        This.OverlapLoop Quat SourceLocation SourceRotation Post
          (This.OverlapLoop Quat SourceLocation SourceRotation Pre State) := by
  intro Pre
  induction Pre with
  | nil => intro Post State; rfl
  | cons O Rest ih =>
    intro Post State
    show This.OverlapLoop Quat SourceLocation SourceRotation (Rest ++ Post)
        (This.ProcessOverlap Quat SourceLocation SourceRotation O State) = _
    rw [ih]
    rfl

/-- The loop body keeps the result list at one record per actor. -/
theorem UGraspTargetSelection.ProcessOverlap_keeps_one_per_actor
    (This : UGraspTargetSelection) (Quat : FQuatMath) (SourceLocation : FVector)
    (SourceRotation : FQuat) (O : FOverlapResult)
    (State : Int × List FTargetingDefaultResultData) (hinv : OneRecordPerActor State.2) :
    OneRecordPerActor (This.ProcessOverlap Quat SourceLocation SourceRotation O State).2 := by
  by_cases hacc : HitAccepted This SourceLocation O State.2
  · obtain ⟨A, hA, hstep⟩ :=
      This.ProcessOverlap_of_accepted Quat SourceLocation SourceRotation O State hacc
    obtain ⟨A', hA', -, hnew⟩ := hacc
    have hAA : A' = A := Option.some.inj (hA'.symm.trans hA)
    subst hAA
    rw [hstep]
    unfold OneRecordPerActor at hinv ⊢
    rw [List.pairwise_append]
    refine ⟨hinv, List.pairwise_singleton _ _, ?_⟩
    intro R hR S hS X Y hX hY
    rw [List.mem_singleton] at hS
    subst hS
    have hYA : Y = A' := by
      have : O.GetActor = some Y := hY
      exact Option.some.inj (this.symm.trans hA)
    rw [hYA]
    exact hnew R hR X hX
  · rw [This.ProcessOverlap_of_not_accepted Quat SourceLocation SourceRotation O State hacc]
    exact hinv

/-- The outer loop keeps the result list at one record per actor. -/
theorem UGraspTargetSelection.OverlapLoop_keeps_one_per_actor
    (This : UGraspTargetSelection) (Quat : FQuatMath) (SourceLocation : FVector)
    (SourceRotation : FQuat) :
    ∀ (Overlaps : List FOverlapResult) (State : Int × List FTargetingDefaultResultData),
      OneRecordPerActor State.2 →
      OneRecordPerActor (This.OverlapLoop Quat SourceLocation SourceRotation Overlaps State).2 := by
  intro Overlaps
  induction Overlaps with
  | nil => intro State hinv; exact hinv
  | cons O Rest ih =>
    intro State hinv
    exact ih _ (This.ProcessOverlap_keeps_one_per_actor Quat SourceLocation SourceRotation
      O State hinv)

/-- A call of `ProcessOverlapResults` on a non-empty overlap list, in terms of the outer
loop. -/
theorem UGraspTargetSelection.ProcessOverlapResults_of_ne_nil (Sel : UGraspTargetSelection)
    (bWithEditor : Bool) (Quat : FQuatMath) (Events : FGraspSourceEvents)
    (H : FTargetingRequestHandle) {Overlaps : List FOverlapResult} (hne : Overlaps ≠ [])
    (Store : Option FTargetingDefaultResultsSet) :
    Sel.ProcessOverlapResults bWithEditor Quat Events H Overlaps Store =
      { This := TaskInBuild Sel bWithEditor
        NumValidResults := ((TaskInBuild Sel bWithEditor).OverlapLoop Quat
          (SourceLocationOf Events H) (SourceRotationOf Quat Events H) Overlaps
          (0, ResultsOf Store)).1
        Store := some { TargetResults := ((TaskInBuild Sel bWithEditor).OverlapLoop Quat
          (SourceLocationOf Events H) (SourceRotationOf Quat Events H) Overlaps
          (0, ResultsOf Store)).2 } } := by
  have hlen : Overlaps.length > 0 := List.length_pos.mpr hne
  unfold ProcessOverlapResults
  simp only [hlen, if_true]
  rfl

/-- A call of `ProcessOverlapResults` on the empty overlap list. -/
theorem UGraspTargetSelection.ProcessOverlapResults_nil (Sel : UGraspTargetSelection)
    (bWithEditor : Bool) (Quat : FQuatMath) (Events : FGraspSourceEvents)
    (H : FTargetingRequestHandle) (Store : Option FTargetingDefaultResultsSet) :
    Sel.ProcessOverlapResults bWithEditor Quat Events H [] Store =
      { This := TaskInBuild Sel bWithEditor, NumValidResults := 0, Store := Store } := by
  rfl

theorem TaskInBuild_ShapeType (Sel : UGraspTargetSelection) (bWithEditor : Bool) :
    (TaskInBuild Sel bWithEditor).ShapeType = Sel.ShapeType := by
  unfold TaskInBuild UGraspTargetSelection.UpdateGraspAbilityRadius
  cases bWithEditor
  · rfl
  · cases hs : Sel.ShapeType <;> simp [hs]

theorem TaskInBuild_HalfExtent (Sel : UGraspTargetSelection) (bWithEditor : Bool) :
    (TaskInBuild Sel bWithEditor).HalfExtent = Sel.HalfExtent := by
  unfold TaskInBuild UGraspTargetSelection.UpdateGraspAbilityRadius
  cases bWithEditor
  · rfl
  · cases hs : Sel.ShapeType <;> simp

theorem HitAccepted_TaskInBuild_iff (Sel : UGraspTargetSelection) (bWithEditor : Bool)
    (SourceLocation : FVector) (O : FOverlapResult)
    (Results : List FTargetingDefaultResultData) :
    HitAccepted (TaskInBuild Sel bWithEditor) SourceLocation O Results ↔
      HitAccepted Sel SourceLocation O Results := by
  unfold HitAccepted PassesCylinderTest UGraspTargetSelection.RadiusSquared
  rw [TaskInBuild_ShapeType, TaskInBuild_HalfExtent]

/-- A call of `ProcessOverlapResults` appends to the result list of the request, in
overlap-list order, one record for each hit of a sublist of the overlaps, each with a
resolved actor that passed the cylinder test, and returns their number. -/
theorem UGraspTargetSelection.ProcessOverlapResults_appends (Sel : UGraspTargetSelection)
    (bWithEditor : Bool) (Quat : FQuatMath) (Events : FGraspSourceEvents)
    (H : FTargetingRequestHandle) (Overlaps : List FOverlapResult)
    (Store : Option FTargetingDefaultResultsSet) :
    ∃ Accepted : List (FOverlapResult × AActor),
      (Accepted.map Prod.fst).Sublist Overlaps ∧
      (∀ p ∈ Accepted, p.1.GetActor = some p.2 ∧
        (Sel.ShapeType = EGraspTargetingShape.Cylinder →
          PassesCylinderTest Sel (SourceLocationOf Events H) p.2.ActorLocation)) ∧
      ResultsOf (Sel.ProcessOverlapResults bWithEditor Quat Events H Overlaps Store).Store =
        ResultsOf Store ++ Accepted.map (fun p =>
          (TaskInBuild Sel bWithEditor).NewResultData Quat (SourceLocationOf Events H)
            (SourceRotationOf Quat Events H) p.1 p.2) ∧
      (Sel.ProcessOverlapResults bWithEditor Quat Events H Overlaps Store).NumValidResults =
        (Accepted.length : Int) := by
  by_cases hne : Overlaps = []
  · subst hne
    refine ⟨[], List.Sublist.slnil, by simp, ?_, ?_⟩
    · rw [ProcessOverlapResults_nil]
      simp
    · rw [ProcessOverlapResults_nil]
      simp
  · obtain ⟨Acc, hsub, hall, hloop⟩ :=
      (TaskInBuild Sel bWithEditor).OverlapLoop_appends Quat (SourceLocationOf Events H)
        (SourceRotationOf Quat Events H) Overlaps (0, ResultsOf Store)
    refine ⟨Acc, hsub, ?_, ?_, ?_⟩
    · intro p hp
      obtain ⟨h1, h2⟩ := hall p hp
      unfold PassesCylinderTest UGraspTargetSelection.RadiusSquared at h2 ⊢
      rw [TaskInBuild_ShapeType, TaskInBuild_HalfExtent] at h2
      exact ⟨h1, h2⟩
    · rw [ProcessOverlapResults_of_ne_nil Sel bWithEditor Quat Events H hne Store, hloop]
      rfl
    · rw [ProcessOverlapResults_of_ne_nil Sel bWithEditor Quat Events H hne Store, hloop]
      simp

/-! ## The claims on overlap result processing -/

theorem Scenario.far_is_outside :
    FFloat.Gt (UGraspTargetSelection.DistanceSquared Scenario.FarActor.ActorLocation
        (SourceLocationOf Scenario.Events Scenario.Handle))
      Scenario.Cylinder.RadiusSquared = true := by
  decide!

theorem Scenario.near_is_inside :
    PassesCylinderTest Scenario.Cylinder (SourceLocationOf Scenario.Events Scenario.Handle)
      Scenario.NearActor.ActorLocation := by
  show FFloat.Gt _ _ = false
  decide!

/-- The two squares of the cylinder test for the actor `500 + 2^-18` away from a cylinder
of radius 500: the squared distance `250000 + 1000 * 2^-18 + 2^-36` is
`250000 + 1000 * 2^-18` as a `double` and 250000 as a `float`, the squared radius is
250000, and the actor passes the test. -/
theorem Scenario.rim_squares :
    FVector.DistSquared2D Scenario.RimActor.ActorLocation
        (SourceLocationOf Scenario.Events Scenario.Handle) =
      FFloat.Finite (250000 + 1000 / 2 ^ 18) ∧
    UGraspTargetSelection.DistanceSquared Scenario.RimActor.ActorLocation
        (SourceLocationOf Scenario.Events Scenario.Handle) = FFloat.Finite 250000 ∧
    Scenario.Cylinder.RadiusSquared = FFloat.Finite 250000 ∧
    PassesCylinderTest Scenario.Cylinder (SourceLocationOf Scenario.Events Scenario.Handle)
      Scenario.RimActor.ActorLocation := by
  refine ⟨by decide!, by decide!, by decide!, ?_⟩
  show FFloat.Gt _ _ = false
  decide!

/-- C16, as stated, fails: a cylinder of radius `HalfExtent.X = 500` adds a record for a
hit whose actor is `500 + 2^-18` units from the source in the plane.  The squared planar
distance exceeds `HalfExtent.X` squared, but the code stores both squares in `float`
variables, where both are 250000, and `DistanceSquared > RadiusSquared` is false. -/
theorem cylinder_adds_hit_just_outside_radius_counterexample :
    Scenario.Cylinder.ShapeType = EGraspTargetingShape.Cylinder ∧
    Scenario.RimOverlap.GetActor = some Scenario.RimActor ∧
    SpecDistSquared2D Scenario.RimActor.ActorLocation
        (SourceLocationOf Scenario.Events Scenario.Handle) >
      Scenario.Cylinder.HalfExtent.X * Scenario.Cylinder.HalfExtent.X ∧
    (Scenario.Cylinder.ProcessOverlapResults false Scenario.QuatMath Scenario.Events
      Scenario.Handle [Scenario.RimOverlap] none).NumValidResults = 1 ∧
    (ResultsOf (Scenario.Cylinder.ProcessOverlapResults false Scenario.QuatMath
      Scenario.Events Scenario.Handle [Scenario.RimOverlap] none).Store).map
        (fun R => R.HitResult.Location) = [Scenario.RimActor.ActorLocation] := by
  refine ⟨rfl, rfl, ?_, by decide!, by decide!⟩
  norm_num [SpecDistSquared2D, Scenario.RimActor, SourceLocationOf, Scenario.Events,
    FVector.add, Scenario.Cylinder]

/-- C16, amended: with `ShapeType = Cylinder`, `ProcessOverlapResults` never adds a record
for a hit whose actor's squared planar distance from the source location, computed in
`double` and stored in a `float`, exceeds `HalfExtent.X` squared stored in a `float` (the
test `DistanceSquared > RadiusSquared` of the code).  Visiting such a hit leaves the
count and the result list as they are, whatever the result list holds; and every record
that a call appends, for every overlap list and every result set, is of an actor for
which that comparison is false. -/
theorem cylinder_never_adds_hit_outside_radius (Sel : UGraspTargetSelection)
    (bWithEditor : Bool) (Quat : FQuatMath) (Events : FGraspSourceEvents)
    (H : FTargetingRequestHandle)
    (hshape : Sel.ShapeType = EGraspTargetingShape.Cylinder) :
    (∀ (O : FOverlapResult) (Actor : AActor)
        (State : Int × List FTargetingDefaultResultData),
      O.GetActor = some Actor →
      FFloat.Gt (UGraspTargetSelection.DistanceSquared Actor.ActorLocation
        (SourceLocationOf Events H)) Sel.RadiusSquared = true →
      (TaskInBuild Sel bWithEditor).ProcessOverlap Quat (SourceLocationOf Events H)
        (SourceRotationOf Quat Events H) O State = State) ∧
    (∀ (Overlaps : List FOverlapResult) (Store : Option FTargetingDefaultResultsSet),
      ∃ Added : List FTargetingDefaultResultData,
        ResultsOf (Sel.ProcessOverlapResults bWithEditor Quat Events H Overlaps Store).Store =
          ResultsOf Store ++ Added ∧
        ∀ R ∈ Added,
          FFloat.Gt (UGraspTargetSelection.DistanceSquared R.HitResult.Location
            (SourceLocationOf Events H)) Sel.RadiusSquared = false) := by
  constructor
  · intro O Actor State hA hfar
    apply UGraspTargetSelection.ProcessOverlap_of_not_accepted
    rw [HitAccepted_TaskInBuild_iff]
    rintro ⟨A, hA', hin, -⟩
    have hAA : A = Actor := Option.some.inj (hA'.symm.trans hA)
    subst hAA
    rcases hin with hne | hle
    · exact hne hshape
    · rw [show FFloat.Gt (UGraspTargetSelection.DistanceSquared A.ActorLocation
        (SourceLocationOf Events H)) Sel.RadiusSquared = false from hle] at hfar
      exact Bool.false_ne_true hfar
  · intro Overlaps Store
    obtain ⟨Acc, -, hall, hres, -⟩ :=
      Sel.ProcessOverlapResults_appends bWithEditor Quat Events H Overlaps Store
    refine ⟨_, hres, ?_⟩
    intro R hR
    obtain ⟨p, hp, rfl⟩ := List.mem_map.mp hR
    exact (hall p hp).2 hshape

/-- The amended C16 applied to a cylinder of radius 500 with maximum half-extent 1000 and
a hit on an actor 600 units away: the `float` comparison is true for it, visiting it with
an empty result list adds nothing, and the comparison is false for the records appended
by a call on the far and the near hit. -/
theorem cylinder_never_adds_hit_outside_radius_witness :
    FFloat.Gt (UGraspTargetSelection.DistanceSquared Scenario.FarActor.ActorLocation
        (SourceLocationOf Scenario.Events Scenario.Handle))
      Scenario.Cylinder.RadiusSquared = true ∧
    (TaskInBuild Scenario.Cylinder false).ProcessOverlap Scenario.QuatMath
        (SourceLocationOf Scenario.Events Scenario.Handle)
        (SourceRotationOf Scenario.QuatMath Scenario.Events Scenario.Handle)
        Scenario.FarOverlap (0, []) = (0, []) ∧
    (∃ Added : List FTargetingDefaultResultData,
      ResultsOf (Scenario.Cylinder.ProcessOverlapResults false Scenario.QuatMath
          Scenario.Events Scenario.Handle [Scenario.FarOverlap, Scenario.NearOverlap]
          none).Store = ResultsOf none ++ Added ∧
      ∀ R ∈ Added,
        FFloat.Gt (UGraspTargetSelection.DistanceSquared R.HitResult.Location
            (SourceLocationOf Scenario.Events Scenario.Handle))
          Scenario.Cylinder.RadiusSquared = false) :=
  have h := cylinder_never_adds_hit_outside_radius Scenario.Cylinder false Scenario.QuatMath
    Scenario.Events Scenario.Handle rfl
  ⟨Scenario.far_is_outside,
    h.1 Scenario.FarOverlap Scenario.FarActor (0, []) rfl Scenario.far_is_outside,
    h.2 [Scenario.FarOverlap, Scenario.NearOverlap] none⟩

/-- C17: deduplication by actor.  If the request's result list holds at most one record
per actor before `ProcessOverlapResults`, it holds at most one record per actor
afterwards, for every overlap list. -/
theorem process_overlaps_keeps_one_record_per_actor (Sel : UGraspTargetSelection)
    (bWithEditor : Bool) (Quat : FQuatMath) (Events : FGraspSourceEvents)
    (H : FTargetingRequestHandle) (Overlaps : List FOverlapResult)
    (Store : Option FTargetingDefaultResultsSet)
    (hinv : OneRecordPerActor (ResultsOf Store)) :
    OneRecordPerActor
      (ResultsOf (Sel.ProcessOverlapResults bWithEditor Quat Events H Overlaps Store).Store) := by
  by_cases hne : Overlaps = []
  · subst hne
    rw [UGraspTargetSelection.ProcessOverlapResults_nil]
    exact hinv
  · rw [UGraspTargetSelection.ProcessOverlapResults_of_ne_nil Sel bWithEditor Quat Events H
      hne Store]
    exact (TaskInBuild Sel bWithEditor).OverlapLoop_keeps_one_per_actor Quat _ _ Overlaps
      (0, ResultsOf Store) hinv

/-- The statement of C17 applied to an empty result set and a list of two hits on one
actor: the result list afterwards holds at most one record per actor, and it holds
exactly one record, with one result counted. -/
theorem process_overlaps_keeps_one_record_per_actor_witness :
    OneRecordPerActor (ResultsOf none) ∧
    Scenario.NearOverlap.GetActor = Scenario.NearOverlapAgain.GetActor ∧
    OneRecordPerActor
      (ResultsOf (UGraspTargetSelection.ProcessOverlapResults { } false Scenario.QuatMath
        Scenario.Events Scenario.Handle [Scenario.NearOverlap, Scenario.NearOverlapAgain]
        none).Store) ∧
    (ResultsOf (UGraspTargetSelection.ProcessOverlapResults { } false Scenario.QuatMath
        Scenario.Events Scenario.Handle [Scenario.NearOverlap, Scenario.NearOverlapAgain]
        none).Store).length = 1 ∧
    (UGraspTargetSelection.ProcessOverlapResults { } false Scenario.QuatMath
        Scenario.Events Scenario.Handle [Scenario.NearOverlap, Scenario.NearOverlapAgain]
        none).NumValidResults = 1 :=
  have hnil : OneRecordPerActor (ResultsOf none) := List.Pairwise.nil
  ⟨hnil, rfl,
    process_overlaps_keeps_one_record_per_actor { } false Scenario.QuatMath Scenario.Events
      Scenario.Handle [Scenario.NearOverlap, Scenario.NearOverlapAgain] none hnil,
    by decide, by decide⟩

/-- C18, as stated, fails in its condition (2): a cylinder of radius 500 visits, with an
empty result list, a hit on an actor `500 + 2^-18` units from the source in the plane.
The squared planar distance is not at most `HalfExtent.X` squared, so the three
conditions of the spec do not all hold, and yet the visit appends the record of the hit
and counts it. -/
theorem hit_is_added_iff_accepted_counterexample :
    ¬ SpecHitAccepted Scenario.Cylinder (SourceLocationOf Scenario.Events Scenario.Handle)
      Scenario.RimOverlap [] ∧
    (TaskInBuild Scenario.Cylinder false).ProcessOverlap Scenario.QuatMath
        (SourceLocationOf Scenario.Events Scenario.Handle)
        (SourceRotationOf Scenario.QuatMath Scenario.Events Scenario.Handle)
        Scenario.RimOverlap (0, []) =
      (1, [(TaskInBuild Scenario.Cylinder false).NewResultData Scenario.QuatMath
        (SourceLocationOf Scenario.Events Scenario.Handle)
        (SourceRotationOf Scenario.QuatMath Scenario.Events Scenario.Handle)
        Scenario.RimOverlap Scenario.RimActor]) := by
  constructor
  · rintro ⟨A, hA, hin, -⟩
    have hAA : Scenario.RimActor = A := Option.some.inj hA
    subst hAA
    rcases hin with hne | hle
    · exact hne rfl
    · norm_num [SpecDistSquared2D, Scenario.RimActor, SourceLocationOf, Scenario.Events,
        FVector.add, Scenario.Cylinder] at hle
  · have hacc : HitAccepted (TaskInBuild Scenario.Cylinder false)
        (SourceLocationOf Scenario.Events Scenario.Handle) Scenario.RimOverlap
        ((0 : Int), ([] : List FTargetingDefaultResultData)).2 :=
      ⟨Scenario.RimActor, rfl, Or.inr Scenario.rim_squares.2.2.2, by simp⟩
    obtain ⟨A, hA, hstep⟩ := UGraspTargetSelection.ProcessOverlap_of_accepted
      (TaskInBuild Scenario.Cylinder false) Scenario.QuatMath
      (SourceLocationOf Scenario.Events Scenario.Handle)
      (SourceRotationOf Scenario.QuatMath Scenario.Events Scenario.Handle)
      Scenario.RimOverlap (0, []) hacc
    have hAA : Scenario.RimActor = A := Option.some.inj hA
    subst hAA
    rw [hstep]
    rfl

/-- C18, amended: `ProcessOverlapResults` adds a record for an overlap hit if and only if
(1) the hit has a resolvable actor, (2) the shape is not Cylinder or the actor's squared
planar distance to the source location, computed in `double` and stored in a `float`,
does not exceed `HalfExtent.X` squared stored in a `float`, and (3) no record with the
same actor is in the result list at the time the hit is visited.  For a hit `O` at any
position of the overlap list, `Pre ++ O :: Post`: the call is the loop over `Post`
started from the visit of `O` in the state reached after `Pre`; if the three conditions
hold in that state the visit appends exactly the record of `O` and counts it, and if one
of them fails the visit leaves count and result list as they are. -/
theorem hit_is_added_iff_accepted (Sel : UGraspTargetSelection)
    (bWithEditor : Bool) (Quat : FQuatMath) (Events : FGraspSourceEvents)
    (H : FTargetingRequestHandle) (Pre Post : List FOverlapResult) (O : FOverlapResult)
    (Store : Option FTargetingDefaultResultsSet) :
    ((Sel.ProcessOverlapResults bWithEditor Quat Events H (Pre ++ O :: Post)
          Store).NumValidResults =
        ((TaskInBuild Sel bWithEditor).OverlapLoop Quat (SourceLocationOf Events H)
          (SourceRotationOf Quat Events H) Post
          ((TaskInBuild Sel bWithEditor).ProcessOverlap Quat (SourceLocationOf Events H)
            (SourceRotationOf Quat Events H) O
            (VisitedState Sel bWithEditor Quat Events H Pre Store))).1 ∧
      ResultsOf (Sel.ProcessOverlapResults bWithEditor Quat Events H (Pre ++ O :: Post)
          Store).Store =
        ((TaskInBuild Sel bWithEditor).OverlapLoop Quat (SourceLocationOf Events H)
          (SourceRotationOf Quat Events H) Post
          ((TaskInBuild Sel bWithEditor).ProcessOverlap Quat (SourceLocationOf Events H)
            (SourceRotationOf Quat Events H) O
            (VisitedState Sel bWithEditor Quat Events H Pre Store))).2) ∧
    (HitAccepted Sel (SourceLocationOf Events H) O
        (VisitedState Sel bWithEditor Quat Events H Pre Store).2 →
      ∃ Actor, O.GetActor = some Actor ∧
        (TaskInBuild Sel bWithEditor).ProcessOverlap Quat (SourceLocationOf Events H)
            (SourceRotationOf Quat Events H) O
            (VisitedState Sel bWithEditor Quat Events H Pre Store) =
          ((VisitedState Sel bWithEditor Quat Events H Pre Store).1 + 1,
            (VisitedState Sel bWithEditor Quat Events H Pre Store).2 ++
              [(TaskInBuild Sel bWithEditor).NewResultData Quat (SourceLocationOf Events H)
                (SourceRotationOf Quat Events H) O Actor])) ∧
    (¬ HitAccepted Sel (SourceLocationOf Events H) O
        (VisitedState Sel bWithEditor Quat Events H Pre Store).2 →
      (TaskInBuild Sel bWithEditor).ProcessOverlap Quat (SourceLocationOf Events H)
          (SourceRotationOf Quat Events H) O
          (VisitedState Sel bWithEditor Quat Events H Pre Store) =
        VisitedState Sel bWithEditor Quat Events H Pre Store) := by
  refine ⟨?_, ?_, ?_⟩
  · have hne : Pre ++ O :: Post ≠ [] := by simp
    rw [UGraspTargetSelection.ProcessOverlapResults_of_ne_nil Sel bWithEditor Quat Events H
      hne Store, UGraspTargetSelection.OverlapLoop_append]
    exact ⟨rfl, rfl⟩
  · intro hacc
    exact UGraspTargetSelection.ProcessOverlap_of_accepted _ Quat _ _ O _
      ((HitAccepted_TaskInBuild_iff Sel bWithEditor _ O _).mpr hacc)
  · intro hrej
    exact UGraspTargetSelection.ProcessOverlap_of_not_accepted _ Quat _ _ O _
      (fun hacc => hrej ((HitAccepted_TaskInBuild_iff Sel bWithEditor _ O _).mp hacc))

theorem Scenario.visited_after_near :
    VisitedState Scenario.Cylinder false Scenario.QuatMath Scenario.Events Scenario.Handle
        [Scenario.NearOverlap] none =
      (1, [(TaskInBuild Scenario.Cylinder false).NewResultData Scenario.QuatMath
        (SourceLocationOf Scenario.Events Scenario.Handle)
        (SourceRotationOf Scenario.QuatMath Scenario.Events Scenario.Handle)
        Scenario.NearOverlap Scenario.NearActor]) := by
  have hacc : HitAccepted (TaskInBuild Scenario.Cylinder false)
      (SourceLocationOf Scenario.Events Scenario.Handle) Scenario.NearOverlap
      ((0 : Int), ([] : List FTargetingDefaultResultData)).2 :=
    ⟨Scenario.NearActor, rfl, Or.inr Scenario.near_is_inside, by simp⟩
  obtain ⟨A, hA, hstep⟩ := UGraspTargetSelection.ProcessOverlap_of_accepted
    (TaskInBuild Scenario.Cylinder false) Scenario.QuatMath
    (SourceLocationOf Scenario.Events Scenario.Handle)
    (SourceRotationOf Scenario.QuatMath Scenario.Events Scenario.Handle)
    Scenario.NearOverlap (0, []) hacc
  have hAA : Scenario.NearActor = A := Option.some.inj hA
  subst hAA
  have hv : VisitedState Scenario.Cylinder false Scenario.QuatMath Scenario.Events
      Scenario.Handle [Scenario.NearOverlap] none =
      (TaskInBuild Scenario.Cylinder false).ProcessOverlap Scenario.QuatMath
        (SourceLocationOf Scenario.Events Scenario.Handle)
        (SourceRotationOf Scenario.QuatMath Scenario.Events Scenario.Handle)
        Scenario.NearOverlap (0, []) := rfl
  rw [hv, hstep]
  rfl

/-- The amended C18 applied to a cylinder of radius 500 and an empty result set.
The near hit visited first is accepted and its record appended; visited after the near
hit, the hit without an actor fails (1), the far hit fails (2) and the second hit on the
near actor fails (3), and each leaves the state as it is. -/
theorem hit_is_added_iff_accepted_witness :
    (∃ Actor, Scenario.NearOverlap.GetActor = some Actor ∧
      (TaskInBuild Scenario.Cylinder false).ProcessOverlap Scenario.QuatMath
          (SourceLocationOf Scenario.Events Scenario.Handle)
          (SourceRotationOf Scenario.QuatMath Scenario.Events Scenario.Handle)
          Scenario.NearOverlap
          (VisitedState Scenario.Cylinder false Scenario.QuatMath Scenario.Events
            Scenario.Handle [] none) =
        ((VisitedState Scenario.Cylinder false Scenario.QuatMath Scenario.Events
            Scenario.Handle [] none).1 + 1,
          (VisitedState Scenario.Cylinder false Scenario.QuatMath Scenario.Events
            Scenario.Handle [] none).2 ++
            [(TaskInBuild Scenario.Cylinder false).NewResultData Scenario.QuatMath
              (SourceLocationOf Scenario.Events Scenario.Handle)
              (SourceRotationOf Scenario.QuatMath Scenario.Events Scenario.Handle)
              Scenario.NearOverlap Actor])) ∧
    (TaskInBuild Scenario.Cylinder false).ProcessOverlap Scenario.QuatMath
        (SourceLocationOf Scenario.Events Scenario.Handle)
        (SourceRotationOf Scenario.QuatMath Scenario.Events Scenario.Handle)
        Scenario.NullOverlap
        (VisitedState Scenario.Cylinder false Scenario.QuatMath Scenario.Events
          Scenario.Handle [Scenario.NearOverlap] none) =
      VisitedState Scenario.Cylinder false Scenario.QuatMath Scenario.Events
        Scenario.Handle [Scenario.NearOverlap] none ∧
    (TaskInBuild Scenario.Cylinder false).ProcessOverlap Scenario.QuatMath
        (SourceLocationOf Scenario.Events Scenario.Handle)
        (SourceRotationOf Scenario.QuatMath Scenario.Events Scenario.Handle)
        Scenario.FarOverlap
        (VisitedState Scenario.Cylinder false Scenario.QuatMath Scenario.Events
          Scenario.Handle [Scenario.NearOverlap] none) =
      VisitedState Scenario.Cylinder false Scenario.QuatMath Scenario.Events
        Scenario.Handle [Scenario.NearOverlap] none ∧
    (TaskInBuild Scenario.Cylinder false).ProcessOverlap Scenario.QuatMath
        (SourceLocationOf Scenario.Events Scenario.Handle)
        (SourceRotationOf Scenario.QuatMath Scenario.Events Scenario.Handle)
        Scenario.NearOverlapAgain
        (VisitedState Scenario.Cylinder false Scenario.QuatMath Scenario.Events
          Scenario.Handle [Scenario.NearOverlap] none) =
      VisitedState Scenario.Cylinder false Scenario.QuatMath Scenario.Events
        Scenario.Handle [Scenario.NearOverlap] none := by
  refine ⟨?_, ?_, ?_, ?_⟩
  · exact (hit_is_added_iff_accepted Scenario.Cylinder false Scenario.QuatMath
      Scenario.Events Scenario.Handle [] [] Scenario.NearOverlap none).2.1
      ⟨Scenario.NearActor, rfl, Or.inr Scenario.near_is_inside, by
        intro R hR
        cases hR⟩
  · apply (hit_is_added_iff_accepted Scenario.Cylinder false Scenario.QuatMath
      Scenario.Events Scenario.Handle [Scenario.NearOverlap] [] Scenario.NullOverlap none).2.2
    rintro ⟨A, hA, -, -⟩
    cases hA
  · apply (hit_is_added_iff_accepted Scenario.Cylinder false Scenario.QuatMath
      Scenario.Events Scenario.Handle [Scenario.NearOverlap] [] Scenario.FarOverlap none).2.2
    rintro ⟨A, hA, hin, -⟩
    have hAA : Scenario.FarActor = A := Option.some.inj hA
    subst hAA
    rcases hin with hne | hle
    · exact hne rfl
    · have hfar := Scenario.far_is_outside
      rw [show FFloat.Gt (UGraspTargetSelection.DistanceSquared
        Scenario.FarActor.ActorLocation (SourceLocationOf Scenario.Events Scenario.Handle))
        Scenario.Cylinder.RadiusSquared = false from hle] at hfar
      exact Bool.false_ne_true hfar
  · apply (hit_is_added_iff_accepted Scenario.Cylinder false Scenario.QuatMath
      Scenario.Events Scenario.Handle [Scenario.NearOverlap] []
      Scenario.NearOverlapAgain none).2.2
    rintro ⟨A, hA, -, hnew⟩
    have hAA : Scenario.NearActor = A := Option.some.inj hA
    subst hAA
    rw [Scenario.visited_after_near] at hnew
    exact hnew _ (List.mem_singleton.mpr rfl) Scenario.NearActor rfl rfl

theorem UGraspTargetSelection.ProcessOverlapResults_This (Sel : UGraspTargetSelection)
    (bWithEditor : Bool) (Quat : FQuatMath) (Events : FGraspSourceEvents)
    (H : FTargetingRequestHandle) (Overlaps : List FOverlapResult)
    (Store : Option FTargetingDefaultResultsSet) :
    (Sel.ProcessOverlapResults bWithEditor Quat Events H Overlaps Store).This =
      TaskInBuild Sel bWithEditor := by
  by_cases hne : Overlaps = []
  · subst hne
    rfl
  · rw [ProcessOverlapResults_of_ne_nil Sel bWithEditor Quat Events H hne Store]

/-- C19: every record added by `ProcessOverlapResults` comes from a hit of the overlap
list with a resolved actor and has `Location` and `ImpactPoint` equal to that actor's
location, `bBlockingHit` and `Item` copied from the hit, `Component` equal to the hit's
component, the hit's object handle, `TraceStart` equal to the source location plus the
source offset, `Normal` equal to the forward vector of the normalized product of source
rotation and rotation offset, and `Distance` equal to the `GraspAbilityRadius` of the task
object (which an editor build has updated first, and which is not computed from the
locations). -/
theorem added_records_copy_hit_and_source (Sel : UGraspTargetSelection)
    (bWithEditor : Bool) (Quat : FQuatMath) (Events : FGraspSourceEvents)
    (H : FTargetingRequestHandle) (Overlaps : List FOverlapResult)
    (Store : Option FTargetingDefaultResultsSet) :
    (Sel.ProcessOverlapResults bWithEditor Quat Events H Overlaps Store).This =
        (if bWithEditor then Sel.UpdateGraspAbilityRadius else Sel) ∧
    ∃ Added : List FTargetingDefaultResultData,
      ResultsOf (Sel.ProcessOverlapResults bWithEditor Quat Events H Overlaps Store).Store =
        ResultsOf Store ++ Added ∧
      ∀ R ∈ Added, ∃ O ∈ Overlaps, ∃ Actor, O.GetActor = some Actor ∧
        R.HitResult.Location = Actor.ActorLocation ∧
        R.HitResult.ImpactPoint = Actor.ActorLocation ∧
        R.HitResult.bBlockingHit = O.bBlockingHit ∧
        R.HitResult.Item = O.ItemIndex ∧
        R.HitResult.Component = O.GetComponent ∧
        R.HitResult.HitObjectHandle = O.OverlapObjectHandle ∧
        R.HitResult.TraceStart =
          (Events.GetSourceLocation H).add (Events.GetSourceOffset H) ∧
        R.HitResult.Normal = Quat.Vector (Quat.GetNormalized
          (Quat.Mul (Events.GetSourceRotation H) (Events.GetSourceRotationOffset H))) ∧
        R.HitResult.Distance =
          (Sel.ProcessOverlapResults bWithEditor Quat Events H Overlaps
            Store).This.GraspAbilityRadius := by
  refine ⟨Sel.ProcessOverlapResults_This bWithEditor Quat Events H Overlaps Store, ?_⟩
  obtain ⟨Acc, hsub, hall, hres, -⟩ :=
    Sel.ProcessOverlapResults_appends bWithEditor Quat Events H Overlaps Store
  refine ⟨_, hres, ?_⟩
  intro R hR
  obtain ⟨p, hp, rfl⟩ := List.mem_map.mp hR
  have hmem : p.1 ∈ Overlaps := hsub.subset (List.mem_map.mpr ⟨p, hp, rfl⟩)
  refine ⟨p.1, hmem, p.2, (hall p hp).1, rfl, rfl, rfl, rfl, rfl, rfl, rfl, rfl, ?_⟩
  rw [Sel.ProcessOverlapResults_This bWithEditor Quat Events H Overlaps Store]
  rfl

/-- C20: `ProcessOverlapResults` only appends.  The result list afterwards is the result
list before followed by the records of the accepted hits, a sublist of the overlap list
in overlap-list order, each with a resolved actor, and the returned count is the number
of appended records; for an empty overlap list it returns 0 and leaves what the request
maps to in the store of result sets as it is. -/
theorem process_overlaps_only_appends (Sel : UGraspTargetSelection)
    (bWithEditor : Bool) (Quat : FQuatMath) (Events : FGraspSourceEvents)
    (H : FTargetingRequestHandle) (Overlaps : List FOverlapResult)
    (Store : Option FTargetingDefaultResultsSet) :
    (∃ Accepted : List (FOverlapResult × AActor),
      (Accepted.map Prod.fst).Sublist Overlaps ∧
      (∀ p ∈ Accepted, p.1.GetActor = some p.2) ∧
      ResultsOf (Sel.ProcessOverlapResults bWithEditor Quat Events H Overlaps Store).Store =
        ResultsOf Store ++ Accepted.map (fun p =>
          (TaskInBuild Sel bWithEditor).NewResultData Quat (SourceLocationOf Events H)
            (SourceRotationOf Quat Events H) p.1 p.2) ∧
      (Sel.ProcessOverlapResults bWithEditor Quat Events H Overlaps Store).NumValidResults =
        ((Accepted.map (fun p =>
          (TaskInBuild Sel bWithEditor).NewResultData Quat (SourceLocationOf Events H)
            (SourceRotationOf Quat Events H) p.1 p.2)).length : Int)) ∧
    (Sel.ProcessOverlapResults bWithEditor Quat Events H [] Store).NumValidResults = 0 ∧
    (Sel.ProcessOverlapResults bWithEditor Quat Events H [] Store).Store = Store := by
  refine ⟨?_, rfl, rfl⟩
  obtain ⟨Acc, hsub, hall, hres, hnum⟩ :=
    Sel.ProcessOverlapResults_appends bWithEditor Quat Events H Overlaps Store
  exact ⟨Acc, hsub, fun p hp => (hall p hp).1, hres, by rw [hnum, List.length_map]⟩

/-! ## Fallbacks of the shape selection -/

theorem Scenario.alpha_saturated_one (Shape : EGraspTargetingShape) :
    UGraspTargetSelection.GetPawnMovementAlpha
      { MovementSelectionMode := EGraspMovementSelectionMode.Velocity, ShapeType := Shape }
      (Scenario.CharacterHandle Scenario.SaturatedMovement) = 1 := by
  rw [UGraspTargetSelection.GetPawnMovementAlpha_resolved _
    (Scenario.getPawn_characterHandle _) rfl rfl]
  norm_num [FMath.ClampFloat, FFloat.Quotient, FMath.Clamp, Scenario.SaturatedMovement]

/-- The character capsule without a resolved actor capsule is the lerped capsule. -/
theorem UGraspTargetSelection.GetCollisionShape_character_capsule_none
    (Sel : UGraspTargetSelection) (H : FTargetingRequestHandle)
    (hshape : Sel.ShapeType = EGraspTargetingShape.CharacterCapsule)
    (hcap : GetPawnCapsuleSize H = none) :
    Sel.GetCollisionShape H = FCollisionShape.MakeCapsule
      (FMath.Lerp Sel.Radius Sel.MaxRadius (Sel.GetPawnMovementAlpha H))
      (FMath.Lerp Sel.HalfHeight Sel.MaxHalfHeight (Sel.GetPawnMovementAlpha H)) := by
  unfold GetCollisionShape
  simp only [hshape, hcap]

/-- The character capsule on a resolved actor capsule is the scaled actor capsule. -/
theorem UGraspTargetSelection.GetCollisionShape_character_capsule_some
    (Sel : UGraspTargetSelection) (H : FTargetingRequestHandle) (r h : ℚ)
    (hshape : Sel.ShapeType = EGraspTargetingShape.CharacterCapsule)
    (hcap : GetPawnCapsuleSize H = some (r, h)) :
    Sel.GetCollisionShape H = FCollisionShape.MakeCapsule
      (r * FMath.Lerp Sel.RadiusScalar Sel.MaxRadiusScalar (Sel.GetPawnMovementAlpha H))
      (h * FMath.Lerp Sel.HalfHeightScalar Sel.MaxHalfHeightScalar
        (Sel.GetPawnMovementAlpha H)) := by
  unfold GetCollisionShape
  simp only [hshape, hcap]

/-- Without a pawn that is a character with a movement component the alpha is 0. -/
theorem UGraspTargetSelection.GetPawnMovementAlpha_of_no_pawn (Sel : UGraspTargetSelection)
    {H : FTargetingRequestHandle} (hP : GetPawnFromTargetingHandle H = none) :
    Sel.GetPawnMovementAlpha H = 0 := by
  unfold GetPawnMovementAlpha
  rw [hP]
  split <;> rfl

theorem UGraspTargetSelection.GetPawnMovementAlpha_of_no_character
    (Sel : UGraspTargetSelection) {H : FTargetingRequestHandle} {Pawn : APawn}
    (hP : GetPawnFromTargetingHandle H = some Pawn) (hC : Pawn.Character = none) :
    Sel.GetPawnMovementAlpha H = 0 := by
  unfold GetPawnMovementAlpha
  rw [hP]
  simp only [hC]
  split <;> rfl

theorem UGraspTargetSelection.GetPawnMovementAlpha_of_no_movement
    (Sel : UGraspTargetSelection) {H : FTargetingRequestHandle} {Pawn : APawn}
    {Character : ACharacter}
    (hP : GetPawnFromTargetingHandle H = some Pawn) (hC : Pawn.Character = some Character)
    (hM : Character.CharacterMovement = none) :
    Sel.GetPawnMovementAlpha H = 0 := by
  unfold GetPawnMovementAlpha
  rw [hP]
  simp only [hC, hM]
  split <;> rfl

/-- C21, as stated, fails: a Character without a capsule component but with a movement
component, moving at its maximum speed, in `Velocity` mode.  No actor capsule is
resolved, the alpha is 1, and the character capsule shape is the maximum capsule
(500, 600), not the base capsule (200, 200). -/
theorem character_capsule_fallback_counterexample :
    UGraspTargetSelection.GetPawnCapsuleSize
        (Scenario.CharacterHandle Scenario.SaturatedMovement) = none ∧
    UGraspTargetSelection.GetCollisionShape
        { MovementSelectionMode := EGraspMovementSelectionMode.Velocity,
          ShapeType := EGraspTargetingShape.CharacterCapsule }
        (Scenario.CharacterHandle Scenario.SaturatedMovement) =
      FCollisionShape.MakeCapsule 500 600 ∧
    ¬ (UGraspTargetSelection.GetCollisionShape
        { MovementSelectionMode := EGraspMovementSelectionMode.Velocity,
          ShapeType := EGraspTargetingShape.CharacterCapsule }
        (Scenario.CharacterHandle Scenario.SaturatedMovement) =
      FCollisionShape.MakeCapsule
        (UGraspTargetSelection.Radius
          { MovementSelectionMode := EGraspMovementSelectionMode.Velocity,
            ShapeType := EGraspTargetingShape.CharacterCapsule })
        (UGraspTargetSelection.HalfHeight
          { MovementSelectionMode := EGraspMovementSelectionMode.Velocity,
            ShapeType := EGraspTargetingShape.CharacterCapsule })) := by
  have hshape : UGraspTargetSelection.GetCollisionShape
      { MovementSelectionMode := EGraspMovementSelectionMode.Velocity,
        ShapeType := EGraspTargetingShape.CharacterCapsule }
      (Scenario.CharacterHandle Scenario.SaturatedMovement) =
      FCollisionShape.MakeCapsule 500 600 := by
    rw [UGraspTargetSelection.GetCollisionShape_character_capsule_none
      { MovementSelectionMode := EGraspMovementSelectionMode.Velocity,
        ShapeType := EGraspTargetingShape.CharacterCapsule }
      (Scenario.CharacterHandle Scenario.SaturatedMovement) rfl rfl,
      Scenario.alpha_saturated_one]
    norm_num [FMath.Lerp]
  refine ⟨rfl, hshape, ?_⟩
  rw [hshape]
  norm_num

/-- C21, amended: with `ShapeType = CharacterCapsule`, whenever no actor capsule is
resolved (`GetPawnCapsuleSize` returns false), `GetCollisionShape` returns the capsule of
radius `lerp(Radius, MaxRadius, alpha)` and half-height
`lerp(HalfHeight, MaxHalfHeight, alpha)`; this is exactly the base capsule
(`Radius`, `HalfHeight`) when the alpha is 0, which is so when the mode is `Disabled`,
when there is no pawn, and when the pawn is not a Character.  The function is total. -/
theorem character_capsule_fallback (Sel : UGraspTargetSelection)
    (H : FTargetingRequestHandle)
    (hshape : Sel.ShapeType = EGraspTargetingShape.CharacterCapsule)
    (hcap : UGraspTargetSelection.GetPawnCapsuleSize H = none) :
    Sel.GetCollisionShape H = FCollisionShape.MakeCapsule
        (SpecLerp Sel.Radius Sel.MaxRadius (Sel.GetPawnMovementAlpha H))
        (SpecLerp Sel.HalfHeight Sel.MaxHalfHeight (Sel.GetPawnMovementAlpha H)) ∧
    (Sel.GetPawnMovementAlpha H = 0 →
      Sel.GetCollisionShape H = FCollisionShape.MakeCapsule Sel.Radius Sel.HalfHeight) ∧
    (Sel.MovementSelectionMode = EGraspMovementSelectionMode.Disabled →
      Sel.GetCollisionShape H = FCollisionShape.MakeCapsule Sel.Radius Sel.HalfHeight) ∧
    (UGraspTargetSelection.GetPawnFromTargetingHandle H = none →
      Sel.GetCollisionShape H = FCollisionShape.MakeCapsule Sel.Radius Sel.HalfHeight) ∧
    (∀ Pawn, UGraspTargetSelection.GetPawnFromTargetingHandle H = some Pawn →
      Pawn.Character = none →
      Sel.GetCollisionShape H = FCollisionShape.MakeCapsule Sel.Radius Sel.HalfHeight) := by
  have hgen := Sel.GetCollisionShape_character_capsule_none H hshape hcap
  have hzero : Sel.GetPawnMovementAlpha H = 0 →
      Sel.GetCollisionShape H = FCollisionShape.MakeCapsule Sel.Radius Sel.HalfHeight := by
    intro h0
    rw [hgen, h0, FMath.Lerp_zero, FMath.Lerp_zero]
  refine ⟨?_, hzero, ?_, ?_, ?_⟩
  · rw [hgen, FMath.Lerp_eq_spec, FMath.Lerp_eq_spec]
  · intro hmode
    apply hzero
    unfold UGraspTargetSelection.GetPawnMovementAlpha
    rw [if_pos hmode]
  · intro hP
    exact hzero (Sel.GetPawnMovementAlpha_of_no_pawn hP)
  · intro Pawn hP hC
    exact hzero (Sel.GetPawnMovementAlpha_of_no_character hP hC)

/-- The amended C21 applied to the constructor's dimensions.  A Character without a
capsule component at speed 300 of 600 in `Velocity` mode gets the lerped capsule
(350, 400); the same kind of Character at maximum speed with the mode `Disabled`, a
source actor that is not a Pawn, and a Pawn that is not a Character get the base capsule
(200, 200) whatever the mode. -/
theorem character_capsule_fallback_witness :
    UGraspTargetSelection.GetCollisionShape
        { MovementSelectionMode := EGraspMovementSelectionMode.Velocity,
          ShapeType := EGraspTargetingShape.CharacterCapsule }
        (Scenario.CharacterHandle Scenario.Movement) = FCollisionShape.MakeCapsule 350 400 ∧
    UGraspTargetSelection.GetCollisionShape
        { ShapeType := EGraspTargetingShape.CharacterCapsule }
        (Scenario.CharacterHandle Scenario.SaturatedMovement) =
      FCollisionShape.MakeCapsule 200 200 ∧
    UGraspTargetSelection.GetCollisionShape
        { MovementSelectionMode := EGraspMovementSelectionMode.Velocity,
          ShapeType := EGraspTargetingShape.CharacterCapsule }
        Scenario.NotPawnHandle = FCollisionShape.MakeCapsule 200 200 ∧
    UGraspTargetSelection.GetCollisionShape
        { MovementSelectionMode := EGraspMovementSelectionMode.VelocityAndAcceleration,
          ShapeType := EGraspTargetingShape.CharacterCapsule }
        Scenario.PlainPawnHandle = FCollisionShape.MakeCapsule 200 200 ∧
    UGraspTargetSelection.GetCollisionShape
        { MovementSelectionMode := EGraspMovementSelectionMode.Acceleration,
          ShapeType := EGraspTargetingShape.CharacterCapsule }
        Scenario.InvalidHandle = FCollisionShape.MakeCapsule 200 200 := by
  refine ⟨?_, ?_, ?_, ?_, ?_⟩
  · rw [(character_capsule_fallback
      { MovementSelectionMode := EGraspMovementSelectionMode.Velocity,
        ShapeType := EGraspTargetingShape.CharacterCapsule }
      (Scenario.CharacterHandle Scenario.Movement) rfl rfl).1]
    have hα := Scenario.alpha_velocity_half
    simp only [UGraspTargetSelection.GetPawnMovementAlpha] at hα ⊢
    rw [hα]
    norm_num [SpecLerp]
  · exact (character_capsule_fallback
      { ShapeType := EGraspTargetingShape.CharacterCapsule }
      (Scenario.CharacterHandle Scenario.SaturatedMovement) rfl rfl).2.2.1 rfl
  · exact (character_capsule_fallback
      { MovementSelectionMode := EGraspMovementSelectionMode.Velocity,
        ShapeType := EGraspTargetingShape.CharacterCapsule }
      Scenario.NotPawnHandle rfl rfl).2.2.2.1 rfl
  · exact (character_capsule_fallback
      { MovementSelectionMode := EGraspMovementSelectionMode.VelocityAndAcceleration,
        ShapeType := EGraspTargetingShape.CharacterCapsule }
      Scenario.PlainPawnHandle rfl rfl).2.2.2.2 { Character := none } rfl rfl
  · exact (character_capsule_fallback
      { MovementSelectionMode := EGraspMovementSelectionMode.Acceleration,
        ShapeType := EGraspTargetingShape.CharacterCapsule }
      Scenario.InvalidHandle rfl rfl).2.1
      (UGraspTargetSelection.GetPawnMovementAlpha_of_no_pawn _ rfl)

/-- C24: with `ShapeType = CharacterCapsule` and a resolved actor capsule of scaled radius
`r` and half-height `h`, `GetCollisionShape` returns a capsule of radius
`r * lerp(RadiusScalar, MaxRadiusScalar, alpha)` and half-height
`h * lerp(HalfHeightScalar, MaxHalfHeightScalar, alpha)`; replacing the configured
`Radius`, `MaxRadius`, `HalfHeight` and `MaxHalfHeight` by any other values does not
change the result. -/
theorem character_capsule_scales_actor_capsule (Sel : UGraspTargetSelection)
    (H : FTargetingRequestHandle) (r h : ℚ)
    (NewRadius NewMaxRadius NewHalfHeight NewMaxHalfHeight : ℚ)
    (hshape : Sel.ShapeType = EGraspTargetingShape.CharacterCapsule)
    (hcap : UGraspTargetSelection.GetPawnCapsuleSize H = some (r, h)) :
    Sel.GetCollisionShape H = FCollisionShape.MakeCapsule
        (r * SpecLerp Sel.RadiusScalar Sel.MaxRadiusScalar (Sel.GetPawnMovementAlpha H))
        (h * SpecLerp Sel.HalfHeightScalar Sel.MaxHalfHeightScalar
          (Sel.GetPawnMovementAlpha H)) ∧
    UGraspTargetSelection.GetCollisionShape
        { Sel with Radius := NewRadius, MaxRadius := NewMaxRadius,
                   HalfHeight := NewHalfHeight, MaxHalfHeight := NewMaxHalfHeight } H =
      Sel.GetCollisionShape H := by
  constructor
  · rw [Sel.GetCollisionShape_character_capsule_some H r h hshape hcap,
      FMath.Lerp_eq_spec, FMath.Lerp_eq_spec]
  · rw [Sel.GetCollisionShape_character_capsule_some H r h hshape hcap]
    exact UGraspTargetSelection.GetCollisionShape_character_capsule_some
      { Sel with Radius := NewRadius, MaxRadius := NewMaxRadius,
                 HalfHeight := NewHalfHeight, MaxHalfHeight := NewMaxHalfHeight }
      H r h hshape hcap

/-- The statement of C24 applied to an actor capsule (34, 88) on a character at maximum
speed in `Velocity` mode (alpha 1), with the constructor's scalars (12 to 24, and 1 to
1): the shape is the capsule (34 * 24, 88 * 1), also with `Radius`, `MaxRadius`,
`HalfHeight` and `MaxHalfHeight` replaced by 1, 2, 3 and 4. -/
theorem character_capsule_scales_actor_capsule_witness :
    UGraspTargetSelection.GetCollisionShape
        { MovementSelectionMode := EGraspMovementSelectionMode.Velocity,
          ShapeType := EGraspTargetingShape.CharacterCapsule }
        Scenario.CapsuleCharacterHandle = FCollisionShape.MakeCapsule (34 * 24) (88 * 1) ∧
    UGraspTargetSelection.GetCollisionShape
        { MovementSelectionMode := EGraspMovementSelectionMode.Velocity,
          ShapeType := EGraspTargetingShape.CharacterCapsule,
          Radius := 1, MaxRadius := 2, HalfHeight := 3, MaxHalfHeight := 4 }
        Scenario.CapsuleCharacterHandle = FCollisionShape.MakeCapsule (34 * 24) (88 * 1) := by
  have h := character_capsule_scales_actor_capsule
    { MovementSelectionMode := EGraspMovementSelectionMode.Velocity,
      ShapeType := EGraspTargetingShape.CharacterCapsule }
    Scenario.CapsuleCharacterHandle 34 88 1 2 3 4 rfl rfl
  have h1 : UGraspTargetSelection.GetCollisionShape
      { MovementSelectionMode := EGraspMovementSelectionMode.Velocity,
        ShapeType := EGraspTargetingShape.CharacterCapsule }
      Scenario.CapsuleCharacterHandle = FCollisionShape.MakeCapsule (34 * 24) (88 * 1) := by
    rw [h.1, Scenario.alpha_capsule_character_one]
    norm_num [SpecLerp]
  exact ⟨h1, h.2.trans h1⟩

theorem UGraspTargetSelection.GetPawnMovementAlpha_of_unresolved (Sel : UGraspTargetSelection)
    {H : FTargetingRequestHandle} (hun : KinematicStateUnresolved H) :
    Sel.GetPawnMovementAlpha H = 0 := by
  rcases hun with hv | hc | ⟨Ctx, hc, ha⟩ | ⟨Ctx, A, hc, ha, hp⟩ | ⟨Pawn, hP, hC⟩ |
    ⟨Pawn, Ch, hP, hC, hM⟩
  · apply Sel.GetPawnMovementAlpha_of_no_pawn
    simp [GetPawnFromTargetingHandle, hv]
  · apply Sel.GetPawnMovementAlpha_of_no_pawn
    simp [GetPawnFromTargetingHandle, hc]
  · apply Sel.GetPawnMovementAlpha_of_no_pawn
    simp [GetPawnFromTargetingHandle, hc, ha]
  · apply Sel.GetPawnMovementAlpha_of_no_pawn
    simp [GetPawnFromTargetingHandle, hc, ha, hp]
  · exact Sel.GetPawnMovementAlpha_of_no_character hP hC
  · exact Sel.GetPawnMovementAlpha_of_no_movement hP hC hM

/-- C30: for every movement-selection mode, `GetPawnMovementAlpha` returns 0 whenever
the kinematic state cannot be resolved -- the handle is invalid, there is no source
context or source actor, the source actor is not a Pawn, the Pawn is not a Character, or
the Character has no movement component -- and `GetCollisionShape` then yields the base
dimensions for Box, Cylinder, Sphere and Capsule. -/
theorem unresolved_kinematics_give_base_shape (Sel : UGraspTargetSelection)
    (H : FTargetingRequestHandle) (hun : KinematicStateUnresolved H) :
    Sel.GetPawnMovementAlpha H = 0 ∧
    (Sel.ShapeType = EGraspTargetingShape.Box →
      Sel.GetCollisionShape H = FCollisionShape.MakeBox Sel.HalfExtent) ∧
    (Sel.ShapeType = EGraspTargetingShape.Cylinder →
      Sel.GetCollisionShape H = FCollisionShape.MakeBox Sel.HalfExtent) ∧
    (Sel.ShapeType = EGraspTargetingShape.Sphere →
      Sel.GetCollisionShape H = FCollisionShape.MakeSphere Sel.Radius) ∧
    (Sel.ShapeType = EGraspTargetingShape.Capsule →
      Sel.GetCollisionShape H = FCollisionShape.MakeCapsule Sel.Radius Sel.HalfHeight) := by
  have h0 := Sel.GetPawnMovementAlpha_of_unresolved hun
  refine ⟨h0, ?_, ?_, ?_, ?_⟩
  · intro hs
    simp only [UGraspTargetSelection.GetCollisionShape, hs, h0, FMath.LerpVector_zero]
  · intro hs
    simp only [UGraspTargetSelection.GetCollisionShape, hs, h0, FMath.LerpVector_zero]
  · intro hs
    simp only [UGraspTargetSelection.GetCollisionShape, hs, h0, FMath.Lerp_zero]
  · intro hs
    simp only [UGraspTargetSelection.GetCollisionShape, hs, h0, FMath.Lerp_zero]

/-- The statement of C30 applied to the constructor's dimensions in the modes that read
the kinematic state: an invalid handle of a character at maximum speed gives alpha 0 and
the base box (500, 380, 120); a handle without source context gives the base box for the
cylinder; a source actor that is not a Pawn gives the base sphere 200; a Pawn that is not
a Character gives the base capsule (200, 200). -/
theorem unresolved_kinematics_give_base_shape_witness :
    (UGraspTargetSelection.GetPawnMovementAlpha
        { MovementSelectionMode := EGraspMovementSelectionMode.Velocity,
          ShapeType := EGraspTargetingShape.Box } Scenario.InvalidHandle = 0 ∧
      UGraspTargetSelection.GetCollisionShape
        { MovementSelectionMode := EGraspMovementSelectionMode.Velocity,
          ShapeType := EGraspTargetingShape.Box } Scenario.InvalidHandle =
        FCollisionShape.MakeBox { X := 500, Y := 380, Z := 120 }) ∧
    UGraspTargetSelection.GetCollisionShape
        { MovementSelectionMode := EGraspMovementSelectionMode.Acceleration,
          ShapeType := EGraspTargetingShape.Cylinder } Scenario.NoContextHandle =
      FCollisionShape.MakeBox { X := 500, Y := 380, Z := 120 } ∧
    UGraspTargetSelection.GetCollisionShape
        { MovementSelectionMode := EGraspMovementSelectionMode.VelocityAndAcceleration,
          ShapeType := EGraspTargetingShape.Sphere } Scenario.NotPawnHandle =
      FCollisionShape.MakeSphere 200 ∧
    UGraspTargetSelection.GetCollisionShape
        { MovementSelectionMode := EGraspMovementSelectionMode.Velocity,
          ShapeType := EGraspTargetingShape.Capsule } Scenario.PlainPawnHandle =
      FCollisionShape.MakeCapsule 200 200 :=
  have h1 := unresolved_kinematics_give_base_shape
    { MovementSelectionMode := EGraspMovementSelectionMode.Velocity,
      ShapeType := EGraspTargetingShape.Box } Scenario.InvalidHandle (Or.inl rfl)
  have h2 := unresolved_kinematics_give_base_shape
    { MovementSelectionMode := EGraspMovementSelectionMode.Acceleration,
      ShapeType := EGraspTargetingShape.Cylinder } Scenario.NoContextHandle
    (Or.inr (Or.inl rfl))
  have h3 := unresolved_kinematics_give_base_shape
    { MovementSelectionMode := EGraspMovementSelectionMode.VelocityAndAcceleration,
      ShapeType := EGraspTargetingShape.Sphere } Scenario.NotPawnHandle
    (Or.inr (Or.inr (Or.inr (Or.inl ⟨_, _, rfl, rfl, rfl⟩))))
  have h4 := unresolved_kinematics_give_base_shape
    { MovementSelectionMode := EGraspMovementSelectionMode.Velocity,
      ShapeType := EGraspTargetingShape.Capsule } Scenario.PlainPawnHandle
    (Or.inr (Or.inr (Or.inr (Or.inr (Or.inl ⟨{ Character := none }, rfl, rfl⟩)))))
  ⟨⟨h1.1, h1.2.1 rfl⟩, h2.2.2.1 rfl, h3.2.2.2.1 rfl, h4.2.2.2.2 rfl⟩

/-! ## The halved alpha of the combined mode -/

theorem FMath.Clamp_zero_one_of_mem {x : ℚ} (h0 : 0 ≤ x) (h1 : x ≤ 1) :
    FMath.Clamp x 0 1 = x := by
  unfold FMath.Clamp
  rw [min_eq_left h1, max_eq_left h0]

theorem FMath.Lerp_eq_max_imp {A B α : ℚ} (hα : α ≤ 1 / 2) (h : FMath.Lerp A B α = B) :
    A = B := by
  unfold FMath.Lerp at h
  have hprod : (1 - α) * (B - A) = 0 := by linarith
  rcases mul_eq_zero.mp hprod with h1 | h1
  · linarith
  · linarith

theorem FMath.LerpVector_eq_max_imp {A B : FVector} {α : ℚ} (hα : α ≤ 1 / 2)
    (h : FMath.LerpVector A B α = B) : A = B := by
  cases A with
  | mk ax ay az =>
    cases B with
    | mk bx byy bz =>
      simp only [FMath.LerpVector, FVector.add, FVector.scale, FVector.sub,
        FVector.mk.injEq] at h ⊢
      exact ⟨FMath.Lerp_eq_max_imp hα h.1, FMath.Lerp_eq_max_imp hα h.2.1,
        FMath.Lerp_eq_max_imp hα h.2.2⟩

theorem FMath.scaled_Lerp_eq_max_imp {r A B α : ℚ} (hα : α ≤ 1 / 2)
    (h : r * FMath.Lerp A B α = r * B) : r * A = r * B := by
  unfold FMath.Lerp at h
  have hprod : (1 - α) * (r * (B - A)) = 0 := by linarith
  rcases mul_eq_zero.mp hprod with h1 | h1
  · linarith
  · linarith

/-- In the combined mode with bias in `[0, 1]` the alpha of a resolved character is half
the weighted average of the two clamped quotients. -/
theorem UGraspTargetSelection.GetPawnMovementAlpha_combined_half
    (Sel : UGraspTargetSelection) {H : FTargetingRequestHandle} {Pawn : APawn}
    {Character : ACharacter} {M : UCharacterMovementComponent}
    (hP : GetPawnFromTargetingHandle H = some Pawn)
    (hC : Pawn.Character = some Character)
    (hM : Character.CharacterMovement = some M)
    (hmode : Sel.MovementSelectionMode = EGraspMovementSelectionMode.VelocityAndAcceleration)
    (hb0 : 0 ≤ Sel.MovementSelectionAccelBias) (hb1 : Sel.MovementSelectionAccelBias ≤ 1) :
    Sel.GetPawnMovementAlpha H = (1 / 2) *
      (AccelBiasOf M * Sel.MovementSelectionAccelBias +
        VelBiasOf M * (1 - Sel.MovementSelectionAccelBias)) ∧
    0 ≤ AccelBiasOf M * Sel.MovementSelectionAccelBias +
        VelBiasOf M * (1 - Sel.MovementSelectionAccelBias) ∧
    AccelBiasOf M * Sel.MovementSelectionAccelBias +
        VelBiasOf M * (1 - Sel.MovementSelectionAccelBias) ≤ 1 := by
  obtain ⟨hA0, hA1⟩ : 0 ≤ AccelBiasOf M ∧ AccelBiasOf M ≤ 1 :=
    FMath.ClampFloat_zero_one_bounds _
  obtain ⟨hV0, hV1⟩ : 0 ≤ VelBiasOf M ∧ VelBiasOf M ≤ 1 :=
    FMath.ClampFloat_zero_one_bounds _
  have hvb : 0 ≤ 1 - Sel.MovementSelectionAccelBias := by linarith
  have h1 := mul_le_mul_of_nonneg_right hA1 hb0
  have h2 := mul_le_mul_of_nonneg_right hV1 hvb
  have h3 := mul_nonneg hA0 hb0
  have h4 := mul_nonneg hV0 hvb
  refine ⟨?_, by linarith, by linarith⟩
  rw [Sel.GetPawnMovementAlpha_combined hP hC hM hmode,
    FMath.Clamp_zero_one_of_mem (by linarith) (by linarith)]

/-- In the combined mode with bias in `[0, 1]` the alpha is at most 1/2 for every
handle. -/
theorem UGraspTargetSelection.GetPawnMovementAlpha_combined_le_half
    (Sel : UGraspTargetSelection) (H : FTargetingRequestHandle)
    (hmode : Sel.MovementSelectionMode = EGraspMovementSelectionMode.VelocityAndAcceleration)
    (hb0 : 0 ≤ Sel.MovementSelectionAccelBias) (hb1 : Sel.MovementSelectionAccelBias ≤ 1) :
    Sel.GetPawnMovementAlpha H ≤ 1 / 2 := by
  rcases hP : GetPawnFromTargetingHandle H with _ | Pawn
  · rw [Sel.GetPawnMovementAlpha_of_no_pawn hP]
    norm_num
  · rcases hC : Pawn.Character with _ | Character
    · rw [Sel.GetPawnMovementAlpha_of_no_character hP hC]
      norm_num
    · rcases hM : Character.CharacterMovement with _ | M
      · rw [Sel.GetPawnMovementAlpha_of_no_movement hP hC hM]
        norm_num
      · obtain ⟨hα, -, hle⟩ :=
          Sel.GetPawnMovementAlpha_combined_half hP hC hM hmode hb0 hb1
        rw [hα]
        linarith

/-- C27 describes the defect of C10, and not in full.  In `VelocityAndAcceleration` mode
with bias `b` in `[0, 1]` the code returns, on a resolved character, half of the
documented weighted average `clamp(b * A + (1 - b) * V, 0, 1)` of the clamped
acceleration quotient `A` and the clamped velocity quotient `V`.  Hence
`GetPawnMovementAlpha` never exceeds 1/2 and the shape resolved by `GetCollisionShape`
is never that of the maximum configuration when it differs from that of the base
configuration, where the documented alpha reaches 1.  The alpha is 1/2 exactly when
`A * b + V * (1 - b) = 1`, which holds when both quotients are saturated at 1 and, for
`0 < b < 1`, only then; at `b = 1` or `b = 0` one saturated quotient is enough. -/
theorem combined_alpha_at_most_half (Sel : UGraspTargetSelection)
    (H : FTargetingRequestHandle)
    (hmode : Sel.MovementSelectionMode = EGraspMovementSelectionMode.VelocityAndAcceleration)
    (hb0 : 0 ≤ Sel.MovementSelectionAccelBias) (hb1 : Sel.MovementSelectionAccelBias ≤ 1) :
    Sel.GetPawnMovementAlpha H ≤ 1 / 2 ∧
    (SpecMaxShape Sel H ≠ SpecBaseShape Sel H → Sel.GetCollisionShape H ≠ SpecMaxShape Sel H) ∧
    (∀ Pawn Character M,
      UGraspTargetSelection.GetPawnFromTargetingHandle H = some Pawn →
      Pawn.Character = some Character → Character.CharacterMovement = some M →
      Sel.GetPawnMovementAlpha H = (1 / 2) *
        SpecClamp01 (Sel.MovementSelectionAccelBias * AccelBiasOf M +
          (1 - Sel.MovementSelectionAccelBias) * VelBiasOf M) ∧
      (AccelBiasOf M = 1 ∧ VelBiasOf M = 1 → Sel.GetPawnMovementAlpha H = 1 / 2) ∧
      (Sel.GetPawnMovementAlpha H = 1 / 2 ↔
        AccelBiasOf M * Sel.MovementSelectionAccelBias +
          VelBiasOf M * (1 - Sel.MovementSelectionAccelBias) = 1) ∧
      (0 < Sel.MovementSelectionAccelBias → Sel.MovementSelectionAccelBias < 1 →
        Sel.GetPawnMovementAlpha H = 1 / 2 → AccelBiasOf M = 1 ∧ VelBiasOf M = 1) ∧
      (Sel.MovementSelectionAccelBias = 1 → AccelBiasOf M = 1 →
        Sel.GetPawnMovementAlpha H = 1 / 2) ∧
      (Sel.MovementSelectionAccelBias = 0 → VelBiasOf M = 1 →
        Sel.GetPawnMovementAlpha H = 1 / 2)) := by
  have hle := Sel.GetPawnMovementAlpha_combined_le_half H hmode hb0 hb1
  refine ⟨hle, ?_, ?_⟩
  · intro hne heq
    apply hne
    unfold UGraspTargetSelection.GetCollisionShape at heq
    unfold SpecMaxShape at heq ⊢
    unfold SpecBaseShape
    cases hs : Sel.ShapeType <;> simp only [hs] at heq ⊢
    · rw [FMath.LerpVector_eq_max_imp hle (FCollisionShape.MakeBox.inj heq)]
    · rw [FMath.LerpVector_eq_max_imp hle (FCollisionShape.MakeBox.inj heq)]
    · rw [FMath.Lerp_eq_max_imp hle (FCollisionShape.MakeSphere.inj heq)]
    · obtain ⟨h1, h2⟩ := FCollisionShape.MakeCapsule.inj heq
      rw [FMath.Lerp_eq_max_imp hle h1, FMath.Lerp_eq_max_imp hle h2]
    · rcases hcap : UGraspTargetSelection.GetPawnCapsuleSize H with _ | ⟨r, h⟩
      · simp only [hcap] at heq ⊢
        obtain ⟨h1, h2⟩ := FCollisionShape.MakeCapsule.inj heq
        rw [FMath.Lerp_eq_max_imp hle h1, FMath.Lerp_eq_max_imp hle h2]
      · simp only [hcap] at heq ⊢
        obtain ⟨h1, h2⟩ := FCollisionShape.MakeCapsule.inj heq
        rw [FMath.scaled_Lerp_eq_max_imp hle h1, FMath.scaled_Lerp_eq_max_imp hle h2]
  · intro Pawn Character M hP hC hM
    obtain ⟨hA0, hA1⟩ : 0 ≤ AccelBiasOf M ∧ AccelBiasOf M ≤ 1 :=
      FMath.ClampFloat_zero_one_bounds _
    obtain ⟨hV0, hV1⟩ : 0 ≤ VelBiasOf M ∧ VelBiasOf M ≤ 1 :=
      FMath.ClampFloat_zero_one_bounds _
    obtain ⟨hα, hW0, hW1⟩ := Sel.GetPawnMovementAlpha_combined_half hP hC hM hmode hb0 hb1
    have hiff : Sel.GetPawnMovementAlpha H = 1 / 2 ↔
        AccelBiasOf M * Sel.MovementSelectionAccelBias +
          VelBiasOf M * (1 - Sel.MovementSelectionAccelBias) = 1 := by
      rw [hα]
      constructor <;> intro h <;> linarith
    refine ⟨?_, ?_, hiff, ?_, ?_, ?_⟩
    · rw [hα, ← FMath.Clamp_zero_one_eq_spec,
        FMath.Clamp_zero_one_of_mem (by linarith) (by linarith)]
      ring
    · rintro ⟨hA, hV⟩
      rw [hiff, hA, hV]
      ring
    · intro hbpos hblt hhalf
      have hsum := hiff.mp hhalf
      have hvbpos : 0 < 1 - Sel.MovementSelectionAccelBias := by linarith
      have hA : AccelBiasOf M = 1 := by
        by_contra hne
        have hlt : AccelBiasOf M < 1 := lt_of_le_of_ne hA1 hne
        have := mul_lt_mul_of_pos_right hlt hbpos
        have := mul_le_mul_of_nonneg_right hV1 hvbpos.le
        linarith
      have hV : VelBiasOf M = 1 := by
        by_contra hne
        have hlt : VelBiasOf M < 1 := lt_of_le_of_ne hV1 hne
        have := mul_lt_mul_of_pos_right hlt hvbpos
        have := mul_le_mul_of_nonneg_right hA1 hb0
        linarith
      exact ⟨hA, hV⟩
    · intro hb hA
      rw [hiff, hb, hA]
      ring
    · intro hb hV
      rw [hiff, hb, hV]
      ring

theorem Scenario.saturated_ratios :
    AccelBiasOf Scenario.SaturatedMovement = 1 ∧ VelBiasOf Scenario.SaturatedMovement = 1 := by
  constructor <;>
    norm_num [AccelBiasOf, VelBiasOf, FMath.ClampFloat, FFloat.Quotient, FMath.Clamp,
      SelectedSpeed, Scenario.SaturatedMovement]

/-- The statement on C27 applied to the failing input of C10 and to a saturated
character.  With bias 1 and a character standing still at its maximum acceleration the
alpha is 1/2 although the velocity quotient is 0, where the documented weighted average
is 1; with bias 1/2 on a box and a character at maximum speed and maximum acceleration
the alpha is 1/2 and not more, and the box, whose maximum extent (1000, 760, 240) differs
from the base extent, is not the maximum box. -/
theorem combined_alpha_at_most_half_witness :
    (UGraspTargetSelection.GetPawnMovementAlpha
        { MovementSelectionMode := EGraspMovementSelectionMode.VelocityAndAcceleration,
          MovementSelectionAccelBias := 1 }
        (Scenario.CharacterHandle Scenario.FullAccelMovement) = 1 / 2 ∧
      VelBiasOf Scenario.FullAccelMovement = 0 ∧
      SpecClamp01 (1 * AccelBiasOf Scenario.FullAccelMovement +
        (1 - 1) * VelBiasOf Scenario.FullAccelMovement) = 1) ∧
    UGraspTargetSelection.GetPawnMovementAlpha
        { MovementSelectionMode := EGraspMovementSelectionMode.VelocityAndAcceleration,
          MovementSelectionAccelBias := 1 / 2, ShapeType := EGraspTargetingShape.Box }
        (Scenario.CharacterHandle Scenario.SaturatedMovement) = 1 / 2 ∧
    UGraspTargetSelection.GetPawnMovementAlpha
        { MovementSelectionMode := EGraspMovementSelectionMode.VelocityAndAcceleration,
          MovementSelectionAccelBias := 1 / 2, ShapeType := EGraspTargetingShape.Box }
        (Scenario.CharacterHandle Scenario.SaturatedMovement) ≤ 1 / 2 ∧
    (AccelBiasOf Scenario.SaturatedMovement = 1 ∧ VelBiasOf Scenario.SaturatedMovement = 1) ∧
    UGraspTargetSelection.GetCollisionShape
        { MovementSelectionMode := EGraspMovementSelectionMode.VelocityAndAcceleration,
          MovementSelectionAccelBias := 1 / 2, ShapeType := EGraspTargetingShape.Box }
        (Scenario.CharacterHandle Scenario.SaturatedMovement) ≠
      FCollisionShape.MakeBox { X := 1000, Y := 760, Z := 240 } :=
  have hfull : AccelBiasOf Scenario.FullAccelMovement = 1 := by
    norm_num [AccelBiasOf, FMath.ClampFloat, FFloat.Quotient, FMath.Clamp,
      Scenario.FullAccelMovement]
  have hvel : VelBiasOf Scenario.FullAccelMovement = 0 := by
    norm_num [VelBiasOf, FMath.ClampFloat, FFloat.Quotient, FMath.Clamp, SelectedSpeed,
      Scenario.FullAccelMovement]
  have hone := (combined_alpha_at_most_half
    { MovementSelectionMode := EGraspMovementSelectionMode.VelocityAndAcceleration,
      MovementSelectionAccelBias := 1 }
    (Scenario.CharacterHandle Scenario.FullAccelMovement) rfl (by norm_num)
    (by norm_num)).2.2 _ _ Scenario.FullAccelMovement
    (Scenario.getPawn_characterHandle Scenario.FullAccelMovement) rfl rfl
  have h := combined_alpha_at_most_half
    { MovementSelectionMode := EGraspMovementSelectionMode.VelocityAndAcceleration,
      MovementSelectionAccelBias := 1 / 2, ShapeType := EGraspTargetingShape.Box }
    (Scenario.CharacterHandle Scenario.SaturatedMovement) rfl (by norm_num) (by norm_num)
  have hres := h.2.2 _ _ Scenario.SaturatedMovement
    (Scenario.getPawn_characterHandle Scenario.SaturatedMovement) rfl rfl
  have hhalf := hres.2.1 Scenario.saturated_ratios
  ⟨⟨hone.2.2.2.2.1 rfl hfull, hvel, by
      rw [hfull, hvel]
      norm_num [SpecClamp01]⟩,
    hhalf, h.1, hres.2.2.2.1 (by norm_num) (by norm_num) hhalf,
    h.2.1 (by
      simp only [SpecMaxShape, SpecBaseShape, ne_eq, FCollisionShape.MakeBox.injEq,
        FVector.mk.injEq]
      norm_num)⟩

/-! ## Repeated and varied runs of the overlap processing -/

/-- A hit that is not accepted against a result list is not accepted against a longer
one. -/
theorem HitAccepted_of_append {This : UGraspTargetSelection} {SourceLocation : FVector}
    {O : FOverlapResult} {Results Extra : List FTargetingDefaultResultData}
    (hacc : HitAccepted This SourceLocation O (Results ++ Extra)) :
    HitAccepted This SourceLocation O Results := by
  obtain ⟨A, hA, hshape, hnew⟩ := hacc
  exact ⟨A, hA, hshape, fun R hR => hnew R (List.mem_append_left _ hR)⟩

/-- Once the record of a hit is in the result list, the hit is not accepted again. -/
theorem not_HitAccepted_of_recorded (This That : UGraspTargetSelection) (Quat : FQuatMath)
    (SourceLocation Loc : FVector) (SourceRotation : FQuat) (O : FOverlapResult)
    (A : AActor) (hA : O.GetActor = some A)
    (Before After : List FTargetingDefaultResultData) :
    ¬ HitAccepted This SourceLocation O
      (Before ++ [That.NewResultData Quat Loc SourceRotation O A] ++ After) := by
  rintro ⟨A', hA', -, hnew⟩
  have hAA : A' = A := Option.some.inj (hA'.symm.trans hA)
  subst hAA
  exact hnew (That.NewResultData Quat Loc SourceRotation O A')
    (List.mem_append_left _ (List.mem_append_right _ (List.mem_singleton.mpr rfl)))
    A' hA rfl

/-- After the outer loop no hit of the overlap list is accepted against the result list
the loop produced. -/
theorem UGraspTargetSelection.OverlapLoop_saturates (This : UGraspTargetSelection)
    (Quat : FQuatMath) (SourceLocation : FVector) (SourceRotation : FQuat) :
    ∀ (Overlaps : List FOverlapResult) (State : Int × List FTargetingDefaultResultData),
      ∀ O ∈ Overlaps, ¬ HitAccepted This SourceLocation O
        (This.OverlapLoop Quat SourceLocation SourceRotation Overlaps State).2 := by
  intro Overlaps
  induction Overlaps with
  | nil => intro State O hO; cases hO
  | cons O' Rest ih =>
    intro State O hO
    rcases List.mem_cons.mp hO with hO | hO
    · subst hO
      obtain ⟨Acc, -, -, hloop⟩ := This.OverlapLoop_appends Quat SourceLocation SourceRotation
        Rest (This.ProcessOverlap Quat SourceLocation SourceRotation O State)
      show ¬ HitAccepted This SourceLocation O
        (This.OverlapLoop Quat SourceLocation SourceRotation Rest
          (This.ProcessOverlap Quat SourceLocation SourceRotation O State)).2
      rw [hloop]
      by_cases hacc : HitAccepted This SourceLocation O State.2
      · obtain ⟨A, hA, hstep⟩ :=
          This.ProcessOverlap_of_accepted Quat SourceLocation SourceRotation O State hacc
        rw [hstep]
        exact not_HitAccepted_of_recorded This This Quat SourceLocation SourceLocation
          SourceRotation O A hA State.2 _
      · rw [This.ProcessOverlap_of_not_accepted Quat SourceLocation SourceRotation O State
          hacc]
        exact fun h => hacc (HitAccepted_of_append h)
    · exact ih _ O hO

/-- The outer loop over hits none of which is accepted leaves the state as it is. -/
theorem UGraspTargetSelection.OverlapLoop_of_none_accepted (This : UGraspTargetSelection)
    (Quat : FQuatMath) (SourceLocation : FVector) (SourceRotation : FQuat) :
    ∀ (Overlaps : List FOverlapResult) (State : Int × List FTargetingDefaultResultData),
      (∀ O ∈ Overlaps, ¬ HitAccepted This SourceLocation O State.2) →
      This.OverlapLoop Quat SourceLocation SourceRotation Overlaps State = State := by
  intro Overlaps
  induction Overlaps with
  | nil => intro State _; rfl
  | cons O Rest ih =>
    intro State hall
    show This.OverlapLoop Quat SourceLocation SourceRotation Rest
      (This.ProcessOverlap Quat SourceLocation SourceRotation O State) = State
    rw [This.ProcessOverlap_of_not_accepted Quat SourceLocation SourceRotation O State
      (hall O (List.mem_cons_self _ _))]
    exact ih State (fun O' hO' => hall O' (List.mem_cons_of_mem _ hO'))

/-- A second call on the store that a first call left, by a task object with the same
shape kind and half-extent, adds nothing. -/
theorem UGraspTargetSelection.ProcessOverlapResults_again (Sel Again : UGraspTargetSelection)
    (bWithEditor : Bool) (Quat : FQuatMath) (Events : FGraspSourceEvents)
    (H : FTargetingRequestHandle) (Overlaps : List FOverlapResult)
    (Store : Option FTargetingDefaultResultsSet)
    (hshape : Again.ShapeType = Sel.ShapeType) (hext : Again.HalfExtent = Sel.HalfExtent) :
    (Again.ProcessOverlapResults bWithEditor Quat Events H Overlaps
        (Sel.ProcessOverlapResults bWithEditor Quat Events H Overlaps Store).Store).NumValidResults
        = 0 ∧
      (Again.ProcessOverlapResults bWithEditor Quat Events H Overlaps
        (Sel.ProcessOverlapResults bWithEditor Quat Events H Overlaps Store).Store).Store =
        (Sel.ProcessOverlapResults bWithEditor Quat Events H Overlaps Store).Store := by
  by_cases hne : Overlaps = []
  · subst hne
    exact ⟨rfl, rfl⟩
  · rw [ProcessOverlapResults_of_ne_nil Sel bWithEditor Quat Events H hne Store,
      ProcessOverlapResults_of_ne_nil Again bWithEditor Quat Events H hne]
    have hsat := (TaskInBuild Sel bWithEditor).OverlapLoop_saturates Quat
      (SourceLocationOf Events H) (SourceRotationOf Quat Events H) Overlaps (0, ResultsOf Store)
    have hnone : ∀ O ∈ Overlaps, ¬ HitAccepted (TaskInBuild Again bWithEditor)
        (SourceLocationOf Events H) O
        ((0 : Int), ((TaskInBuild Sel bWithEditor).OverlapLoop Quat (SourceLocationOf Events H)
          (SourceRotationOf Quat Events H) Overlaps (0, ResultsOf Store)).2).2 := by
      intro O hO hacc
      apply hsat O hO
      rw [HitAccepted_TaskInBuild_iff] at hacc ⊢
      unfold HitAccepted PassesCylinderTest UGraspTargetSelection.RadiusSquared at hacc ⊢
      rw [hshape, hext] at hacc
      exact hacc
    have hloop := (TaskInBuild Again bWithEditor).OverlapLoop_of_none_accepted Quat
      (SourceLocationOf Events H) (SourceRotationOf Quat Events H) Overlaps _ hnone
    simp only [ResultsOf, FTargetingDefaultResultsSet.FindOrAdd] at hloop ⊢
    rw [hloop]
    exact ⟨rfl, rfl⟩

/-- C29: `ProcessOverlapResults` is idempotent on a request.  For every overlap list and
initial result set, a second run with the same overlap list, source transform and
configuration -- by the task object as the first run left it, or by the task object as
it was -- returns 0 and leaves the result set exactly as the first run left it. -/
theorem process_overlaps_idempotent (Sel : UGraspTargetSelection)
    (bWithEditor : Bool) (Quat : FQuatMath) (Events : FGraspSourceEvents)
    (H : FTargetingRequestHandle) (Overlaps : List FOverlapResult)
    (Store : Option FTargetingDefaultResultsSet) :
    ((UGraspTargetSelection.ProcessOverlapResults
          (Sel.ProcessOverlapResults bWithEditor Quat Events H Overlaps Store).This
          bWithEditor Quat Events H Overlaps
          (Sel.ProcessOverlapResults bWithEditor Quat Events H Overlaps Store).Store
        ).NumValidResults = 0 ∧
      (UGraspTargetSelection.ProcessOverlapResults
          (Sel.ProcessOverlapResults bWithEditor Quat Events H Overlaps Store).This
          bWithEditor Quat Events H Overlaps
          (Sel.ProcessOverlapResults bWithEditor Quat Events H Overlaps Store).Store
        ).Store =
        (Sel.ProcessOverlapResults bWithEditor Quat Events H Overlaps Store).Store) ∧
    ((Sel.ProcessOverlapResults bWithEditor Quat Events H Overlaps
        (Sel.ProcessOverlapResults bWithEditor Quat Events H Overlaps Store).Store
        ).NumValidResults = 0 ∧
      (Sel.ProcessOverlapResults bWithEditor Quat Events H Overlaps
        (Sel.ProcessOverlapResults bWithEditor Quat Events H Overlaps Store).Store).Store =
        (Sel.ProcessOverlapResults bWithEditor Quat Events H Overlaps Store).Store) := by
  constructor
  · rw [Sel.ProcessOverlapResults_This bWithEditor Quat Events H Overlaps Store]
    exact Sel.ProcessOverlapResults_again (TaskInBuild Sel bWithEditor) bWithEditor Quat
      Events H Overlaps Store (TaskInBuild_ShapeType Sel bWithEditor)
      (TaskInBuild_HalfExtent Sel bWithEditor)
  · exact Sel.ProcessOverlapResults_again Sel bWithEditor Quat Events H Overlaps Store rfl rfl

/-- Acceptance of a hit reads the task object through its shape kind and `HalfExtent.X`
and the result list through the actors of its records. -/
theorem HitAccepted_congr {This1 This2 : UGraspTargetSelection} {SourceLocation : FVector}
    {O : FOverlapResult} {Results1 Results2 : List FTargetingDefaultResultData}
    (hshape : This1.ShapeType = This2.ShapeType)
    (hX : This1.HalfExtent.X = This2.HalfExtent.X)
    (hactors : Results1.map (fun R => R.HitResult.GetActor) =
      Results2.map (fun R => R.HitResult.GetActor))
    (hacc : HitAccepted This1 SourceLocation O Results1) :
    HitAccepted This2 SourceLocation O Results2 := by
  obtain ⟨A, hA, hin, hnew⟩ := hacc
  refine ⟨A, hA, ?_, ?_⟩
  · unfold PassesCylinderTest UGraspTargetSelection.RadiusSquared at hin ⊢
    rw [← hshape, ← hX]
    exact hin
  · intro R hR Other hOther
    have hmem : R.HitResult.GetActor ∈ Results2.map (fun R => R.HitResult.GetActor) :=
      List.mem_map.mpr ⟨R, hR, rfl⟩
    rw [← hactors] at hmem
    obtain ⟨R', hR', hRR⟩ := List.mem_map.mp hmem
    exact hnew R' hR' Other (hRR.trans hOther)

/-- Two runs of the outer loop by task objects of the same shape kind and `HalfExtent.X`,
from result lists with the same actors, accept the same hits. -/
theorem UGraspTargetSelection.OverlapLoop_same_accepted (This1 This2 : UGraspTargetSelection)
    (Quat : FQuatMath) (SourceLocation : FVector) (Rot1 Rot2 : FQuat)
    (hshape : This1.ShapeType = This2.ShapeType)
    (hX : This1.HalfExtent.X = This2.HalfExtent.X) :
    ∀ (Overlaps : List FOverlapResult)
      (State1 State2 : Int × List FTargetingDefaultResultData),
      State1.2.map (fun R => R.HitResult.GetActor) =
        State2.2.map (fun R => R.HitResult.GetActor) →
      ∃ Accepted : List (FOverlapResult × AActor),
        (Accepted.map Prod.fst).Sublist Overlaps ∧
        (∀ p ∈ Accepted, p.1.GetActor = some p.2 ∧
          (This1.ShapeType = EGraspTargetingShape.Cylinder →
            PassesCylinderTest This1 SourceLocation p.2.ActorLocation)) ∧
        This1.OverlapLoop Quat SourceLocation Rot1 Overlaps State1 =
          (State1.1 + (Accepted.length : Int),
            State1.2 ++ Accepted.map (fun p =>
              This1.NewResultData Quat SourceLocation Rot1 p.1 p.2)) ∧
        This2.OverlapLoop Quat SourceLocation Rot2 Overlaps State2 =
          (State2.1 + (Accepted.length : Int),
            State2.2 ++ Accepted.map (fun p =>
              This2.NewResultData Quat SourceLocation Rot2 p.1 p.2)) := by
  intro Overlaps
  induction Overlaps with
  | nil =>
    intro State1 State2 _
    exact ⟨[], List.Sublist.slnil, by simp, by simp [OverlapLoop], by simp [OverlapLoop]⟩
  | cons O Rest ih =>
    intro State1 State2 hactors
    by_cases hacc : HitAccepted This1 SourceLocation O State1.2
    · have hacc2 : HitAccepted This2 SourceLocation O State2.2 :=
        HitAccepted_congr hshape hX hactors hacc
      obtain ⟨A, hA, hstep1⟩ :=
        This1.ProcessOverlap_of_accepted Quat SourceLocation Rot1 O State1 hacc
      obtain ⟨A2, hA2, hstep2⟩ :=
        This2.ProcessOverlap_of_accepted Quat SourceLocation Rot2 O State2 hacc2
      have hAA : A2 = A := Option.some.inj (hA2.symm.trans hA)
      subst hAA
      have hactors' : (State1.2 ++ [This1.NewResultData Quat SourceLocation Rot1 O A2]).map
          (fun R => R.HitResult.GetActor) =
          (State2.2 ++ [This2.NewResultData Quat SourceLocation Rot2 O A2]).map
            (fun R => R.HitResult.GetActor) := by
        rw [List.map_append, List.map_append, hactors]
        rfl
      obtain ⟨Acc, hsub, hall, hloop1, hloop2⟩ := ih
        (State1.1 + 1, State1.2 ++ [This1.NewResultData Quat SourceLocation Rot1 O A2])
        (State2.1 + 1, State2.2 ++ [This2.NewResultData Quat SourceLocation Rot2 O A2])
        hactors'
      refine ⟨(O, A2) :: Acc, ?_, ?_, ?_, ?_⟩
      · simpa using hsub.cons₂ O
      · intro p hp
        rcases List.mem_cons.mp hp with hp | hp
        · subst hp
          refine ⟨hA, fun hs => ?_⟩
          obtain ⟨A', hA', hin, -⟩ := hacc
          have hAA' : A' = A2 := Option.some.inj (hA'.symm.trans hA)
          subst hAA'
          rcases hin with hne | hle
          · exact absurd hs hne
          · exact hle
        · exact hall p hp
      · simp only [OverlapLoop, hstep1, hloop1, List.length_cons, List.map_cons,
          List.append_assoc, List.singleton_append, Nat.cast_add, Nat.cast_one]
        congr 1
        ring
      · simp only [OverlapLoop, hstep2, hloop2, List.length_cons, List.map_cons,
          List.append_assoc, List.singleton_append, Nat.cast_add, Nat.cast_one]
        congr 1
        ring
    · have hacc2 : ¬ HitAccepted This2 SourceLocation O State2.2 :=
        fun h => hacc (HitAccepted_congr hshape.symm hX.symm hactors.symm h)
      have hstep1 :=
        This1.ProcessOverlap_of_not_accepted Quat SourceLocation Rot1 O State1 hacc
      have hstep2 :=
        This2.ProcessOverlap_of_not_accepted Quat SourceLocation Rot2 O State2 hacc2
      obtain ⟨Acc, hsub, hall, hloop1, hloop2⟩ := ih State1 State2 hactors
      refine ⟨Acc, hsub.cons O, hall, ?_, ?_⟩
      · simp only [OverlapLoop, hstep1, hloop1]
      · simp only [OverlapLoop, hstep2, hloop2]

/-- C28, as stated, fails in its conclusion: two cylinders of radius `HalfExtent.X = 500`,
one with its overlap box enlarged to the maximum half-extent (1000, 760, 240) by a
character at maximum speed, the other with movement selection `Disabled`, both accept a
hit whose actor is `500 + 2^-18` units from the source in the plane, a planar distance
greater than `HalfExtent.X`. -/
theorem cylinder_accepts_hit_beyond_base_radius_counterexample :
    UGraspTargetSelection.GetCollisionShape Scenario.Cylinder
        (Scenario.CharacterHandle Scenario.SaturatedMovement) =
      FCollisionShape.MakeBox { X := 1000, Y := 760, Z := 240 } ∧
    SpecDistSquared2D Scenario.RimActor.ActorLocation
        (SourceLocationOf Scenario.Events
          (Scenario.CharacterHandle Scenario.SaturatedMovement)) >
      Scenario.Cylinder.HalfExtent.X * Scenario.Cylinder.HalfExtent.X ∧
    (ResultsOf (Scenario.Cylinder.ProcessOverlapResults false Scenario.QuatMath
      Scenario.Events (Scenario.CharacterHandle Scenario.SaturatedMovement)
      [Scenario.RimOverlap] none).Store).map
        (fun R => R.HitResult.Location) = [Scenario.RimActor.ActorLocation] ∧
    (ResultsOf (Scenario.OtherCylinder.ProcessOverlapResults false Scenario.QuatMath
      Scenario.Events Scenario.Handle [Scenario.RimOverlap] none).Store).map
        (fun R => R.HitResult.Location) = [Scenario.RimActor.ActorLocation] := by
  refine ⟨?_, ?_, by decide!, by decide!⟩
  · have hα := Scenario.alpha_saturated_one EGraspTargetingShape.Cylinder
    simp only [UGraspTargetSelection.GetCollisionShape, Scenario.Cylinder, hα,
      FMath.LerpVector_one]
  · norm_num [SpecDistSquared2D, Scenario.RimActor, SourceLocationOf, Scenario.Events,
      FVector.add, Scenario.Cylinder]

/-- C28, amended: for `ShapeType = Cylinder` the radial acceptance test of
`ProcessOverlapResults` depends only on the base `HalfExtent.X`.  Two runs on the same
overlap list and result set, with the same source location, by cylinders with the same
`HalfExtent.X` -- whatever their `MaxHalfExtent`, movement-selection mode, bias and the
kinematic state of their handles -- accept exactly the same hits, append the records of
those hits and return the same count; and a hit whose squared planar distance, computed
in `double` and stored in a `float`, exceeds `HalfExtent.X` squared stored in a `float`
is rejected, however far the overlap box was enlarged. -/
theorem cylinder_acceptance_reads_base_radius_only (Sel1 Sel2 : UGraspTargetSelection)
    (bWithEditor : Bool) (Quat : FQuatMath) (Events : FGraspSourceEvents)
    (H1 H2 : FTargetingRequestHandle) (Overlaps : List FOverlapResult)
    (Store : Option FTargetingDefaultResultsSet)
    (hs1 : Sel1.ShapeType = EGraspTargetingShape.Cylinder)
    (hs2 : Sel2.ShapeType = EGraspTargetingShape.Cylinder)
    (hX : Sel1.HalfExtent.X = Sel2.HalfExtent.X)
    (hLoc : SourceLocationOf Events H1 = SourceLocationOf Events H2) :
    ∃ Accepted : List (FOverlapResult × AActor),
      (Accepted.map Prod.fst).Sublist Overlaps ∧
      (∀ p ∈ Accepted, p.1.GetActor = some p.2 ∧
        FFloat.Gt (UGraspTargetSelection.DistanceSquared p.2.ActorLocation
          (SourceLocationOf Events H1)) Sel1.RadiusSquared = false) ∧
      ResultsOf (Sel1.ProcessOverlapResults bWithEditor Quat Events H1 Overlaps Store).Store =
        ResultsOf Store ++ Accepted.map (fun p =>
          (TaskInBuild Sel1 bWithEditor).NewResultData Quat (SourceLocationOf Events H1)
            (SourceRotationOf Quat Events H1) p.1 p.2) ∧
      ResultsOf (Sel2.ProcessOverlapResults bWithEditor Quat Events H2 Overlaps Store).Store =
        ResultsOf Store ++ Accepted.map (fun p =>
          (TaskInBuild Sel2 bWithEditor).NewResultData Quat (SourceLocationOf Events H2)
            (SourceRotationOf Quat Events H2) p.1 p.2) ∧
      (Sel1.ProcessOverlapResults bWithEditor Quat Events H1 Overlaps Store).NumValidResults =
        (Accepted.length : Int) ∧
      (Sel2.ProcessOverlapResults bWithEditor Quat Events H2 Overlaps Store).NumValidResults =
        (Accepted.length : Int) := by
  by_cases hne : Overlaps = []
  · subst hne
    refine ⟨[], List.Sublist.slnil, by simp, ?_, ?_, ?_, ?_⟩ <;>
      rw [UGraspTargetSelection.ProcessOverlapResults_nil] <;> simp
  · have hshape : (TaskInBuild Sel1 bWithEditor).ShapeType =
        (TaskInBuild Sel2 bWithEditor).ShapeType := by
      rw [TaskInBuild_ShapeType, TaskInBuild_ShapeType, hs1, hs2]
    have hX' : (TaskInBuild Sel1 bWithEditor).HalfExtent.X =
        (TaskInBuild Sel2 bWithEditor).HalfExtent.X := by
      rw [TaskInBuild_HalfExtent, TaskInBuild_HalfExtent, hX]
    obtain ⟨Acc, hsub, hall, hloop1, hloop2⟩ :=
      UGraspTargetSelection.OverlapLoop_same_accepted (TaskInBuild Sel1 bWithEditor)
        (TaskInBuild Sel2 bWithEditor) Quat (SourceLocationOf Events H1)
        (SourceRotationOf Quat Events H1) (SourceRotationOf Quat Events H2) hshape hX'
        Overlaps (0, ResultsOf Store) (0, ResultsOf Store) rfl
    refine ⟨Acc, hsub, ?_, ?_, ?_, ?_, ?_⟩
    · intro p hp
      obtain ⟨h1, h2⟩ := hall p hp
      unfold PassesCylinderTest UGraspTargetSelection.RadiusSquared at h2
      rw [TaskInBuild_ShapeType, TaskInBuild_HalfExtent] at h2
      exact ⟨h1, h2 hs1⟩
    · rw [UGraspTargetSelection.ProcessOverlapResults_of_ne_nil Sel1 bWithEditor Quat Events
        H1 hne Store, hloop1]
      rfl
    · rw [UGraspTargetSelection.ProcessOverlapResults_of_ne_nil Sel2 bWithEditor Quat Events
        H2 hne Store, ← hLoc, hloop2]
      rfl
    · rw [UGraspTargetSelection.ProcessOverlapResults_of_ne_nil Sel1 bWithEditor Quat Events
        H1 hne Store, hloop1]
      simp
    · rw [UGraspTargetSelection.ProcessOverlapResults_of_ne_nil Sel2 bWithEditor Quat Events
        H2 hne Store, ← hLoc, hloop2]
      simp

/-- The amended C28 applied to two cylinders of radius 500: one in `Velocity` mode on a
character at maximum speed, whose overlap box is enlarged to the maximum half-extent
(1000, 760, 240), the other with movement selection `Disabled` and another maximum
half-extent.  On the far hit (600 away, so inside the enlarged box, with the `float`
comparison true) and the near hit, both runs accept the same hits, the comparison is
false for each of them, and both return the same count. -/
theorem cylinder_acceptance_reads_base_radius_only_witness :
    UGraspTargetSelection.GetCollisionShape Scenario.Cylinder
        (Scenario.CharacterHandle Scenario.SaturatedMovement) =
      FCollisionShape.MakeBox { X := 1000, Y := 760, Z := 240 } ∧
    FFloat.Gt (UGraspTargetSelection.DistanceSquared Scenario.FarActor.ActorLocation
        (SourceLocationOf Scenario.Events Scenario.Handle))
      Scenario.Cylinder.RadiusSquared = true ∧
    ∃ Accepted : List (FOverlapResult × AActor),
      (Accepted.map Prod.fst).Sublist [Scenario.FarOverlap, Scenario.NearOverlap] ∧
      (∀ p ∈ Accepted, p.1.GetActor = some p.2 ∧
        FFloat.Gt (UGraspTargetSelection.DistanceSquared p.2.ActorLocation
            (SourceLocationOf Scenario.Events
              (Scenario.CharacterHandle Scenario.SaturatedMovement)))
          Scenario.Cylinder.RadiusSquared = false) ∧
      ResultsOf (Scenario.Cylinder.ProcessOverlapResults false Scenario.QuatMath
          Scenario.Events (Scenario.CharacterHandle Scenario.SaturatedMovement)
          [Scenario.FarOverlap, Scenario.NearOverlap] none).Store =
        ResultsOf none ++ Accepted.map (fun p =>
          (TaskInBuild Scenario.Cylinder false).NewResultData Scenario.QuatMath
            (SourceLocationOf Scenario.Events
              (Scenario.CharacterHandle Scenario.SaturatedMovement))
            (SourceRotationOf Scenario.QuatMath Scenario.Events
              (Scenario.CharacterHandle Scenario.SaturatedMovement)) p.1 p.2) ∧
      ResultsOf (Scenario.OtherCylinder.ProcessOverlapResults false Scenario.QuatMath
          Scenario.Events Scenario.Handle
          [Scenario.FarOverlap, Scenario.NearOverlap] none).Store =
        ResultsOf none ++ Accepted.map (fun p =>
          (TaskInBuild Scenario.OtherCylinder false).NewResultData Scenario.QuatMath
            (SourceLocationOf Scenario.Events Scenario.Handle)
            (SourceRotationOf Scenario.QuatMath Scenario.Events Scenario.Handle) p.1 p.2) ∧
      (Scenario.Cylinder.ProcessOverlapResults false Scenario.QuatMath
          Scenario.Events (Scenario.CharacterHandle Scenario.SaturatedMovement)
          [Scenario.FarOverlap, Scenario.NearOverlap] none).NumValidResults =
        (Accepted.length : Int) ∧
      (Scenario.OtherCylinder.ProcessOverlapResults false Scenario.QuatMath
          Scenario.Events Scenario.Handle
          [Scenario.FarOverlap, Scenario.NearOverlap] none).NumValidResults =
        (Accepted.length : Int) := by
  refine ⟨?_, Scenario.far_is_outside, ?_⟩
  · have hα := Scenario.alpha_saturated_one EGraspTargetingShape.Cylinder
    simp only [UGraspTargetSelection.GetCollisionShape, Scenario.Cylinder, hα,
      FMath.LerpVector_one]
  · exact cylinder_acceptance_reads_base_radius_only Scenario.Cylinder
      Scenario.OtherCylinder false Scenario.QuatMath Scenario.Events
      (Scenario.CharacterHandle Scenario.SaturatedMovement) Scenario.Handle
      [Scenario.FarOverlap, Scenario.NearOverlap] none rfl rfl rfl rfl

/-! ## The targeting pass -/

theorem FTaskRun.TaskState_SetTaskAsyncState (Run : FTaskRun)
    (AsyncState : ETargetingTaskAsyncState) :
    (Run.SetTaskAsyncState AsyncState).TaskState = some AsyncState := by
  simp [FTaskRun.TaskState, FTaskRun.SetTaskAsyncState]

/-- The immediate trace sets `Completed` once and sets no other state. -/
theorem UGraspTargetSelection.ExecuteImmediateTrace_AsyncStates (Engine : FTargetingEngine)
    (H : FTargetingRequestHandle) (Run : FTaskRun) :
    (ExecuteImmediateTrace Engine H Run).AsyncStates =
      Run.AsyncStates ++ [ETargetingTaskAsyncState.Completed] := by
  unfold ExecuteImmediateTrace
  rcases Engine.GetSourceContextWorld H with _ | World
  · rfl
  · cases hv : H.bIsValid
    · simp [FTaskRun.SetTaskAsyncState]
    · simp [FTaskRun.SetTaskAsyncState]

/-- The synchronous `Execute` ends with the state `Completed`. -/
theorem Execute_TaskState_of_not_async (Engine : FTargetingEngine)
    (H : FTargetingRequestHandle) (Run : FTaskRun)
    (hsync : Engine.IsAsyncTargetingRequest H = false) :
    (UGraspTargetSelection.Execute Engine H Run).TaskState =
      some ETargetingTaskAsyncState.Completed := by
  have hstates : (UGraspTargetSelection.Execute Engine H Run).AsyncStates =
      Run.AsyncStates ++
        [ETargetingTaskAsyncState.Executing, ETargetingTaskAsyncState.Completed] := by
    unfold UGraspTargetSelection.Execute
    simp only [hsync, Bool.false_eq_true, if_false]
    rw [UGraspTargetSelection.ExecuteImmediateTrace_AsyncStates]
    simp [FTaskRun.SetTaskAsyncState]
  unfold FTaskRun.TaskState
  rw [hstates]
  simp

/-- C22: on the synchronous path the task always ends `Completed`.  For every request
that is not an async targeting request, `Execute` sets the task state to `Executing`,
then to `Completed`, and sets no other state, whether or not a world is resolvable, the
handle is valid, or the overlap query reports any hits; on return the state is
`Completed`. -/
theorem sync_execute_ends_completed (Engine : FTargetingEngine)
    (H : FTargetingRequestHandle) (Run : FTaskRun)
    (hsync : Engine.IsAsyncTargetingRequest H = false) :
    (UGraspTargetSelection.Execute Engine H Run).AsyncStates =
        Run.AsyncStates ++
          [ETargetingTaskAsyncState.Executing, ETargetingTaskAsyncState.Completed] ∧
    (UGraspTargetSelection.Execute Engine H Run).TaskState =
      some ETargetingTaskAsyncState.Completed := by
  have hstates : (UGraspTargetSelection.Execute Engine H Run).AsyncStates =
      Run.AsyncStates ++
        [ETargetingTaskAsyncState.Executing, ETargetingTaskAsyncState.Completed] := by
    unfold UGraspTargetSelection.Execute
    simp only [hsync, Bool.false_eq_true, if_false]
    rw [UGraspTargetSelection.ExecuteImmediateTrace_AsyncStates]
    simp [FTaskRun.SetTaskAsyncState]
  refine ⟨hstates, ?_⟩
  unfold FTaskRun.TaskState
  rw [hstates]
  simp

/-- The statement of C22 applied to three synchronous requests, each starting with no
state set: with a world and a valid handle (the query reports two hits), without a
world, and with an invalid handle, the states set are `Executing` then `Completed`. -/
theorem sync_execute_ends_completed_witness :
    (UGraspTargetSelection.Execute (Scenario.Engine false) Scenario.Handle
        (Scenario.FreshRun { })).AsyncStates =
      [ETargetingTaskAsyncState.Executing, ETargetingTaskAsyncState.Completed] ∧
    (UGraspTargetSelection.Execute (Scenario.NoWorldEngine false) Scenario.Handle
        (Scenario.FreshRun { })).AsyncStates =
      [ETargetingTaskAsyncState.Executing, ETargetingTaskAsyncState.Completed] ∧
    (UGraspTargetSelection.Execute (Scenario.Engine false) Scenario.InvalidHandle
        (Scenario.FreshRun { })).AsyncStates =
      [ETargetingTaskAsyncState.Executing, ETargetingTaskAsyncState.Completed] ∧
    (UGraspTargetSelection.Execute (Scenario.Engine false) Scenario.Handle
        (Scenario.FreshRun { })).TaskState = some ETargetingTaskAsyncState.Completed :=
  ⟨(sync_execute_ends_completed (Scenario.Engine false) Scenario.Handle
      (Scenario.FreshRun { }) rfl).1,
    (sync_execute_ends_completed (Scenario.NoWorldEngine false) Scenario.Handle
      (Scenario.FreshRun { }) rfl).1,
    (sync_execute_ends_completed (Scenario.Engine false) Scenario.InvalidHandle
      (Scenario.FreshRun { }) rfl).1,
    (sync_execute_ends_completed (Scenario.Engine false) Scenario.Handle
      (Scenario.FreshRun { }) rfl).2⟩

/-- The async trace with a world and a valid handle issues one asynchronous query and
touches nothing else. -/
theorem UGraspTargetSelection.ExecuteAsyncTrace_of_world (Engine : FTargetingEngine)
    (H : FTargetingRequestHandle) (Run : FTaskRun) (World : UWorld)
    (hW : Engine.GetSourceContextWorld H = some World) (hvalid : H.bIsValid = true) :
    ∃ Query, ExecuteAsyncTrace Engine H Run =
      { Run with AsyncQueries := Run.AsyncQueries ++ [Query] } := by
  unfold ExecuteAsyncTrace
  rw [hW]
  simp only [hvalid, if_true]
  exact ⟨_, rfl⟩

/-- The async trace without a world or with an invalid handle only sets `Completed`. -/
theorem UGraspTargetSelection.ExecuteAsyncTrace_of_no_world (Engine : FTargetingEngine)
    (H : FTargetingRequestHandle) (Run : FTaskRun)
    (hno : Engine.GetSourceContextWorld H = none ∨ H.bIsValid = false) :
    ExecuteAsyncTrace Engine H Run =
      Run.SetTaskAsyncState ETargetingTaskAsyncState.Completed := by
  unfold ExecuteAsyncTrace
  rcases hno with hW | hv
  · rw [hW]
  · rcases Engine.GetSourceContextWorld H with _ | World
    · rfl
    · simp [hv]

/-- C25: the asynchronous path.  `Execute` on an async request with a resolvable world
and a valid handle sets `Executing` only, issues one asynchronous query and leaves the
result set as it is, so that the state is `Executing` on return.
`HandleAsyncOverlapComplete` sets `Completed`, and no other state, for every handle; it
processes the overlaps when the handle is valid and leaves the result set as it is when
the handle is not valid.  When no world is resolvable or the handle is invalid,
`ExecuteAsyncTrace` sets `Completed` and issues no query. -/
theorem async_path_states (Engine : FTargetingEngine) (H : FTargetingRequestHandle)
    (Run : FTaskRun) (OutOverlaps : List FOverlapResult) :
    (∀ World, Engine.IsAsyncTargetingRequest H = true →
      Engine.GetSourceContextWorld H = some World → H.bIsValid = true →
      (UGraspTargetSelection.Execute Engine H Run).AsyncStates =
          Run.AsyncStates ++ [ETargetingTaskAsyncState.Executing] ∧
        (UGraspTargetSelection.Execute Engine H Run).TaskState =
          some ETargetingTaskAsyncState.Executing ∧
        (∃ Query, (UGraspTargetSelection.Execute Engine H Run).AsyncQueries =
          Run.AsyncQueries ++ [Query]) ∧
        (UGraspTargetSelection.Execute Engine H Run).SyncQueries = Run.SyncQueries ∧
        (UGraspTargetSelection.Execute Engine H Run).Store = Run.Store) ∧
    ((UGraspTargetSelection.HandleAsyncOverlapComplete Engine OutOverlaps H Run).AsyncStates =
        Run.AsyncStates ++ [ETargetingTaskAsyncState.Completed] ∧
      (UGraspTargetSelection.HandleAsyncOverlapComplete Engine OutOverlaps H Run).TaskState =
        some ETargetingTaskAsyncState.Completed ∧
      (H.bIsValid = true →
        (UGraspTargetSelection.HandleAsyncOverlapComplete Engine OutOverlaps H Run).Store =
          (Run.This.ProcessOverlapResults Engine.bWithEditor Engine.Quat Engine.Events H
            OutOverlaps Run.Store).Store) ∧
      (H.bIsValid = false →
        (UGraspTargetSelection.HandleAsyncOverlapComplete Engine OutOverlaps H Run).Store =
          Run.Store)) ∧
    (Engine.GetSourceContextWorld H = none ∨ H.bIsValid = false →
      (UGraspTargetSelection.ExecuteAsyncTrace Engine H Run).AsyncStates =
          Run.AsyncStates ++ [ETargetingTaskAsyncState.Completed] ∧
        (UGraspTargetSelection.ExecuteAsyncTrace Engine H Run).AsyncQueries =
          Run.AsyncQueries ∧
        (UGraspTargetSelection.ExecuteAsyncTrace Engine H Run).SyncQueries =
          Run.SyncQueries) := by
  refine ⟨?_, ?_, ?_⟩
  · intro World hasync hW hvalid
    obtain ⟨Query, hQ⟩ := UGraspTargetSelection.ExecuteAsyncTrace_of_world Engine H
      (Run.SetTaskAsyncState ETargetingTaskAsyncState.Executing) World hW hvalid
    have hE : UGraspTargetSelection.Execute Engine H Run =
        { Run.SetTaskAsyncState ETargetingTaskAsyncState.Executing with
          AsyncQueries := (Run.SetTaskAsyncState ETargetingTaskAsyncState.Executing).AsyncQueries
            ++ [Query] } := by
      unfold UGraspTargetSelection.Execute
      simp only [hasync, if_true]
      exact hQ
    rw [hE]
    refine ⟨rfl, ?_, ⟨Query, rfl⟩, rfl, rfl⟩
    simp [FTaskRun.TaskState, FTaskRun.SetTaskAsyncState]
  · unfold UGraspTargetSelection.HandleAsyncOverlapComplete
    cases hv : H.bIsValid
    · simp [FTaskRun.SetTaskAsyncState, FTaskRun.TaskState]
    · simp [FTaskRun.SetTaskAsyncState, FTaskRun.TaskState]
  · intro hno
    rw [UGraspTargetSelection.ExecuteAsyncTrace_of_no_world Engine H Run hno]
    exact ⟨rfl, rfl, rfl⟩

/-- The statement of C25 applied to an async request with a world and a valid handle
(state `Executing` on return, one asynchronous query issued, no synchronous one), to the
completion callback on a valid and on an invalid handle (state `Completed`; the invalid
handle keeps the empty result set), and to `ExecuteAsyncTrace` without a world and with
an invalid handle (state `Completed`, no query issued). -/
theorem async_path_states_witness :
    ((UGraspTargetSelection.Execute (Scenario.Engine true) Scenario.Handle
          (Scenario.FreshRun { })).TaskState = some ETargetingTaskAsyncState.Executing ∧
      (∃ Query, (UGraspTargetSelection.Execute (Scenario.Engine true) Scenario.Handle
          (Scenario.FreshRun { })).AsyncQueries = [] ++ [Query]) ∧
      (UGraspTargetSelection.Execute (Scenario.Engine true) Scenario.Handle
          (Scenario.FreshRun { })).SyncQueries = []) ∧
    ((UGraspTargetSelection.HandleAsyncOverlapComplete (Scenario.Engine true)
          [Scenario.NearOverlap] Scenario.Handle (Scenario.FreshRun { })).TaskState =
        some ETargetingTaskAsyncState.Completed ∧
      (UGraspTargetSelection.HandleAsyncOverlapComplete (Scenario.Engine true)
          [Scenario.NearOverlap] Scenario.Handle (Scenario.FreshRun { })).Store =
        (UGraspTargetSelection.ProcessOverlapResults { } false Scenario.QuatMath
          Scenario.Events Scenario.Handle [Scenario.NearOverlap] none).Store) ∧
    ((UGraspTargetSelection.HandleAsyncOverlapComplete (Scenario.Engine true)
          [Scenario.NearOverlap] Scenario.InvalidHandle (Scenario.FreshRun { })).TaskState =
        some ETargetingTaskAsyncState.Completed ∧
      (UGraspTargetSelection.HandleAsyncOverlapComplete (Scenario.Engine true)
          [Scenario.NearOverlap] Scenario.InvalidHandle (Scenario.FreshRun { })).Store =
        none) ∧
    ((UGraspTargetSelection.ExecuteAsyncTrace (Scenario.NoWorldEngine true) Scenario.Handle
          (Scenario.FreshRun { })).AsyncStates = [ETargetingTaskAsyncState.Completed] ∧
      (UGraspTargetSelection.ExecuteAsyncTrace (Scenario.NoWorldEngine true) Scenario.Handle
          (Scenario.FreshRun { })).AsyncQueries = []) ∧
    ((UGraspTargetSelection.ExecuteAsyncTrace (Scenario.Engine true) Scenario.InvalidHandle
          (Scenario.FreshRun { })).AsyncStates = [ETargetingTaskAsyncState.Completed] ∧
      (UGraspTargetSelection.ExecuteAsyncTrace (Scenario.Engine true) Scenario.InvalidHandle
          (Scenario.FreshRun { })).AsyncQueries = []) :=
  have h1 := (async_path_states (Scenario.Engine true) Scenario.Handle
    (Scenario.FreshRun { }) [Scenario.NearOverlap]).1 Scenario.World rfl rfl rfl
  have h2 := (async_path_states (Scenario.Engine true) Scenario.Handle
    (Scenario.FreshRun { }) [Scenario.NearOverlap]).2.1
  have h3 := (async_path_states (Scenario.Engine true) Scenario.InvalidHandle
    (Scenario.FreshRun { }) [Scenario.NearOverlap]).2.1
  have h4 := (async_path_states (Scenario.NoWorldEngine true) Scenario.Handle
    (Scenario.FreshRun { }) []).2.2 (Or.inl rfl)
  have h5 := (async_path_states (Scenario.Engine true) Scenario.InvalidHandle
    (Scenario.FreshRun { }) []).2.2 (Or.inr rfl)
  ⟨⟨h1.2.1, h1.2.2.1, h1.2.2.2.1⟩, ⟨h2.2.1, h2.2.2.1 rfl⟩, ⟨h3.2.1, h3.2.2.2 rfl⟩,
    ⟨h4.1, h4.2.1⟩, ⟨h5.1, h5.2.1⟩⟩

/-- C26, as stated, fails: for an async targeting request with a resolvable world and a
valid handle, `Execute` does not run the immediate trace.  It issues no synchronous
query (the immediate trace issues one), processes no overlap, and on return the last
state set is `Executing`, not `Completed`. -/
theorem async_execute_is_not_immediate_counterexample :
    (Scenario.Engine true).IsAsyncTargetingRequest Scenario.Handle = true ∧
    (UGraspTargetSelection.Execute (Scenario.Engine true) Scenario.Handle
        (Scenario.FreshRun { })).TaskState = some ETargetingTaskAsyncState.Executing ∧
    ¬ ((UGraspTargetSelection.Execute (Scenario.Engine true) Scenario.Handle
        (Scenario.FreshRun { })).TaskState = some ETargetingTaskAsyncState.Completed) ∧
    (UGraspTargetSelection.Execute (Scenario.Engine true) Scenario.Handle
        (Scenario.FreshRun { })).SyncQueries.length = 0 ∧
    (UGraspTargetSelection.ExecuteImmediateTrace (Scenario.Engine true) Scenario.Handle
        ((Scenario.FreshRun { }).SetTaskAsyncState
          ETargetingTaskAsyncState.Executing)).SyncQueries.length = 1 :=
  ⟨rfl, by decide, by decide, by decide, by decide⟩

/-- C26, amended: `Execute` sets `Executing` and then dispatches on the request.  For
every request that is not async it performs the steps of `ExecuteImmediateTrace` and the
task state is `Completed` when it returns.  For every async request it performs the
steps of `ExecuteAsyncTrace`, and the task state is `Completed` when it returns exactly
when no world is resolvable or the handle is invalid. -/
theorem execute_dispatches_on_async (Engine : FTargetingEngine)
    (H : FTargetingRequestHandle) (Run : FTaskRun) :
    (Engine.IsAsyncTargetingRequest H = false →
      UGraspTargetSelection.Execute Engine H Run =
          UGraspTargetSelection.ExecuteImmediateTrace Engine H
            (Run.SetTaskAsyncState ETargetingTaskAsyncState.Executing) ∧
        (UGraspTargetSelection.Execute Engine H Run).TaskState =
          some ETargetingTaskAsyncState.Completed) ∧
    (Engine.IsAsyncTargetingRequest H = true →
      UGraspTargetSelection.Execute Engine H Run =
          UGraspTargetSelection.ExecuteAsyncTrace Engine H
            (Run.SetTaskAsyncState ETargetingTaskAsyncState.Executing) ∧
        ((UGraspTargetSelection.Execute Engine H Run).TaskState =
            some ETargetingTaskAsyncState.Completed ↔
          (Engine.GetSourceContextWorld H).isNone = true ∨ H.bIsValid = false)) := by
  constructor
  · intro hsync
    refine ⟨?_, (Execute_TaskState_of_not_async Engine H Run hsync)⟩
    unfold UGraspTargetSelection.Execute
    simp only [hsync, Bool.false_eq_true, if_false]
  · intro hasync
    have hE : UGraspTargetSelection.Execute Engine H Run =
        UGraspTargetSelection.ExecuteAsyncTrace Engine H
          (Run.SetTaskAsyncState ETargetingTaskAsyncState.Executing) := by
      unfold UGraspTargetSelection.Execute
      simp only [hasync, if_true]
    refine ⟨hE, ?_⟩
    rw [hE]
    rcases hW : Engine.GetSourceContextWorld H with _ | World
    · rw [UGraspTargetSelection.ExecuteAsyncTrace_of_no_world Engine H _ (Or.inl hW),
        FTaskRun.TaskState_SetTaskAsyncState]
      simp
    · cases hv : H.bIsValid
      · rw [UGraspTargetSelection.ExecuteAsyncTrace_of_no_world Engine H _ (Or.inr hv),
          FTaskRun.TaskState_SetTaskAsyncState]
        simp
      · obtain ⟨Query, hQ⟩ := UGraspTargetSelection.ExecuteAsyncTrace_of_world Engine H
          (Run.SetTaskAsyncState ETargetingTaskAsyncState.Executing) World hW hv
        rw [hQ]
        simp [FTaskRun.TaskState, FTaskRun.SetTaskAsyncState]

/-- The amended C26 applied to a synchronous request (state `Completed` on return), to
an async request with a world and a valid handle (not `Completed` on return) and to an
async request without a world (`Completed` on return). -/
theorem execute_dispatches_on_async_witness :
    (UGraspTargetSelection.Execute (Scenario.Engine false) Scenario.Handle
        (Scenario.FreshRun { })).TaskState = some ETargetingTaskAsyncState.Completed ∧
    ¬ ((UGraspTargetSelection.Execute (Scenario.Engine true) Scenario.Handle
        (Scenario.FreshRun { })).TaskState = some ETargetingTaskAsyncState.Completed) ∧
    (UGraspTargetSelection.Execute (Scenario.NoWorldEngine true) Scenario.Handle
        (Scenario.FreshRun { })).TaskState = some ETargetingTaskAsyncState.Completed :=
  ⟨((execute_dispatches_on_async (Scenario.Engine false) Scenario.Handle
      (Scenario.FreshRun { })).1 rfl).2,
    fun h =>
      Or.elim
        ((((execute_dispatches_on_async (Scenario.Engine true) Scenario.Handle
          (Scenario.FreshRun { })).2 rfl).2).mp h)
        (fun hnone => absurd hnone (by decide))
        (fun hinv => absurd hinv (by decide)),
    (((execute_dispatches_on_async (Scenario.NoWorldEngine true) Scenario.Handle
      (Scenario.FreshRun { })).2 rfl).2).mpr (Or.inl rfl)⟩

/-- The immediate trace with a world and a valid handle issues exactly one synchronous
query, the one chosen by the object types, the profile name and the channel in that
order. -/
theorem UGraspTargetSelection.ExecuteImmediateTrace_SyncQueries (Engine : FTargetingEngine)
    (H : FTargetingRequestHandle) (Run : FTaskRun) (World : UWorld)
    (hW : Engine.GetSourceContextWorld H = some World) (hvalid : H.bIsValid = true) :
    ∃ Query, (ExecuteImmediateTrace Engine H Run).SyncQueries = Run.SyncQueries ++ [Query] ∧
      Query.By =
        (if Run.This.CollisionObjectTypes.length > 0 then
          FOverlapQueryBy.ObjectType
            (Run.This.CollisionObjectTypes.map Engine.ConvertToCollisionChannel)
        else if Run.This.CollisionProfileName.Name ≠ FName.NoCollision then
          FOverlapQueryBy.Profile Run.This.CollisionProfileName.Name
        else FOverlapQueryBy.Channel Run.This.CollisionChannel) := by
  unfold ExecuteImmediateTrace
  rw [hW]
  simp only [hvalid, if_true]
  refine ⟨_, rfl, ?_⟩
  split
  · rfl
  · split
    · rfl
    · rfl

/-- The async trace with a world and a valid handle issues exactly one asynchronous
query, the one chosen by the object types, the profile name and the channel in that
order. -/
theorem UGraspTargetSelection.ExecuteAsyncTrace_AsyncQueries (Engine : FTargetingEngine)
    (H : FTargetingRequestHandle) (Run : FTaskRun) (World : UWorld)
    (hW : Engine.GetSourceContextWorld H = some World) (hvalid : H.bIsValid = true) :
    ∃ Query, (ExecuteAsyncTrace Engine H Run).AsyncQueries = Run.AsyncQueries ++ [Query] ∧
      Query.By =
        (if Run.This.CollisionObjectTypes.length > 0 then
          FOverlapQueryBy.ObjectType
            (Run.This.CollisionObjectTypes.map Engine.ConvertToCollisionChannel)
        else if Run.This.CollisionProfileName.Name ≠ FName.NoCollision then
          FOverlapQueryBy.Profile Run.This.CollisionProfileName.Name
        else FOverlapQueryBy.Channel Run.This.CollisionChannel) := by
  unfold ExecuteAsyncTrace
  rw [hW]
  simp only [hvalid, if_true]
  refine ⟨_, rfl, ?_⟩
  split
  · rfl
  · split
    · rfl
    · rfl

/-- C23, as stated, fails: the task as constructed has the profile name "NoCollision"
and one entry in `CollisionObjectTypes`, and both the immediate and the async trace
query by object type, not by channel with `CollisionChannel`. -/
theorem channel_query_for_every_object_types_counterexample :
    (Scenario.FreshRun { }).This.CollisionProfileName.Name = FName.NoCollision ∧
    (Scenario.FreshRun { }).This.CollisionChannel = ECC_Visibility ∧
    (UGraspTargetSelection.ExecuteImmediateTrace (Scenario.Engine false) Scenario.Handle
        (Scenario.FreshRun { })).SyncQueries.map FOverlapQuery.By =
      [FOverlapQueryBy.ObjectType [ECC_WorldDynamic]] ∧
    (UGraspTargetSelection.ExecuteAsyncTrace (Scenario.Engine true) Scenario.Handle
        (Scenario.FreshRun { })).AsyncQueries.map FOverlapQuery.By =
      [FOverlapQueryBy.ObjectType [ECC_WorldDynamic]] ∧
    FOverlapQueryBy.ObjectType [ECC_WorldDynamic] ≠
      FOverlapQueryBy.Channel ECC_Visibility :=
  ⟨rfl, rfl, rfl, rfl, fun h => FOverlapQueryBy.noConfusion h⟩

/-- C23, amended: when the collision profile name is "NoCollision", a world is
resolvable and the handle is valid, each of the immediate and the async trace issues
exactly one overlap query.  When `CollisionObjectTypes` is empty that query is by
channel using `CollisionChannel`; when `CollisionObjectTypes` is not empty it is by
object type, over the channels converted from `CollisionObjectTypes`. -/
theorem channel_query_needs_empty_object_types (Engine : FTargetingEngine)
    (H : FTargetingRequestHandle) (Run : FTaskRun) (World : UWorld)
    (hprofile : Run.This.CollisionProfileName.Name = FName.NoCollision)
    (hW : Engine.GetSourceContextWorld H = some World) (hvalid : H.bIsValid = true) :
    (Run.This.CollisionObjectTypes = [] →
      (∃ Query, (UGraspTargetSelection.ExecuteImmediateTrace Engine H Run).SyncQueries =
          Run.SyncQueries ++ [Query] ∧
        Query.By = FOverlapQueryBy.Channel Run.This.CollisionChannel) ∧
      (∃ Query, (UGraspTargetSelection.ExecuteAsyncTrace Engine H Run).AsyncQueries =
          Run.AsyncQueries ++ [Query] ∧
        Query.By = FOverlapQueryBy.Channel Run.This.CollisionChannel)) ∧
    (Run.This.CollisionObjectTypes ≠ [] →
      (∃ Query, (UGraspTargetSelection.ExecuteImmediateTrace Engine H Run).SyncQueries =
          Run.SyncQueries ++ [Query] ∧
        Query.By = FOverlapQueryBy.ObjectType
          (Run.This.CollisionObjectTypes.map Engine.ConvertToCollisionChannel)) ∧
      (∃ Query, (UGraspTargetSelection.ExecuteAsyncTrace Engine H Run).AsyncQueries =
          Run.AsyncQueries ++ [Query] ∧
        Query.By = FOverlapQueryBy.ObjectType
          (Run.This.CollisionObjectTypes.map Engine.ConvertToCollisionChannel))) := by
  obtain ⟨Qs, hQs, hBs⟩ :=
    UGraspTargetSelection.ExecuteImmediateTrace_SyncQueries Engine H Run World hW hvalid
  obtain ⟨Qa, hQa, hBa⟩ :=
    UGraspTargetSelection.ExecuteAsyncTrace_AsyncQueries Engine H Run World hW hvalid
  constructor
  · intro hempty
    have hlen : ¬ (Run.This.CollisionObjectTypes.length > 0) := by
      rw [hempty]; decide
    have hname : ¬ (Run.This.CollisionProfileName.Name ≠ FName.NoCollision) :=
      fun hne => hne hprofile
    rw [if_neg hlen, if_neg hname] at hBs hBa
    exact ⟨⟨Qs, hQs, hBs⟩, ⟨Qa, hQa, hBa⟩⟩
  · intro hne
    have hlen : Run.This.CollisionObjectTypes.length > 0 :=
      List.length_pos.mpr hne
    rw [if_pos hlen] at hBs hBa
    exact ⟨⟨Qs, hQs, hBs⟩, ⟨Qa, hQa, hBa⟩⟩

/-- The amended C23 applied to a task whose `CollisionObjectTypes` has been emptied:
both traces query by channel with `ECC_Visibility`. -/
theorem channel_query_needs_empty_object_types_witness :
    (∃ Query, (UGraspTargetSelection.ExecuteImmediateTrace (Scenario.Engine false)
          Scenario.Handle (Scenario.FreshRun { CollisionObjectTypes := [] })).SyncQueries =
        [] ++ [Query] ∧
      Query.By = FOverlapQueryBy.Channel ECC_Visibility) ∧
    (∃ Query, (UGraspTargetSelection.ExecuteAsyncTrace (Scenario.Engine false)
          Scenario.Handle (Scenario.FreshRun { CollisionObjectTypes := [] })).AsyncQueries =
        [] ++ [Query] ∧
      Query.By = FOverlapQueryBy.Channel ECC_Visibility) :=
  (channel_query_needs_empty_object_types (Scenario.Engine false) Scenario.Handle
    (Scenario.FreshRun { CollisionObjectTypes := [] }) Scenario.World rfl rfl rfl).1 rfl

end Grasp
